import Mathlib

set_option linter.unusedVariables false

/-! Shallow embedding of the roznamcha posting and ledger-computation engine.

The source is a Django application (src/core/models.py and
src/core/services/ledger.py).  Persistent state — the tables of accounts,
products, journal entries and transactional documents — is modelled by the
structure `DB`; each `post` method becomes a function
`DB → Except PostError (document × DB)`.  A `transaction.atomic` block that
raises corresponds to a `.error` result: the caller observes the unchanged
pre-call state (`observedDB`).  Python `Decimal` arithmetic is exact, so
amounts and quantities are modelled by `ℚ`.  Dates are modelled by `Nat`
(only their ordering matters). -/

inductive AccountType
  | ASSET | LIABILITY | EQUITY | INCOME | EXPENSE
  deriving DecidableEq, Repr

inductive PartyType
  | CUSTOMER | SUPPLIER
  deriving DecidableEq, Repr

inductive Direction
  | IN | OUT
  deriving DecidableEq, Repr

inductive PaymentType
  | CREDIT | FULL | PARTIAL
  deriving DecidableEq, Repr

inductive AdjDirection
  | UP | DOWN
  deriving DecidableEq, Repr

/-- The `related_model` tags written by the engine (CharField values in the
source: "SalesInvoice", "PurchaseInvoice", "SalesReturn", "PurchaseReturn",
"Payment", "DailyExpense", "CashBankTransfer", "StockAdjustment",
"PartyOpening"). -/
inductive SourceKind
  | salesInvoice | purchaseInvoice | salesReturn | purchaseReturn
  | payment | dailyExpense | cashBankTransfer | stockAdjustment | partyOpening
  deriving DecidableEq, Repr

/-- Chart-of-accounts row (class Account).  Non-semantic fields (name) are
omitted. -/
structure Account where
  id : Nat
  owner : Nat
  code : String
  accountType : AccountType
  isCashOrBank : Bool
  allowForPayments : Bool
  deriving DecidableEq, Repr

/-- Product row; only the fields posting touches. -/
structure Product where
  id : Nat
  owner : Nat
  currentStock : ℚ
  deriving DecidableEq, Repr

/-- Party row (customer or supplier). `owner` is optional because the code
defensively checks `self.owner is None`. -/
structure Party where
  id : Nat
  owner : Option Nat
  partyType : PartyType
  openingBalance : ℚ
  openingBalanceIsDebit : Bool
  deriving DecidableEq, Repr

/-- Single-line journal entry (class JournalEntry).  `debitAccount` and
`creditAccount` hold the referenced Account ids, exactly as the FK columns
do. -/
structure JournalEntry where
  owner : Nat
  date : Nat
  debitAccount : Nat
  creditAccount : Nat
  amount : ℚ
  relatedModel : SourceKind
  relatedId : Nat
  deriving DecidableEq, Repr

/-- Invoice / return line item.  SalesInvoiceItem, PurchaseInvoiceItem,
SalesReturnItem and PurchaseReturnItem have identical posting-relevant
fields and an identical `line_total` property, so one structure models all
four. -/
structure LineItem where
  productId : Nat
  quantityUnits : ℚ
  unitPrice : ℚ
  discountAmount : ℚ
  deriving DecidableEq, Repr

def LineItem.lineTotal (it : LineItem) : ℚ :=
  it.quantityUnits * it.unitPrice - it.discountAmount

/-- Payment document (class Payment).  `party` and `account` hold the
referenced rows (Django accesses `self.party` / `self.account` directly);
`adjustmentSide` is the raw CharField, which may be blank. -/
structure Payment where
  id : Nat
  owner : Option Nat
  date : Nat
  party : Option Party
  account : Option Account
  direction : Direction
  amount : ℚ
  posted : Bool
  relatedModel : Option SourceKind
  relatedId : Option Nat
  isAdjustment : Bool
  adjustmentSide : String
  deriving DecidableEq, Repr

structure SalesInvoice where
  id : Nat
  owner : Option Nat
  customer : Party
  invoiceDate : Nat
  posted : Bool
  paymentType : PaymentType
  paymentAccount : Option Account
  paymentAmount : ℚ
  items : List LineItem
  deriving DecidableEq, Repr

structure PurchaseInvoice where
  id : Nat
  owner : Option Nat
  supplier : Party
  invoiceDate : Nat
  freightCharges : ℚ
  otherCharges : ℚ
  posted : Bool
  paymentType : PaymentType
  paymentAccount : Option Account
  paymentAmount : ℚ
  items : List LineItem
  deriving DecidableEq, Repr

structure SalesReturn where
  id : Nat
  owner : Option Nat
  customer : Party
  returnDate : Nat
  referenceInvoice : Option SalesInvoice
  posted : Bool
  items : List LineItem
  deriving DecidableEq, Repr

structure PurchaseReturn where
  id : Nat
  owner : Option Nat
  supplier : Party
  returnDate : Nat
  referenceInvoice : Option PurchaseInvoice
  posted : Bool
  items : List LineItem
  deriving DecidableEq, Repr

/-- Daily expense document; `paidFrom` and `expenseHead` are required FKs so
they hold the Account rows directly. -/
structure DailyExpense where
  id : Nat
  owner : Option Nat
  date : Nat
  paidFrom : Account
  expenseHead : Account
  amount : ℚ
  posted : Bool
  deriving DecidableEq, Repr

structure CashBankTransfer where
  id : Nat
  owner : Option Nat
  date : Nat
  fromAccount : Account
  toAccount : Account
  amount : ℚ
  posted : Bool
  deriving DecidableEq, Repr

structure StockAdjustment where
  id : Nat
  owner : Option Nat
  date : Nat
  productId : Nat
  direction : AdjDirection
  qty : ℚ
  unitCost : ℚ
  posted : Bool
  deriving DecidableEq, Repr

/-- StockAdjustment.amount property: qty times unit cost. -/
def StockAdjustment.amount (sa : StockAdjustment) : ℚ := sa.qty * sa.unitCost

/-- Persistent state: one field per table the engine touches, plus the
auto-increment counters for the rows the engine itself creates (accounts
from get_or_create, auto-generated payments). -/
structure DB where
  accounts : List Account
  products : List Product
  entries : List JournalEntry
  payments : List Payment
  salesInvoices : List SalesInvoice
  purchaseInvoices : List PurchaseInvoice
  salesReturns : List SalesReturn
  purchaseReturns : List PurchaseReturn
  dailyExpenses : List DailyExpense
  cashBankTransfers : List CashBankTransfer
  stockAdjustments : List StockAdjustment
  nextAccountId : Nat
  nextPaymentId : Nat
  deriving DecidableEq, Repr

/-- Errors a posting operation can raise.  `ownerNotResolved` and
`crossOwner` are PermissionDenied in the source; `invalidDoc` covers the
ValueError / invalid-state raises (missing party, normal payment without a
cash-bank account, transfer between identical accounts); `notFound` is a
select_for_update `.get` on a missing row. -/
inductive PostError
  | ownerNotResolved | crossOwner | invalidDoc | notFound
  deriving DecidableEq, Repr

/-- The state a caller observes after a posting call: the new state on
success, the unchanged pre-call state when the enclosing transaction
aborted on a raise. -/
def observedDB {α : Type} (db : DB) : Except PostError (α × DB) → DB
  | .ok (_, db') => db'
  | .error _ => db

/-- Lookup of get_company_account: one account per (owner, code). -/
def companyAcctFind (db : DB) (ow : Nat) (code : String) : Option Account :=
  db.accounts.find? (fun a => a.owner == ow && a.code == code)

/-- The account returned by get_company_account (existing row, or the row
that will be created with the supplied defaults). -/
def companyAcct (db : DB) (ow : Nat) (code : String) (t : AccountType)
    (cb ap : Bool) : Account :=
  match companyAcctFind db ow code with
  | some a => a
  | none => ⟨db.nextAccountId, ow, code, t, cb, ap⟩

/-- The state after get_company_account: unchanged if the (owner, code) row
existed, else extended with the freshly created account. -/
def companyAcctDB (db : DB) (ow : Nat) (code : String) (t : AccountType)
    (cb ap : Bool) : DB :=
  match companyAcctFind db ow code with
  | some _ => db
  | none =>
      { db with
        accounts := db.accounts ++ [⟨db.nextAccountId, ow, code, t, cb, ap⟩],
        nextAccountId := db.nextAccountId + 1 }

/-- get_company_account(owner, code, defaults): company-safe account
getter / creator. -/
def getCompanyAccount (db : DB) (ow : Nat) (code : String) (t : AccountType)
    (cb ap : Bool) : Account × DB :=
  (companyAcct db ow code t cb ap, companyAcctDB db ow code t cb ap)

/-- JournalEntry.objects.filter(owner, related_model, related_id).exists() -/
def jeKeyExists (db : DB) (ow : Nat) (rm : SourceKind) (rid : Nat) : Bool :=
  db.entries.any (fun e => e.owner == ow && e.relatedModel == rm && e.relatedId == rid)

/-- The guarded JournalEntry creation every posting path uses: create the
entry only when no row with the same (owner, related_model, related_id)
exists. -/
def createJE (db : DB) (ow : Nat) (date : Nat) (dA cA : Nat) (amt : ℚ)
    (rm : SourceKind) (rid : Nat) : DB :=
  if jeKeyExists db ow rm rid then db
  else { db with entries := db.entries ++ [⟨ow, date, dA, cA, amt, rm, rid⟩] }

/-- Product.adjust_stock: add the signed delta to current_stock and persist. -/
def adjustStock (db : DB) (pid : Nat) (delta : ℚ) : DB :=
  { db with
    products := db.products.map (fun p =>
      if p.id == pid then { p with currentStock := p.currentStock + delta } else p) }

/-- Current stock of the product row with the given id (0 when absent). -/
def stockOf (db : DB) (pid : Nat) : ℚ :=
  match db.products.find? (fun p => p.id == pid) with
  | some p => p.currentStock
  | none => 0

/-- Number of journal entries carrying a given idempotency key. -/
def countJE (db : DB) (ow : Nat) (rm : SourceKind) (rid : Nat) : Nat :=
  (db.entries.filter (fun e =>
    e.owner == ow && e.relatedModel == rm && e.relatedId == rid)).length

/-- Payment.objects.filter(owner, related_model, related_id, direction).exists() -/
def paymentKeyExists (db : DB) (ow : Nat) (rm : SourceKind) (rid : Nat)
    (dir : Direction) : Bool :=
  db.payments.any (fun q => q.owner == some ow && q.relatedModel == some rm
    && q.relatedId == some rid && q.direction == dir)

/-- Number of payment documents carrying a given auto-payment key. -/
def countPayments (db : DB) (ow : Nat) (rm : SourceKind) (rid : Nat)
    (dir : Direction) : Nat :=
  (db.payments.filter (fun q => q.owner == some ow && q.relatedModel == some rm
    && q.relatedId == some rid && q.direction == dir)).length

/-- Payment.objects.create: insert the row with a fresh id. -/
def addPayment (db : DB) (p : Payment) : DB :=
  { db with payments := db.payments ++ [p], nextPaymentId := db.nextPaymentId + 1 }

/-- self.save(update_fields=["posted"]) for a Payment row. -/
def markPaymentPosted (db : DB) (pid : Nat) : DB :=
  { db with payments := db.payments.map (fun q =>
      if q.id == pid then { q with posted := true } else q) }

/-- self.save(update_fields=["posted"]) for a SalesInvoice row. -/
def markSalesInvoicePosted (db : DB) (iid : Nat) : DB :=
  { db with salesInvoices := db.salesInvoices.map (fun i =>
      if i.id == iid then { i with posted := true } else i) }

/-- self.save(update_fields=["posted"]) for a PurchaseInvoice row. -/
def markPurchaseInvoicePosted (db : DB) (iid : Nat) : DB :=
  { db with purchaseInvoices := db.purchaseInvoices.map (fun i =>
      if i.id == iid then { i with posted := true } else i) }

/-- save for a SalesReturn row's posted flag. -/
def markSalesReturnPosted (db : DB) (iid : Nat) : DB :=
  { db with salesReturns := db.salesReturns.map (fun i =>
      if i.id == iid then { i with posted := true } else i) }

/-- save for a PurchaseReturn row's posted flag. -/
def markPurchaseReturnPosted (db : DB) (iid : Nat) : DB :=
  { db with purchaseReturns := db.purchaseReturns.map (fun i =>
      if i.id == iid then { i with posted := true } else i) }

/-- save for a DailyExpense row's posted flag. -/
def markDailyExpensePosted (db : DB) (iid : Nat) : DB :=
  { db with dailyExpenses := db.dailyExpenses.map (fun i =>
      if i.id == iid then { i with posted := true } else i) }

/-- save for a CashBankTransfer row's posted flag. -/
def markCashBankTransferPosted (db : DB) (iid : Nat) : DB :=
  { db with cashBankTransfers := db.cashBankTransfers.map (fun i =>
      if i.id == iid then { i with posted := true } else i) }

/-- save for a StockAdjustment row's posted flag. -/
def markStockAdjustmentPosted (db : DB) (iid : Nat) : DB :=
  { db with stockAdjustments := db.stockAdjustments.map (fun i =>
      if i.id == iid then { i with posted := true } else i) }

/-- Python `(self.adjustment_side or "DR").upper()`. -/
def sideOrDR (s : String) : String :=
  (if s = "" then "DR" else s).toUpper

/-- Payment.post additionally forces an unrecognised side back to DR:
`if side not in ("DR", "CR"): side = "DR"`. -/
def effSide (s : String) : String :=
  let t := sideOrDR s
  if t = "DR" ∨ t = "CR" then t else "DR"

/-- Control-account code per party type ("1300" customers, "2100"
suppliers). -/
def controlCode (pt : PartyType) : String :=
  match pt with
  | .CUSTOMER => "1300"
  | .SUPPLIER => "2100"

/-- Default account_type used when the control account is created. -/
def controlType (pt : PartyType) : AccountType :=
  match pt with
  | .CUSTOMER => .ASSET
  | .SUPPLIER => .LIABILITY

/-- Check `self.payment_account and self.payment_account.owner_id != self.owner_id`
(an absent optional account passes). -/
def acctCross (oa : Option Account) (ow : Nat) : Bool :=
  match oa with
  | some a => a.owner != ow
  | none => false

/-- Check `self.reference_invoice and self.reference_invoice.owner_id != self.owner_id`
for a sales-return reference. -/
def salesRefCross (ri : Option SalesInvoice) (ow : Nat) : Bool :=
  match ri with
  | some r => r.owner != some ow
  | none => false

/-- Check the reference-invoice owner for a purchase return. -/
def purchaseRefCross (ri : Option PurchaseInvoice) (ow : Nat) : Bool :=
  match ri with
  | some r => r.owner != some ow
  | none => false

/-- Check `self.product and self.product.owner_id != self.owner_id` via the
product table. -/
def prodCross (op : Option Product) (ow : Nat) : Bool :=
  match op with
  | some p => p.owner != ow
  | none => false

/-- Payment.post (src/core/models.py lines 657-791).
Normal Payment: IN: Dr Cash/Bank, Cr control; OUT: Dr control, Cr Cash/Bank.
Adjustment (no cash/bank): DR: Dr control, Cr Opening Balances 3000;
CR: Dr 3000, Cr control.  All checks and mutations run inside one atomic
transaction whose abort-on-raise is the `.error` result. -/
def Payment.post (p : Payment) (db : DB) : Except PostError (Payment × DB) :=
  if p.posted = true ∨ p.amount ≤ 0 then .ok (p, db)
  else
    match p.owner with
    | none => .error .ownerNotResolved
    | some ow =>
      match p.party with
      | none => .error .invalidDoc
      | some party =>
        if party.owner ≠ some ow then .error .crossOwner
        else
          let control := companyAcct db ow (controlCode party.partyType)
            (controlType party.partyType) false false
          let db1 := companyAcctDB db ow (controlCode party.partyType)
            (controlType party.partyType) false false
          let opening := companyAcct db1 ow "3000" .EQUITY false false
          let db2 := companyAcctDB db1 ow "3000" .EQUITY false false
          if p.isAdjustment = true then
            let side := effSide p.adjustmentSide
            let dA := if side = "DR" then control else opening
            let cA := if side = "DR" then opening else control
            let db3 := createJE db2 ow p.date dA.id cA.id p.amount .payment p.id
            .ok ({ p with posted := true }, markPaymentPosted db3 p.id)
          else
            match p.account with
            | none => .error .invalidDoc
            | some acct =>
              if acct.owner ≠ ow then .error .crossOwner
              else
                let dA := if p.direction = .IN then acct else control
                let cA := if p.direction = .IN then control else acct
                let db3 := createJE db2 ow p.date dA.id cA.id p.amount .payment p.id
                .ok ({ p with posted := true }, markPaymentPosted db3 p.id)

/-- SalesInvoice.calculate_total: sum of line totals. -/
def SalesInvoice.calculateTotal (inv : SalesInvoice) : ℚ :=
  inv.items.foldl (fun t it => t + it.lineTotal) 0

/-- Stock loop of SalesInvoice.post: for each item with positive quantity,
adjust the product's stock by minus the quantity (no per-item owner check
in this loop, matching the source). -/
def salesStockLoop (items : List LineItem) (db : DB) : DB :=
  items.foldl (fun db it =>
    if 0 < it.quantityUnits then adjustStock db it.productId (-it.quantityUnits)
    else db) db

/-- SalesInvoice.post (src/core/models.py lines 986-1081).
Dr Customer Control 1300, Cr Inventory 1200, decrease stock, mark posted,
then idempotently auto-create and post one direction=IN Payment when
payment_type is FULL or PARTIAL with a positive payment_amount and a
payment account. -/
def SalesInvoice.post (inv : SalesInvoice) (db : DB) :
    Except PostError (SalesInvoice × DB) :=
  if inv.posted = true then .ok (inv, db)
  else
    match inv.owner with
    | none => .error .ownerNotResolved
    | some ow =>
      if inv.customer.owner ≠ some ow then .error .crossOwner
      else if acctCross inv.paymentAccount ow then .error .crossOwner
      else
        let total := inv.calculateTotal
        if total ≤ 0 then .ok (inv, db)
        else
          let cc := companyAcct db ow "1300" .ASSET false false
          let db1 := companyAcctDB db ow "1300" .ASSET false false
          let inventory := companyAcct db1 ow "1200" .ASSET false false
          let db2 := companyAcctDB db1 ow "1200" .ASSET false false
          let db3 := createJE db2 ow inv.invoiceDate cc.id inventory.id total
            .salesInvoice inv.id
          let db4 := salesStockLoop inv.items db3
          let inv' := { inv with posted := true }
          let db5 := markSalesInvoicePosted db4 inv.id
          if (inv.paymentType = .FULL ∨ inv.paymentType = .PARTIAL)
              ∧ 0 < inv.paymentAmount ∧ inv.paymentAccount ≠ none then
            if paymentKeyExists db5 ow .salesInvoice inv.id .IN then .ok (inv', db5)
            else
              let pay : Payment :=
                { id := db5.nextPaymentId, owner := some ow,
                  date := inv.invoiceDate, party := some inv.customer,
                  account := inv.paymentAccount, direction := .IN,
                  amount := inv.paymentAmount, posted := false,
                  relatedModel := some .salesInvoice, relatedId := some inv.id,
                  isAdjustment := false, adjustmentSide := "" }
              let db6 := addPayment db5 pay
              match pay.post db6 with
              | .error e => .error e
              | .ok (_, db7) => .ok (inv', db7)
          else .ok (inv', db5)

/-- PurchaseInvoice.calculate_total: line totals plus freight plus other
charges. -/
def PurchaseInvoice.calculateTotal (inv : PurchaseInvoice) : ℚ :=
  inv.items.foldl (fun t it => t + it.lineTotal) 0
    + inv.freightCharges + inv.otherCharges

/-- Stock loop of PurchaseInvoice.post: each positive-quantity item is
owner-checked (raising crossOwner inside the transaction) and then its
stock increased. -/
def purchaseStockLoop (ow : Nat) (items : List LineItem) (db : DB) :
    Except PostError DB :=
  match items with
  | [] => .ok db
  | it :: rest =>
    if 0 < it.quantityUnits then
      match db.products.find? (fun p => p.id == it.productId) with
      | some prod =>
        if prod.owner ≠ ow then .error .crossOwner
        else purchaseStockLoop ow rest (adjustStock db it.productId it.quantityUnits)
      | none => purchaseStockLoop ow rest db
    else purchaseStockLoop ow rest db

/-- PurchaseInvoice.post (src/core/models.py lines 1253-1361).
Dr Inventory 1200, Cr Supplier Control 2100, increase stock (with per-item
cross-owner check), idempotently auto-create and post one direction=OUT
Payment for FULL / PARTIAL, then mark posted. -/
def PurchaseInvoice.post (inv : PurchaseInvoice) (db : DB) :
    Except PostError (PurchaseInvoice × DB) :=
  if inv.posted = true then .ok (inv, db)
  else
    match inv.owner with
    | none => .error .ownerNotResolved
    | some ow =>
      if inv.supplier.owner ≠ some ow then .error .crossOwner
      else if acctCross inv.paymentAccount ow then .error .crossOwner
      else
        let total := inv.calculateTotal
        if total ≤ 0 then .ok (inv, db)
        else
          let inventory := companyAcct db ow "1200" .ASSET false false
          let db1 := companyAcctDB db ow "1200" .ASSET false false
          let sc := companyAcct db1 ow "2100" .LIABILITY false false
          let db2 := companyAcctDB db1 ow "2100" .LIABILITY false false
          let db3 := createJE db2 ow inv.invoiceDate inventory.id sc.id total
            .purchaseInvoice inv.id
          match purchaseStockLoop ow inv.items db3 with
          | .error e => .error e
          | .ok db4 =>
            if (inv.paymentType = .FULL ∨ inv.paymentType = .PARTIAL)
                ∧ 0 < inv.paymentAmount ∧ inv.paymentAccount ≠ none then
              if paymentKeyExists db4 ow .purchaseInvoice inv.id .OUT then
                .ok ({ inv with posted := true }, markPurchaseInvoicePosted db4 inv.id)
              else
                let pay : Payment :=
                  { id := db4.nextPaymentId, owner := some ow,
                    date := inv.invoiceDate, party := some inv.supplier,
                    account := inv.paymentAccount, direction := .OUT,
                    amount := inv.paymentAmount, posted := false,
                    relatedModel := some .purchaseInvoice, relatedId := some inv.id,
                    isAdjustment := false, adjustmentSide := "" }
                let db5 := addPayment db4 pay
                match pay.post db5 with
                | .error e => .error e
                | .ok (_, db6) =>
                  .ok ({ inv with posted := true }, markPurchaseInvoicePosted db6 inv.id)
            else
              .ok ({ inv with posted := true }, markPurchaseInvoicePosted db4 inv.id)

/-- SalesReturn.calculate_total. -/
def SalesReturn.calculateTotal (r : SalesReturn) : ℚ :=
  r.items.foldl (fun t it => t + it.lineTotal) 0

/-- Stock loop of SalesReturn.post: per-item owner check, stock goes up. -/
def salesReturnStockLoop (ow : Nat) (items : List LineItem) (db : DB) :
    Except PostError DB :=
  match items with
  | [] => .ok db
  | it :: rest =>
    if 0 < it.quantityUnits then
      match db.products.find? (fun p => p.id == it.productId) with
      | some prod =>
        if prod.owner ≠ ow then .error .crossOwner
        else salesReturnStockLoop ow rest (adjustStock db it.productId it.quantityUnits)
      | none => salesReturnStockLoop ow rest db
    else salesReturnStockLoop ow rest db

/-- SalesReturn.post (src/core/models.py lines 1502-1566):
Dr Inventory 1200, Cr Customer Control 1300, stock up, mark posted. -/
def SalesReturn.post (r : SalesReturn) (db : DB) :
    Except PostError (SalesReturn × DB) :=
  if r.posted = true then .ok (r, db)
  else
    match r.owner with
    | none => .error .ownerNotResolved
    | some ow =>
      if r.customer.owner ≠ some ow then .error .crossOwner
      else if salesRefCross r.referenceInvoice ow then .error .crossOwner
      else
        let total := r.calculateTotal
        if total ≤ 0 then .ok (r, db)
        else
          let inventory := companyAcct db ow "1200" .ASSET false false
          let db1 := companyAcctDB db ow "1200" .ASSET false false
          let cc := companyAcct db1 ow "1300" .ASSET false false
          let db2 := companyAcctDB db1 ow "1300" .ASSET false false
          let db3 := createJE db2 ow r.returnDate inventory.id cc.id total
            .salesReturn r.id
          match salesReturnStockLoop ow r.items db3 with
          | .error e => .error e
          | .ok db4 => .ok ({ r with posted := true }, markSalesReturnPosted db4 r.id)

/-- PurchaseReturn.calculate_total. -/
def PurchaseReturn.calculateTotal (r : PurchaseReturn) : ℚ :=
  r.items.foldl (fun t it => t + it.lineTotal) 0

/-- Stock loop of PurchaseReturn.post: per-item owner check, stock goes
down. -/
def purchaseReturnStockLoop (ow : Nat) (items : List LineItem) (db : DB) :
    Except PostError DB :=
  match items with
  | [] => .ok db
  | it :: rest =>
    if 0 < it.quantityUnits then
      match db.products.find? (fun p => p.id == it.productId) with
      | some prod =>
        if prod.owner ≠ ow then .error .crossOwner
        else purchaseReturnStockLoop ow rest (adjustStock db it.productId (-it.quantityUnits))
      | none => purchaseReturnStockLoop ow rest db
    else purchaseReturnStockLoop ow rest db

/-- PurchaseReturn.post (src/core/models.py lines 1666-1730):
Dr Supplier Control 2100, Cr Inventory 1200, stock down, mark posted. -/
def PurchaseReturn.post (r : PurchaseReturn) (db : DB) :
    Except PostError (PurchaseReturn × DB) :=
  if r.posted = true then .ok (r, db)
  else
    match r.owner with
    | none => .error .ownerNotResolved
    | some ow =>
      if r.supplier.owner ≠ some ow then .error .crossOwner
      else if purchaseRefCross r.referenceInvoice ow then .error .crossOwner
      else
        let total := r.calculateTotal
        if total ≤ 0 then .ok (r, db)
        else
          let inventory := companyAcct db ow "1200" .ASSET false false
          let db1 := companyAcctDB db ow "1200" .ASSET false false
          let sc := companyAcct db1 ow "2100" .LIABILITY false false
          let db2 := companyAcctDB db1 ow "2100" .LIABILITY false false
          let db3 := createJE db2 ow r.returnDate sc.id inventory.id total
            .purchaseReturn r.id
          match purchaseReturnStockLoop ow r.items db3 with
          | .error e => .error e
          | .ok db4 => .ok ({ r with posted := true }, markPurchaseReturnPosted db4 r.id)

/-- DailyExpense.post (src/core/models.py lines 883-925): Dr expense_head,
Cr paid_from, after a select_for_update re-read of the posted flag. -/
def DailyExpense.post (e : DailyExpense) (db : DB) :
    Except PostError (DailyExpense × DB) :=
  if e.posted = true ∨ e.amount ≤ 0 then .ok (e, db)
  else
    match e.owner with
    | none => .error .ownerNotResolved
    | some ow =>
      if e.paidFrom.owner ≠ ow then .error .crossOwner
      else if e.expenseHead.owner ≠ ow then .error .crossOwner
      else
        match db.dailyExpenses.find? (fun x => x.id == e.id) with
        | none => .error .notFound
        | some locked =>
          if locked.posted = true then .ok (e, db)
          else
            let db1 := createJE db ow e.date e.expenseHead.id e.paidFrom.id
              e.amount .dailyExpense e.id
            .ok ({ e with posted := true }, markDailyExpensePosted db1 e.id)

/-- CashBankTransfer.post (src/core/models.py lines 2095-2140):
Dr to_account, Cr from_account; identical accounts are rejected. -/
def CashBankTransfer.post (t : CashBankTransfer) (db : DB) :
    Except PostError (CashBankTransfer × DB) :=
  if t.posted = true ∨ t.amount ≤ 0 then .ok (t, db)
  else
    match t.owner with
    | none => .error .ownerNotResolved
    | some ow =>
      if t.fromAccount.owner ≠ ow then .error .crossOwner
      else if t.toAccount.owner ≠ ow then .error .crossOwner
      else if t.fromAccount.id = t.toAccount.id then .error .invalidDoc
      else
        match db.cashBankTransfers.find? (fun x => x.id == t.id) with
        | none => .error .notFound
        | some locked =>
          if locked.posted = true then .ok (t, db)
          else
            let db1 := createJE db ow t.date t.toAccount.id t.fromAccount.id
              t.amount .cashBankTransfer t.id
            .ok ({ t with posted := true }, markCashBankTransferPosted db1 t.id)

/-- StockAdjustment.post (src/core/models.py lines 1844-1940).
DOWN: Dr Inventory Write-off 5100, Cr Inventory 1200, stock minus qty;
UP: Dr Inventory 1200, Cr Opening Balances 3000, stock plus qty. -/
def StockAdjustment.post (sa : StockAdjustment) (db : DB) :
    Except PostError (StockAdjustment × DB) :=
  if sa.posted = true ∨ sa.amount ≤ 0 then .ok (sa, db)
  else
    match sa.owner with
    | none => .error .ownerNotResolved
    | some ow =>
      if prodCross (db.products.find? (fun p => p.id == sa.productId)) ow then
        .error .crossOwner
      else
        match db.stockAdjustments.find? (fun x => x.id == sa.id) with
        | none => .error .notFound
        | some locked =>
          if locked.posted = true then .ok (sa, db)
          else
            let inventory := companyAcct db ow "1200" .ASSET false false
            let db1 := companyAcctDB db ow "1200" .ASSET false false
            let opening := companyAcct db1 ow "3000" .EQUITY false false
            let db2 := companyAcctDB db1 ow "3000" .EQUITY false false
            let writeoff := companyAcct db2 ow "5100" .EXPENSE false false
            let db3 := companyAcctDB db2 ow "5100" .EXPENSE false false
            let dA := if sa.direction = .DOWN then writeoff else inventory
            let cA := if sa.direction = .DOWN then inventory else opening
            let stockDelta := if sa.direction = .DOWN then -sa.qty else sa.qty
            let db4 := createJE db3 ow sa.date dA.id cA.id sa.amount
              .stockAdjustment sa.id
            let db5 := if stockDelta ≠ 0 then adjustStock db4 sa.productId stockDelta
              else db4
            .ok ({ sa with posted := true }, markStockAdjustmentPosted db5 sa.id)

/-- Party.post_opening_balance (src/core/models.py lines 430-508):
idempotently converts the stored opening balance into one journal entry
against account 3000; direction depends on party type and the debit flag.
`today` stands for the `timezone.now().date()` used as the entry date. -/
def Party.postOpeningBalance (party : Party) (today : Nat) (db : DB) :
    Except PostError DB :=
  if party.openingBalance ≤ 0 then .ok db
  else
    match party.owner with
    | none => .error .ownerNotResolved
    | some ow =>
      let control := companyAcct db ow (controlCode party.partyType)
        (controlType party.partyType) false false
      let db1 := companyAcctDB db ow (controlCode party.partyType)
        (controlType party.partyType) false false
      let opening := companyAcct db1 ow "3000" .EQUITY false false
      let db2 := companyAcctDB db1 ow "3000" .EQUITY false false
      let isDebit := party.openingBalanceIsDebit
      let dA := if party.partyType = .CUSTOMER then
          (if isDebit then control else opening)
        else (if isDebit then opening else control)
      let cA := if party.partyType = .CUSTOMER then
          (if isDebit then opening else control)
        else (if isDebit then control else opening)
      .ok (createJE db2 ow today dA.id cA.id party.openingBalance
        .partyOpening party.id)

/-- Asset and Expense accounts are debit-normal (ledger.py line 47). -/
def isDebitNormal (t : AccountType) : Bool :=
  t == .ASSET || t == .EXPENSE

/-- Optional as_of cutoff: absent means no date filter. -/
def dateLE (asOf : Option Nat) (d : Nat) : Bool :=
  match asOf with
  | none => true
  | some x => d ≤ x

/-- get_account_balance (ledger.py lines 30-58), parametrised by the entry
list it replays: filter the entries of the owner touching the account,
apply the optional as_of cutoff, and fold the signed movements.  The
order_by("date", "id") of the source does not change the fold's result and
the stored list order is used. -/
def balanceOfEntries (entries : List JournalEntry) (ow : Nat) (a : Account)
    (asOf : Option Nat) : ℚ :=
  let qs := entries.filter (fun e =>
    e.owner == ow && (e.debitAccount == a.id || e.creditAccount == a.id))
  let qs := match asOf with
    | none => qs
    | some d => qs.filter (fun e => e.date ≤ d)
  qs.foldl (fun bal e =>
    let debit := if e.debitAccount == a.id then e.amount else 0
    let credit := if e.creditAccount == a.id then e.amount else 0
    if isDebitNormal a.accountType then bal + (debit - credit)
    else bal + (credit - debit)) 0

/-- get_account_balance over the journal table. -/
def getAccountBalance (db : DB) (ow : Nat) (a : Account) (asOf : Option Nat) : ℚ :=
  balanceOfEntries db.entries ow a asOf

/-- Account-balance characterisation following the spec's words: the sum of
debits minus the sum of credits over all entries touching the account up to
as_of when the account is debit-normal, and credits minus debits
otherwise. -/
def accountBalanceSpec (entries : List JournalEntry) (ow : Nat) (a : Account)
    (asOf : Option Nat) : ℚ :=
  let rel := entries.filter (fun e =>
    e.owner == ow && (e.debitAccount == a.id || e.creditAccount == a.id)
      && dateLE asOf e.date)
  let sumD := (rel.map (fun e => if e.debitAccount == a.id then e.amount else 0)).sum
  let sumC := (rel.map (fun e => if e.creditAccount == a.id then e.amount else 0)).sum
  if isDebitNormal a.accountType then sumD - sumC else sumC - sumD

/-- One row of get_trial_balance. -/
structure TrialRow where
  code : String
  accountType : AccountType
  debit : ℚ
  credit : ℚ
  deriving DecidableEq, Repr

/-- Result of get_trial_balance: rows plus the two column totals and the
balanced flag. -/
structure TrialBalanceResult where
  rows : List TrialRow
  totalDebit : ℚ
  totalCredit : ℚ
  balanced : Bool
  deriving DecidableEq, Repr

/-- Per-account classification of get_trial_balance (ledger.py lines
337-354): debit-normal accounts place a non-negative balance in the debit
column, otherwise the negated balance in the credit column; credit-normal
accounts mirror this. -/
def trialRow (db : DB) (ow : Nat) (asOf : Option Nat) (a : Account) : TrialRow :=
  let bal := getAccountBalance db ow a asOf
  if isDebitNormal a.accountType then
    if 0 ≤ bal then ⟨a.code, a.accountType, bal, 0⟩
    else ⟨a.code, a.accountType, 0, -bal⟩
  else
    if 0 ≤ bal then ⟨a.code, a.accountType, 0, bal⟩
    else ⟨a.code, a.accountType, -bal, 0⟩

/-- get_trial_balance (ledger.py lines 321-374).  The source iterates the
owner's accounts ordered by code, accumulating the two totals; the totals
do not depend on that ordering and the stored order is used here. -/
def getTrialBalance (db : DB) (ow : Nat) (asOf : Option Nat) : TrialBalanceResult :=
  let accts := db.accounts.filter (fun a => a.owner == ow)
  let rows := accts.map (trialRow db ow asOf)
  let td := (rows.map (fun r => r.debit)).sum
  let tc := (rows.map (fun r => r.credit)).sum
  ⟨rows, td, tc, td == tc⟩

/-- One (model, id, date, debit, credit) tuple collected by
get_party_ledger before sorting. -/
structure PLItem where
  src : SourceKind
  rid : Nat
  date : Nat
  debit : ℚ
  credit : ℚ
  deriving DecidableEq, Repr

/-- One LedgerRow of the party statement (description omitted). -/
structure PartyRow where
  date : Nat
  debit : ℚ
  credit : ℚ
  balance : ℚ
  src : Option SourceKind
  rid : Option Nat
  deriving DecidableEq, Repr

/-- The in_range date filter of get_party_ledger. -/
def inRange (start endd : Option Nat) (d : Nat) : Bool :=
  (match start with
   | some s => !(d < s)
   | none => true) &&
  (match endd with
   | some e => !(e < d)
   | none => true)

/-- Python's `items.sort(key=lambda x: (x[2], x[1]))` comparison: ascending
by (date, id). -/
def plLE (x y : PLItem) : Bool :=
  x.date < y.date || (x.date == y.date && x.rid ≤ y.rid)

/-- Stable insertion: the new element goes after every already-placed
element not greater than it, as Python's stable sort keeps insertion order
among equal keys. -/
def insertPL (x : PLItem) : List PLItem → List PLItem
  | [] => [x]
  | y :: ys => if plLE y x then y :: insertPL x ys else x :: y :: ys

/-- Stable sort of the collected items by (date, id). -/
def sortPL (l : List PLItem) : List PLItem :=
  l.foldl (fun acc x => insertPL x acc) []

/-- Customer branch of get_party_ledger (ledger.py lines 218-267): posted
sales invoices debit, posted sales returns credit, posted payments by
adjustment side or direction. -/
def customerItems (db : DB) (ow : Nat) (party : Party) (start endd : Option Nat) :
    List PLItem :=
  let invs := (db.salesInvoices.filter (fun i => i.owner == some ow
      && i.customer.id == party.id && i.posted && inRange start endd i.invoiceDate)).map
    (fun i => ⟨.salesInvoice, i.id, i.invoiceDate, i.calculateTotal, 0⟩)
  let rets := (db.salesReturns.filter (fun r => r.owner == some ow
      && r.customer.id == party.id && r.posted && inRange start endd r.returnDate)).map
    (fun r => ⟨.salesReturn, r.id, r.returnDate, 0, r.calculateTotal⟩)
  let pays := (db.payments.filter (fun p => p.owner == some ow
      && (match p.party with
          | some q => q.id == party.id
          | none => false) && p.posted && inRange start endd p.date)).map
    (fun p =>
      if p.isAdjustment then
        if sideOrDR p.adjustmentSide = "DR" then ⟨.payment, p.id, p.date, p.amount, 0⟩
        else ⟨.payment, p.id, p.date, 0, p.amount⟩
      else
        match p.direction with
        | .IN => ⟨.payment, p.id, p.date, 0, p.amount⟩
        | .OUT => ⟨.payment, p.id, p.date, p.amount, 0⟩)
  sortPL (invs ++ rets ++ pays)

/-- Supplier branch of get_party_ledger (ledger.py lines 269-317): posted
purchase invoices credit, posted purchase returns debit, posted payments by
adjustment side or direction. -/
def supplierItems (db : DB) (ow : Nat) (party : Party) (start endd : Option Nat) :
    List PLItem :=
  let invs := (db.purchaseInvoices.filter (fun i => i.owner == some ow
      && i.supplier.id == party.id && i.posted && inRange start endd i.invoiceDate)).map
    (fun i => ⟨.purchaseInvoice, i.id, i.invoiceDate, 0, i.calculateTotal⟩)
  let rets := (db.purchaseReturns.filter (fun r => r.owner == some ow
      && r.supplier.id == party.id && r.posted && inRange start endd r.returnDate)).map
    (fun r => ⟨.purchaseReturn, r.id, r.returnDate, r.calculateTotal, 0⟩)
  let pays := (db.payments.filter (fun p => p.owner == some ow
      && (match p.party with
          | some q => q.id == party.id
          | none => false) && p.posted && inRange start endd p.date)).map
    (fun p =>
      if p.isAdjustment then
        if sideOrDR p.adjustmentSide = "DR" then ⟨.payment, p.id, p.date, p.amount, 0⟩
        else ⟨.payment, p.id, p.date, 0, p.amount⟩
      else
        match p.direction with
        | .OUT => ⟨.payment, p.id, p.date, p.amount, 0⟩
        | .IN => ⟨.payment, p.id, p.date, 0, p.amount⟩)
  sortPL (invs ++ rets ++ pays)

/-- The sorted statement items for either party type. -/
def partyItems (db : DB) (ow : Nat) (party : Party) (start endd : Option Nat) :
    List PLItem :=
  match party.partyType with
  | .CUSTOMER => customerItems db ow party start endd
  | .SUPPLIER => supplierItems db ow party start endd

/-- The initial running balance from the party's stored opening fields:
debit-positive for customers, credit-positive for suppliers. -/
def partyOpeningRunning (party : Party) : ℚ :=
  match party.partyType with
  | .CUSTOMER =>
      if party.openingBalanceIsDebit then party.openingBalance
      else -party.openingBalance
  | .SUPPLIER =>
      if party.openingBalanceIsDebit then -party.openingBalance
      else party.openingBalance

/-- Row builder of get_party_ledger: each item moves the running balance by
(debit − credit) on the customer side and (credit − debit) on the supplier
side. -/
def plRows (debitPositive : Bool) (running : ℚ) : List PLItem → List PartyRow
  | [] => []
  | it :: rest =>
    let r := if debitPositive then running + (it.debit - it.credit)
      else running + (it.credit - it.debit)
    ⟨it.date, it.debit, it.credit, r, some it.src, some it.rid⟩ :: plRows debitPositive r rest

/-- get_party_ledger (ledger.py lines 154-319).  An opening row is emitted
only when a start date is supplied; otherwise the opening balance only
seeds the running total. -/
def getPartyLedger (db : DB) (ow : Nat) (party : Party) (start endd : Option Nat) :
    List PartyRow :=
  let items := partyItems db ow party start endd
  let running := partyOpeningRunning party
  let debitPositive := party.partyType == PartyType.CUSTOMER
  let openingRows : List PartyRow :=
    match start with
    | some s => [⟨s, 0, 0, running, none, none⟩]
    | none => []
  openingRows ++ plRows debitPositive running items

/-- get_party_balance (ledger.py lines 147-151): the balance of the last
ledger row computed with start=None, or 0 when there are no rows. -/
def getPartyBalance (db : DB) (ow : Nat) (party : Party) (asOf : Option Nat) : ℚ :=
  match (getPartyLedger db ow party none asOf).getLast? with
  | none => 0
  | some r => r.balance

/-- A posting request: one of the transactional documents of the engine,
or a party opening-balance conversion. -/
inductive Doc
  | sales (inv : SalesInvoice)
  | purchase (inv : PurchaseInvoice)
  | sret (r : SalesReturn)
  | pret (r : PurchaseReturn)
  | pay (p : Payment)
  | expense (e : DailyExpense)
  | transfer (t : CashBankTransfer)
  | stockAdj (sa : StockAdjustment)
  | partyOpening (party : Party) (today : Nat)
  deriving DecidableEq, Repr

/-- The state transition a caller observes for one posting request: the new
state on success, the unchanged state when the transaction aborted. -/
def applyDoc (db : DB) : Doc → DB
  | .sales inv => observedDB db (inv.post db)
  | .purchase inv => observedDB db (inv.post db)
  | .sret r => observedDB db (r.post db)
  | .pret r => observedDB db (r.post db)
  | .pay p => observedDB db (p.post db)
  | .expense e => observedDB db (e.post db)
  | .transfer t => observedDB db (t.post db)
  | .stockAdj sa => observedDB db (sa.post db)
  | .partyOpening party today =>
      match party.postOpeningBalance today db with
      | .ok db' => db'
      | .error _ => db

/-- An optional account reference is table-backed when present. -/
def optAcctWF : Option Account → DB → Prop
  | some a, db => a ∈ db.accounts
  | none, _ => True

instance (oa : Option Account) (db : DB) : Decidable (optAcctWF oa db) :=
  match oa with
  | some a => inferInstanceAs (Decidable (a ∈ db.accounts))
  | none => .isTrue trivial

/-- Referential integrity of a posting request: every Account row a
document carries is really a row of the account table.  Django guarantees
this because object references are loaded from the table. -/
def Doc.WF : Doc → DB → Prop
  | .sales inv, db => optAcctWF inv.paymentAccount db
  | .purchase inv, db => optAcctWF inv.paymentAccount db
  | .sret _, _ => True
  | .pret _, _ => True
  | .pay p, db => optAcctWF p.account db
  | .expense e, db => e.paidFrom ∈ db.accounts ∧ e.expenseHead ∈ db.accounts
  | .transfer t, db => t.fromAccount ∈ db.accounts ∧ t.toAccount ∈ db.accounts
  | .stockAdj _, _ => True
  | .partyOpening _ _, _ => True

instance (d : Doc) (db : DB) : Decidable (d.WF db) :=
  match d with
  | .sales inv => inferInstanceAs (Decidable (optAcctWF inv.paymentAccount db))
  | .purchase inv => inferInstanceAs (Decidable (optAcctWF inv.paymentAccount db))
  | .sret _ => .isTrue trivial
  | .pret _ => .isTrue trivial
  | .pay p => inferInstanceAs (Decidable (optAcctWF p.account db))
  | .expense e =>
      inferInstanceAs (Decidable (e.paidFrom ∈ db.accounts ∧ e.expenseHead ∈ db.accounts))
  | .transfer t =>
      inferInstanceAs (Decidable (t.fromAccount ∈ db.accounts ∧ t.toAccount ∈ db.accounts))
  | .stockAdj _ => .isTrue trivial
  | .partyOpening _ _ => .isTrue trivial

/-- A valid base state: master data only (no journal rows yet), account ids
unique and below the auto-increment counter. -/
def initOK (db : DB) : Prop :=
  db.entries = [] ∧ (∀ a ∈ db.accounts, a.id < db.nextAccountId) ∧
  db.accounts.Pairwise (fun a b => a.id ≠ b.id)

instance (db : DB) : Decidable (initOK db) :=
  inferInstanceAs (Decidable (db.entries = []
    ∧ (∀ a ∈ db.accounts, a.id < db.nextAccountId)
    ∧ db.accounts.Pairwise (fun (a b : Account) => a.id ≠ b.id)))

/-- States reachable by posting any sequence of documents through the
engine, starting from a base state. -/
inductive Reachable : DB → Prop
  | init (db : DB) : initOK db → Reachable db
  | step (db : DB) (d : Doc) : Reachable db → d.WF db → Reachable (applyDoc db d)

/-- A journal entry is well-formed for an account table: positive amount,
and both referenced accounts are rows of the table owned by the entry's own
tenant. -/
def GoodEntry (accts : List Account) (e : JournalEntry) : Prop :=
  0 < e.amount ∧
  (∃ a ∈ accts, a.id = e.debitAccount ∧ a.owner = e.owner) ∧
  (∃ a ∈ accts, a.id = e.creditAccount ∧ a.owner = e.owner)

/-- Account-table sanity: ids unique and below the counter. -/
def AcctOK (db : DB) : Prop :=
  (∀ a ∈ db.accounts, a.id < db.nextAccountId) ∧
  db.accounts.Pairwise (fun a b => a.id ≠ b.id)

/-- The engine invariant: account-table sanity plus well-formedness of
every journal entry. -/
def EngineInv (db : DB) : Prop :=
  AcctOK db ∧ ∀ e ∈ db.entries, GoodEntry db.accounts e

/-- There is a product row with the given id. -/
def hasProduct (db : DB) (pid : Nat) : Prop :=
  ∃ p ∈ db.products, p.id = pid

instance (db : DB) (pid : Nat) : Decidable (hasProduct db pid) :=
  inferInstanceAs (Decidable (∃ p ∈ db.products, p.id = pid))

/-- Net stock delta a sales invoice applies to one product id: minus the sum
of the positive quantities of the lines referencing it. -/
def salesStockDelta (inv : SalesInvoice) (pid : Nat) : ℚ :=
  -(((inv.items.filter (fun it => it.productId == pid && decide (0 < it.quantityUnits))).map
      (fun it => it.quantityUnits)).sum)

/-! Concrete example data used by the witness theorems. -/

/-- A database with no rows at all. -/
def emptyDB : DB := ⟨[], [], [], [], [], [], [], [], [], [], [], 0, 0⟩

/-- Example customer of tenant 1. -/
def custW : Party := ⟨100, some 1, .CUSTOMER, 0, true⟩

/-- Example supplier of tenant 1. -/
def suppW : Party := ⟨101, some 1, .SUPPLIER, 0, true⟩

/-- Example cash account of tenant 1. -/
def cashW : Account := ⟨50, 1, "1010", .ASSET, true, true⟩

/-- Example expense-head account of tenant 1. -/
def expHeadW : Account := ⟨51, 1, "5200", .EXPENSE, false, false⟩

/-- Example bank account of tenant 1. -/
def bankW : Account := ⟨52, 1, "1020", .ASSET, true, true⟩

/-- Unposted zero-total sales invoice (no lines). -/
def noopInv : SalesInvoice := ⟨11, some 1, custW, 2, false, .CREDIT, none, 0, []⟩

/-- Unposted zero-total purchase invoice. -/
def noopPinv : PurchaseInvoice := ⟨12, some 1, suppW, 2, 0, 0, false, .CREDIT, none, 0, []⟩

/-- Unposted zero-total sales return. -/
def noopSret : SalesReturn := ⟨13, some 1, custW, 2, none, false, []⟩

/-- Unposted zero-total purchase return. -/
def noopPret : PurchaseReturn := ⟨14, some 1, suppW, 2, none, false, []⟩

/-- Already-posted payment. -/
def noopPay : Payment :=
  ⟨15, some 1, 2, some custW, some cashW, .IN, 7, true, none, none, false, ""⟩

/-- Zero-amount daily expense. -/
def noopExp : DailyExpense := ⟨16, some 1, 2, cashW, expHeadW, 0, false⟩

/-- Already-posted transfer. -/
def noopTrf : CashBankTransfer := ⟨17, some 1, 2, cashW, bankW, 5, true⟩

/-- Zero-quantity stock adjustment. -/
def noopAdj : StockAdjustment := ⟨18, some 1, 2, 7, .DOWN, 0, 10, false⟩

/-- C7 scenario: customer with stored opening balance 1000, flagged debit. -/
def custC7 : Party := ⟨100, some 1, .CUSTOMER, 1000, true⟩

/-- C7 scenario: one posted sales invoice totalling 500 (5 units at 100). -/
def invC7 : SalesInvoice :=
  ⟨11, some 1, custC7, 2, true, .CREDIT, none, 0, [⟨7, 5, 100, 0⟩]⟩

/-- C7 scenario: one posted non-adjustment receipt (direction IN) of 300. -/
def payC7 : Payment :=
  ⟨21, some 1, 3, some custC7, some cashW, .IN, 300, true, none, none, false, ""⟩

/-- C7 scenario database. -/
def dbC7 : DB :=
  ⟨[cashW], [⟨7, 1, 50⟩], [], [payC7], [invC7], [], [], [], [], [], [], 60, 200⟩

/-- The signed movement one journal entry contributes to one account's
balance: (debit − credit) for debit-normal accounts, (credit − debit)
otherwise, where debit / credit is the entry amount when the corresponding
side references the account and 0 otherwise. -/
def signedAmount (a : Account) (e : JournalEntry) : ℚ :=
  let debit := if e.debitAccount == a.id then e.amount else 0
  let credit := if e.creditAccount == a.id then e.amount else 0
  if isDebitNormal a.accountType then debit - credit else credit - debit

/-- The entries get_account_balance replays: the owner's entries touching
the account, restricted to the optional as_of cutoff. -/
def relevantEntries (entries : List JournalEntry) (ow : Nat) (a : Account)
    (asOf : Option Nat) : List JournalEntry :=
  let qs := entries.filter (fun e =>
    e.owner == ow && (e.debitAccount == a.id || e.creditAccount == a.id))
  match asOf with
  | none => qs
  | some d => qs.filter (fun e => e.date ≤ d)

/-- C3 scenario: two journal entries touching the cash account. -/
def entE1 : JournalEntry := ⟨1, 1, 50, 51, 10, .payment, 31⟩

/-- Second C3 entry, crediting the cash account. -/
def entE2 : JournalEntry := ⟨1, 2, 51, 50, 4, .payment, 32⟩

/-- C3 database, entries in insertion order. -/
def dbC3a : DB :=
  ⟨[cashW, expHeadW], [], [entE1, entE2], [], [], [], [], [], [], [], [], 60, 200⟩

/-- C3 database with the same journal rows read in the opposite order. -/
def dbC3b : DB :=
  ⟨[cashW, expHeadW], [], [entE2, entE1], [], [], [], [], [], [], [], [], 60, 200⟩

/-- C4 scenario: second line references a product of another tenant,
discovered only while applying stock deltas inside the transaction. -/
def invC4 : PurchaseInvoice :=
  ⟨12, some 1, suppW, 2, 0, 0, false, .CREDIT, none, 0, [⟨7, 2, 10, 0⟩, ⟨8, 3, 10, 0⟩]⟩

/-- C4 scenario database: product 7 belongs to tenant 1, product 8 to
tenant 2. -/
def dbC4 : DB :=
  ⟨[cashW], [⟨7, 1, 10⟩, ⟨8, 2, 5⟩], [], [], [], [invC4], [], [], [], [], [], 60, 200⟩

/-- C4 scenario: payment whose tenant is unresolved. -/
def payC4 : Payment :=
  ⟨22, none, 2, some custW, some cashW, .IN, 40, false, none, none, false, ""⟩

instance {e a : Type} [DecidableEq e] [DecidableEq a] : DecidableEq (Except e a) :=
  fun x y =>
    match x, y with
    | .ok v, .ok w => if h : v = w then isTrue (by rw [h]) else isFalse (by simp [h])
    | .error v, .error w => if h : v = w then isTrue (by rw [h]) else isFalse (by simp [h])
    | .ok _, .error _ => isFalse (by simp)
    | .error _, .ok _ => isFalse (by simp)

/-- Whether a posting result succeeded with the returned document marked
posted. -/
def postOkPosted (r : Except PostError (Payment × DB)) : Bool :=
  match r with
  | .ok (p, _) => p.posted
  | .error _ => false

/-- C8 scenario: unposted adjustment payment with a positive amount, an
owned party, and an empty adjustment_side. -/
def payC8 : Payment :=
  ⟨23, some 1, 2, some custW, none, .IN, 5, false, none, none, true, ""⟩

/-- C8 scenario database. -/
def dbC8 : DB := ⟨[], [], [], [payC8], [], [], [], [], [], [], [], 60, 200⟩

/-! Named intermediate states of the posting pipelines, used to state the
run lemmas that symbolically execute a successful post. -/

/-- State after Payment.post resolved / created its two accounts, wrote the
guarded journal entry and marked the row posted (normal payment). -/
def paymentRunDB (p : Payment) (db : DB) (ow : Nat) (party : Party)
    (acct : Account) : DB :=
  markPaymentPosted
    (createJE
      (companyAcctDB (companyAcctDB db ow (controlCode party.partyType)
        (controlType party.partyType) false false) ow "3000"
        AccountType.EQUITY false false)
      ow p.date
      (if p.direction = .IN then acct
       else companyAcct db ow (controlCode party.partyType)
         (controlType party.partyType) false false).id
      (if p.direction = .IN then companyAcct db ow (controlCode party.partyType)
         (controlType party.partyType) false false
       else acct).id
      p.amount .payment p.id) p.id

/-- State after SalesInvoice.post created its two control accounts. -/
def salesDB2 (db : DB) (ow : Nat) : DB :=
  companyAcctDB (companyAcctDB db ow "1300" AccountType.ASSET false false)
    ow "1200" AccountType.ASSET false false

/-- The customer-control account SalesInvoice.post resolves. -/
def salesCC (db : DB) (ow : Nat) : Account :=
  companyAcct db ow "1300" AccountType.ASSET false false

/-- The inventory account SalesInvoice.post resolves. -/
def salesInvAcct (db : DB) (ow : Nat) : Account :=
  companyAcct (companyAcctDB db ow "1300" AccountType.ASSET false false)
    ow "1200" AccountType.ASSET false false

/-- State after SalesInvoice.post wrote the invoice journal entry, applied
the stock loop and marked the invoice row posted. -/
def salesDB5 (inv : SalesInvoice) (db : DB) (ow : Nat) : DB :=
  markSalesInvoicePosted
    (salesStockLoop inv.items
      (createJE (salesDB2 db ow) ow inv.invoiceDate (salesCC db ow).id
        (salesInvAcct db ow).id inv.calculateTotal .salesInvoice inv.id))
    inv.id

/-- The auxiliary Payment document SalesInvoice.post creates for FULL or
PARTIAL payment types. -/
def salesAutoPay (inv : SalesInvoice) (db : DB) (ow : Nat) : Payment :=
  { id := (salesDB5 inv db ow).nextPaymentId, owner := some ow,
    date := inv.invoiceDate, party := some inv.customer,
    account := inv.paymentAccount, direction := .IN,
    amount := inv.paymentAmount, posted := false,
    relatedModel := some .salesInvoice, relatedId := some inv.id,
    isAdjustment := false, adjustmentSide := "" }

/-- C1 / C5 scenario: unposted FULL-payment sales invoice, 5 units at 100,
paid into the cash account. -/
def invC1 : SalesInvoice :=
  ⟨11, some 1, custW, 2, false, .FULL, some cashW, 500, [⟨7, 5, 100, 0⟩]⟩

/-- C1 / C5 scenario database: the invoice is a draft row, product 7 has
stock 20, no journal rows yet. -/
def dbC1 : DB :=
  ⟨[cashW], [⟨7, 1, 20⟩], [], [], [invC1], [], [], [], [], [], [], 60, 200⟩

/-- State after PurchaseInvoice.post created its accounts and wrote the
guarded purchase journal entry (before the stock loop). -/
def purchaseDB3 (inv : PurchaseInvoice) (db : DB) (ow : Nat) : DB :=
  createJE
    (companyAcctDB (companyAcctDB db ow "1200" AccountType.ASSET false false)
      ow "2100" AccountType.LIABILITY false false)
    ow inv.invoiceDate
    (companyAcct db ow "1200" AccountType.ASSET false false).id
    (companyAcct (companyAcctDB db ow "1200" AccountType.ASSET false false)
      ow "2100" AccountType.LIABILITY false false).id
    inv.calculateTotal .purchaseInvoice inv.id

/-- The auxiliary Payment document PurchaseInvoice.post creates. -/
def purchaseAutoPay (inv : PurchaseInvoice) (db4 : DB) (ow : Nat) : Payment :=
  { id := db4.nextPaymentId, owner := some ow, date := inv.invoiceDate,
    party := some inv.supplier, account := inv.paymentAccount,
    direction := .OUT, amount := inv.paymentAmount, posted := false,
    relatedModel := some .purchaseInvoice, relatedId := some inv.id,
    isAdjustment := false, adjustmentSide := "" }

/-- State after SalesReturn.post created its accounts and wrote the guarded
journal entry (before the stock loop). -/
def sretDB3 (r : SalesReturn) (db : DB) (ow : Nat) : DB :=
  createJE
    (companyAcctDB (companyAcctDB db ow "1200" AccountType.ASSET false false)
      ow "1300" AccountType.ASSET false false)
    ow r.returnDate
    (companyAcct db ow "1200" AccountType.ASSET false false).id
    (companyAcct (companyAcctDB db ow "1200" AccountType.ASSET false false)
      ow "1300" AccountType.ASSET false false).id
    r.calculateTotal .salesReturn r.id

/-- State after PurchaseReturn.post created its accounts and wrote the
guarded journal entry (before the stock loop). -/
def pretDB3 (r : PurchaseReturn) (db : DB) (ow : Nat) : DB :=
  createJE
    (companyAcctDB (companyAcctDB db ow "1200" AccountType.ASSET false false)
      ow "2100" AccountType.LIABILITY false false)
    ow r.returnDate
    (companyAcct (companyAcctDB db ow "1200" AccountType.ASSET false false)
      ow "2100" AccountType.LIABILITY false false).id
    (companyAcct db ow "1200" AccountType.ASSET false false).id
    r.calculateTotal .purchaseReturn r.id

/-- The raw (unsigned-normal) movement one entry contributes to one
account: +amount on its debit side, −amount on its credit side. -/
def rawPart (a : Account) (e : JournalEntry) : ℚ :=
  (if e.debitAccount == a.id then e.amount else 0) -
    (if e.creditAccount == a.id then e.amount else 0)

/-! Frame lemmas: which DB fields each storage primitive leaves unchanged. -/

@[simp] theorem companyAcctDB_products (db : DB) (ow : Nat) (code : String) (t : AccountType) (cb ap : Bool) :
    (companyAcctDB db ow code t cb ap).products = db.products :=
  by unfold companyAcctDB; cases companyAcctFind db ow code <;> rfl

@[simp] theorem companyAcctDB_entries (db : DB) (ow : Nat) (code : String) (t : AccountType) (cb ap : Bool) :
    (companyAcctDB db ow code t cb ap).entries = db.entries :=
  by unfold companyAcctDB; cases companyAcctFind db ow code <;> rfl

@[simp] theorem companyAcctDB_payments (db : DB) (ow : Nat) (code : String) (t : AccountType) (cb ap : Bool) :
    (companyAcctDB db ow code t cb ap).payments = db.payments :=
  by unfold companyAcctDB; cases companyAcctFind db ow code <;> rfl

@[simp] theorem companyAcctDB_salesInvoices (db : DB) (ow : Nat) (code : String) (t : AccountType) (cb ap : Bool) :
    (companyAcctDB db ow code t cb ap).salesInvoices = db.salesInvoices :=
  by unfold companyAcctDB; cases companyAcctFind db ow code <;> rfl

@[simp] theorem companyAcctDB_purchaseInvoices (db : DB) (ow : Nat) (code : String) (t : AccountType) (cb ap : Bool) :
    (companyAcctDB db ow code t cb ap).purchaseInvoices = db.purchaseInvoices :=
  by unfold companyAcctDB; cases companyAcctFind db ow code <;> rfl

@[simp] theorem companyAcctDB_salesReturns (db : DB) (ow : Nat) (code : String) (t : AccountType) (cb ap : Bool) :
    (companyAcctDB db ow code t cb ap).salesReturns = db.salesReturns :=
  by unfold companyAcctDB; cases companyAcctFind db ow code <;> rfl

@[simp] theorem companyAcctDB_purchaseReturns (db : DB) (ow : Nat) (code : String) (t : AccountType) (cb ap : Bool) :
    (companyAcctDB db ow code t cb ap).purchaseReturns = db.purchaseReturns :=
  by unfold companyAcctDB; cases companyAcctFind db ow code <;> rfl

@[simp] theorem companyAcctDB_dailyExpenses (db : DB) (ow : Nat) (code : String) (t : AccountType) (cb ap : Bool) :
    (companyAcctDB db ow code t cb ap).dailyExpenses = db.dailyExpenses :=
  by unfold companyAcctDB; cases companyAcctFind db ow code <;> rfl

@[simp] theorem companyAcctDB_cashBankTransfers (db : DB) (ow : Nat) (code : String) (t : AccountType) (cb ap : Bool) :
    (companyAcctDB db ow code t cb ap).cashBankTransfers = db.cashBankTransfers :=
  by unfold companyAcctDB; cases companyAcctFind db ow code <;> rfl

@[simp] theorem companyAcctDB_stockAdjustments (db : DB) (ow : Nat) (code : String) (t : AccountType) (cb ap : Bool) :
    (companyAcctDB db ow code t cb ap).stockAdjustments = db.stockAdjustments :=
  by unfold companyAcctDB; cases companyAcctFind db ow code <;> rfl

@[simp] theorem companyAcctDB_nextPaymentId (db : DB) (ow : Nat) (code : String) (t : AccountType) (cb ap : Bool) :
    (companyAcctDB db ow code t cb ap).nextPaymentId = db.nextPaymentId :=
  by unfold companyAcctDB; cases companyAcctFind db ow code <;> rfl

@[simp] theorem createJE_accounts (db : DB) (ow date dA cA : Nat) (amt : ℚ) (rm : SourceKind) (rid : Nat) :
    (createJE db ow date dA cA amt rm rid).accounts = db.accounts :=
  by unfold createJE; split <;> rfl

@[simp] theorem createJE_products (db : DB) (ow date dA cA : Nat) (amt : ℚ) (rm : SourceKind) (rid : Nat) :
    (createJE db ow date dA cA amt rm rid).products = db.products :=
  by unfold createJE; split <;> rfl

@[simp] theorem createJE_payments (db : DB) (ow date dA cA : Nat) (amt : ℚ) (rm : SourceKind) (rid : Nat) :
    (createJE db ow date dA cA amt rm rid).payments = db.payments :=
  by unfold createJE; split <;> rfl

@[simp] theorem createJE_salesInvoices (db : DB) (ow date dA cA : Nat) (amt : ℚ) (rm : SourceKind) (rid : Nat) :
    (createJE db ow date dA cA amt rm rid).salesInvoices = db.salesInvoices :=
  by unfold createJE; split <;> rfl

@[simp] theorem createJE_purchaseInvoices (db : DB) (ow date dA cA : Nat) (amt : ℚ) (rm : SourceKind) (rid : Nat) :
    (createJE db ow date dA cA amt rm rid).purchaseInvoices = db.purchaseInvoices :=
  by unfold createJE; split <;> rfl

@[simp] theorem createJE_salesReturns (db : DB) (ow date dA cA : Nat) (amt : ℚ) (rm : SourceKind) (rid : Nat) :
    (createJE db ow date dA cA amt rm rid).salesReturns = db.salesReturns :=
  by unfold createJE; split <;> rfl

@[simp] theorem createJE_purchaseReturns (db : DB) (ow date dA cA : Nat) (amt : ℚ) (rm : SourceKind) (rid : Nat) :
    (createJE db ow date dA cA amt rm rid).purchaseReturns = db.purchaseReturns :=
  by unfold createJE; split <;> rfl

@[simp] theorem createJE_dailyExpenses (db : DB) (ow date dA cA : Nat) (amt : ℚ) (rm : SourceKind) (rid : Nat) :
    (createJE db ow date dA cA amt rm rid).dailyExpenses = db.dailyExpenses :=
  by unfold createJE; split <;> rfl

@[simp] theorem createJE_cashBankTransfers (db : DB) (ow date dA cA : Nat) (amt : ℚ) (rm : SourceKind) (rid : Nat) :
    (createJE db ow date dA cA amt rm rid).cashBankTransfers = db.cashBankTransfers :=
  by unfold createJE; split <;> rfl

@[simp] theorem createJE_stockAdjustments (db : DB) (ow date dA cA : Nat) (amt : ℚ) (rm : SourceKind) (rid : Nat) :
    (createJE db ow date dA cA amt rm rid).stockAdjustments = db.stockAdjustments :=
  by unfold createJE; split <;> rfl

@[simp] theorem createJE_nextAccountId (db : DB) (ow date dA cA : Nat) (amt : ℚ) (rm : SourceKind) (rid : Nat) :
    (createJE db ow date dA cA amt rm rid).nextAccountId = db.nextAccountId :=
  by unfold createJE; split <;> rfl

@[simp] theorem createJE_nextPaymentId (db : DB) (ow date dA cA : Nat) (amt : ℚ) (rm : SourceKind) (rid : Nat) :
    (createJE db ow date dA cA amt rm rid).nextPaymentId = db.nextPaymentId :=
  by unfold createJE; split <;> rfl

@[simp] theorem adjustStock_accounts (db : DB) (pid : Nat) (delta : ℚ) :
    (adjustStock db pid delta).accounts = db.accounts :=
  rfl

@[simp] theorem adjustStock_entries (db : DB) (pid : Nat) (delta : ℚ) :
    (adjustStock db pid delta).entries = db.entries :=
  rfl

@[simp] theorem adjustStock_payments (db : DB) (pid : Nat) (delta : ℚ) :
    (adjustStock db pid delta).payments = db.payments :=
  rfl

@[simp] theorem adjustStock_salesInvoices (db : DB) (pid : Nat) (delta : ℚ) :
    (adjustStock db pid delta).salesInvoices = db.salesInvoices :=
  rfl

@[simp] theorem adjustStock_purchaseInvoices (db : DB) (pid : Nat) (delta : ℚ) :
    (adjustStock db pid delta).purchaseInvoices = db.purchaseInvoices :=
  rfl

@[simp] theorem adjustStock_salesReturns (db : DB) (pid : Nat) (delta : ℚ) :
    (adjustStock db pid delta).salesReturns = db.salesReturns :=
  rfl

@[simp] theorem adjustStock_purchaseReturns (db : DB) (pid : Nat) (delta : ℚ) :
    (adjustStock db pid delta).purchaseReturns = db.purchaseReturns :=
  rfl

@[simp] theorem adjustStock_dailyExpenses (db : DB) (pid : Nat) (delta : ℚ) :
    (adjustStock db pid delta).dailyExpenses = db.dailyExpenses :=
  rfl

@[simp] theorem adjustStock_cashBankTransfers (db : DB) (pid : Nat) (delta : ℚ) :
    (adjustStock db pid delta).cashBankTransfers = db.cashBankTransfers :=
  rfl

@[simp] theorem adjustStock_stockAdjustments (db : DB) (pid : Nat) (delta : ℚ) :
    (adjustStock db pid delta).stockAdjustments = db.stockAdjustments :=
  rfl

@[simp] theorem adjustStock_nextAccountId (db : DB) (pid : Nat) (delta : ℚ) :
    (adjustStock db pid delta).nextAccountId = db.nextAccountId :=
  rfl

@[simp] theorem adjustStock_nextPaymentId (db : DB) (pid : Nat) (delta : ℚ) :
    (adjustStock db pid delta).nextPaymentId = db.nextPaymentId :=
  rfl

@[simp] theorem addPayment_accounts (db : DB) (p : Payment) :
    (addPayment db p).accounts = db.accounts :=
  rfl

@[simp] theorem addPayment_products (db : DB) (p : Payment) :
    (addPayment db p).products = db.products :=
  rfl

@[simp] theorem addPayment_entries (db : DB) (p : Payment) :
    (addPayment db p).entries = db.entries :=
  rfl

@[simp] theorem addPayment_salesInvoices (db : DB) (p : Payment) :
    (addPayment db p).salesInvoices = db.salesInvoices :=
  rfl

@[simp] theorem addPayment_purchaseInvoices (db : DB) (p : Payment) :
    (addPayment db p).purchaseInvoices = db.purchaseInvoices :=
  rfl

@[simp] theorem addPayment_salesReturns (db : DB) (p : Payment) :
    (addPayment db p).salesReturns = db.salesReturns :=
  rfl

@[simp] theorem addPayment_purchaseReturns (db : DB) (p : Payment) :
    (addPayment db p).purchaseReturns = db.purchaseReturns :=
  rfl

@[simp] theorem addPayment_dailyExpenses (db : DB) (p : Payment) :
    (addPayment db p).dailyExpenses = db.dailyExpenses :=
  rfl

@[simp] theorem addPayment_cashBankTransfers (db : DB) (p : Payment) :
    (addPayment db p).cashBankTransfers = db.cashBankTransfers :=
  rfl

@[simp] theorem addPayment_stockAdjustments (db : DB) (p : Payment) :
    (addPayment db p).stockAdjustments = db.stockAdjustments :=
  rfl

@[simp] theorem addPayment_nextAccountId (db : DB) (p : Payment) :
    (addPayment db p).nextAccountId = db.nextAccountId :=
  rfl

@[simp] theorem markPaymentPosted_accounts (db : DB) (pid : Nat) :
    (markPaymentPosted db pid).accounts = db.accounts :=
  rfl

@[simp] theorem markPaymentPosted_products (db : DB) (pid : Nat) :
    (markPaymentPosted db pid).products = db.products :=
  rfl

@[simp] theorem markPaymentPosted_entries (db : DB) (pid : Nat) :
    (markPaymentPosted db pid).entries = db.entries :=
  rfl

@[simp] theorem markPaymentPosted_salesInvoices (db : DB) (pid : Nat) :
    (markPaymentPosted db pid).salesInvoices = db.salesInvoices :=
  rfl

@[simp] theorem markPaymentPosted_purchaseInvoices (db : DB) (pid : Nat) :
    (markPaymentPosted db pid).purchaseInvoices = db.purchaseInvoices :=
  rfl

@[simp] theorem markPaymentPosted_salesReturns (db : DB) (pid : Nat) :
    (markPaymentPosted db pid).salesReturns = db.salesReturns :=
  rfl

@[simp] theorem markPaymentPosted_purchaseReturns (db : DB) (pid : Nat) :
    (markPaymentPosted db pid).purchaseReturns = db.purchaseReturns :=
  rfl

@[simp] theorem markPaymentPosted_dailyExpenses (db : DB) (pid : Nat) :
    (markPaymentPosted db pid).dailyExpenses = db.dailyExpenses :=
  rfl

@[simp] theorem markPaymentPosted_cashBankTransfers (db : DB) (pid : Nat) :
    (markPaymentPosted db pid).cashBankTransfers = db.cashBankTransfers :=
  rfl

@[simp] theorem markPaymentPosted_stockAdjustments (db : DB) (pid : Nat) :
    (markPaymentPosted db pid).stockAdjustments = db.stockAdjustments :=
  rfl

@[simp] theorem markPaymentPosted_nextAccountId (db : DB) (pid : Nat) :
    (markPaymentPosted db pid).nextAccountId = db.nextAccountId :=
  rfl

@[simp] theorem markPaymentPosted_nextPaymentId (db : DB) (pid : Nat) :
    (markPaymentPosted db pid).nextPaymentId = db.nextPaymentId :=
  rfl

@[simp] theorem markSalesInvoicePosted_accounts (db : DB) (iid : Nat) :
    (markSalesInvoicePosted db iid).accounts = db.accounts :=
  rfl

@[simp] theorem markSalesInvoicePosted_products (db : DB) (iid : Nat) :
    (markSalesInvoicePosted db iid).products = db.products :=
  rfl

@[simp] theorem markSalesInvoicePosted_entries (db : DB) (iid : Nat) :
    (markSalesInvoicePosted db iid).entries = db.entries :=
  rfl

@[simp] theorem markSalesInvoicePosted_payments (db : DB) (iid : Nat) :
    (markSalesInvoicePosted db iid).payments = db.payments :=
  rfl

@[simp] theorem markSalesInvoicePosted_purchaseInvoices (db : DB) (iid : Nat) :
    (markSalesInvoicePosted db iid).purchaseInvoices = db.purchaseInvoices :=
  rfl

@[simp] theorem markSalesInvoicePosted_salesReturns (db : DB) (iid : Nat) :
    (markSalesInvoicePosted db iid).salesReturns = db.salesReturns :=
  rfl

@[simp] theorem markSalesInvoicePosted_purchaseReturns (db : DB) (iid : Nat) :
    (markSalesInvoicePosted db iid).purchaseReturns = db.purchaseReturns :=
  rfl

@[simp] theorem markSalesInvoicePosted_dailyExpenses (db : DB) (iid : Nat) :
    (markSalesInvoicePosted db iid).dailyExpenses = db.dailyExpenses :=
  rfl

@[simp] theorem markSalesInvoicePosted_cashBankTransfers (db : DB) (iid : Nat) :
    (markSalesInvoicePosted db iid).cashBankTransfers = db.cashBankTransfers :=
  rfl

@[simp] theorem markSalesInvoicePosted_stockAdjustments (db : DB) (iid : Nat) :
    (markSalesInvoicePosted db iid).stockAdjustments = db.stockAdjustments :=
  rfl

@[simp] theorem markSalesInvoicePosted_nextAccountId (db : DB) (iid : Nat) :
    (markSalesInvoicePosted db iid).nextAccountId = db.nextAccountId :=
  rfl

@[simp] theorem markSalesInvoicePosted_nextPaymentId (db : DB) (iid : Nat) :
    (markSalesInvoicePosted db iid).nextPaymentId = db.nextPaymentId :=
  rfl

@[simp] theorem markPurchaseInvoicePosted_accounts (db : DB) (iid : Nat) :
    (markPurchaseInvoicePosted db iid).accounts = db.accounts :=
  rfl

@[simp] theorem markPurchaseInvoicePosted_products (db : DB) (iid : Nat) :
    (markPurchaseInvoicePosted db iid).products = db.products :=
  rfl

@[simp] theorem markPurchaseInvoicePosted_entries (db : DB) (iid : Nat) :
    (markPurchaseInvoicePosted db iid).entries = db.entries :=
  rfl

@[simp] theorem markPurchaseInvoicePosted_payments (db : DB) (iid : Nat) :
    (markPurchaseInvoicePosted db iid).payments = db.payments :=
  rfl

@[simp] theorem markPurchaseInvoicePosted_salesInvoices (db : DB) (iid : Nat) :
    (markPurchaseInvoicePosted db iid).salesInvoices = db.salesInvoices :=
  rfl

@[simp] theorem markPurchaseInvoicePosted_salesReturns (db : DB) (iid : Nat) :
    (markPurchaseInvoicePosted db iid).salesReturns = db.salesReturns :=
  rfl

@[simp] theorem markPurchaseInvoicePosted_purchaseReturns (db : DB) (iid : Nat) :
    (markPurchaseInvoicePosted db iid).purchaseReturns = db.purchaseReturns :=
  rfl

@[simp] theorem markPurchaseInvoicePosted_dailyExpenses (db : DB) (iid : Nat) :
    (markPurchaseInvoicePosted db iid).dailyExpenses = db.dailyExpenses :=
  rfl

@[simp] theorem markPurchaseInvoicePosted_cashBankTransfers (db : DB) (iid : Nat) :
    (markPurchaseInvoicePosted db iid).cashBankTransfers = db.cashBankTransfers :=
  rfl

@[simp] theorem markPurchaseInvoicePosted_stockAdjustments (db : DB) (iid : Nat) :
    (markPurchaseInvoicePosted db iid).stockAdjustments = db.stockAdjustments :=
  rfl

@[simp] theorem markPurchaseInvoicePosted_nextAccountId (db : DB) (iid : Nat) :
    (markPurchaseInvoicePosted db iid).nextAccountId = db.nextAccountId :=
  rfl

@[simp] theorem markPurchaseInvoicePosted_nextPaymentId (db : DB) (iid : Nat) :
    (markPurchaseInvoicePosted db iid).nextPaymentId = db.nextPaymentId :=
  rfl

@[simp] theorem markSalesReturnPosted_accounts (db : DB) (iid : Nat) :
    (markSalesReturnPosted db iid).accounts = db.accounts :=
  rfl

@[simp] theorem markSalesReturnPosted_products (db : DB) (iid : Nat) :
    (markSalesReturnPosted db iid).products = db.products :=
  rfl

@[simp] theorem markSalesReturnPosted_entries (db : DB) (iid : Nat) :
    (markSalesReturnPosted db iid).entries = db.entries :=
  rfl

@[simp] theorem markSalesReturnPosted_payments (db : DB) (iid : Nat) :
    (markSalesReturnPosted db iid).payments = db.payments :=
  rfl

@[simp] theorem markSalesReturnPosted_salesInvoices (db : DB) (iid : Nat) :
    (markSalesReturnPosted db iid).salesInvoices = db.salesInvoices :=
  rfl

@[simp] theorem markSalesReturnPosted_purchaseInvoices (db : DB) (iid : Nat) :
    (markSalesReturnPosted db iid).purchaseInvoices = db.purchaseInvoices :=
  rfl

@[simp] theorem markSalesReturnPosted_purchaseReturns (db : DB) (iid : Nat) :
    (markSalesReturnPosted db iid).purchaseReturns = db.purchaseReturns :=
  rfl

@[simp] theorem markSalesReturnPosted_dailyExpenses (db : DB) (iid : Nat) :
    (markSalesReturnPosted db iid).dailyExpenses = db.dailyExpenses :=
  rfl

@[simp] theorem markSalesReturnPosted_cashBankTransfers (db : DB) (iid : Nat) :
    (markSalesReturnPosted db iid).cashBankTransfers = db.cashBankTransfers :=
  rfl

@[simp] theorem markSalesReturnPosted_stockAdjustments (db : DB) (iid : Nat) :
    (markSalesReturnPosted db iid).stockAdjustments = db.stockAdjustments :=
  rfl

@[simp] theorem markSalesReturnPosted_nextAccountId (db : DB) (iid : Nat) :
    (markSalesReturnPosted db iid).nextAccountId = db.nextAccountId :=
  rfl

@[simp] theorem markSalesReturnPosted_nextPaymentId (db : DB) (iid : Nat) :
    (markSalesReturnPosted db iid).nextPaymentId = db.nextPaymentId :=
  rfl

@[simp] theorem markPurchaseReturnPosted_accounts (db : DB) (iid : Nat) :
    (markPurchaseReturnPosted db iid).accounts = db.accounts :=
  rfl

@[simp] theorem markPurchaseReturnPosted_products (db : DB) (iid : Nat) :
    (markPurchaseReturnPosted db iid).products = db.products :=
  rfl

@[simp] theorem markPurchaseReturnPosted_entries (db : DB) (iid : Nat) :
    (markPurchaseReturnPosted db iid).entries = db.entries :=
  rfl

@[simp] theorem markPurchaseReturnPosted_payments (db : DB) (iid : Nat) :
    (markPurchaseReturnPosted db iid).payments = db.payments :=
  rfl

@[simp] theorem markPurchaseReturnPosted_salesInvoices (db : DB) (iid : Nat) :
    (markPurchaseReturnPosted db iid).salesInvoices = db.salesInvoices :=
  rfl

@[simp] theorem markPurchaseReturnPosted_purchaseInvoices (db : DB) (iid : Nat) :
    (markPurchaseReturnPosted db iid).purchaseInvoices = db.purchaseInvoices :=
  rfl

@[simp] theorem markPurchaseReturnPosted_salesReturns (db : DB) (iid : Nat) :
    (markPurchaseReturnPosted db iid).salesReturns = db.salesReturns :=
  rfl

@[simp] theorem markPurchaseReturnPosted_dailyExpenses (db : DB) (iid : Nat) :
    (markPurchaseReturnPosted db iid).dailyExpenses = db.dailyExpenses :=
  rfl

@[simp] theorem markPurchaseReturnPosted_cashBankTransfers (db : DB) (iid : Nat) :
    (markPurchaseReturnPosted db iid).cashBankTransfers = db.cashBankTransfers :=
  rfl

@[simp] theorem markPurchaseReturnPosted_stockAdjustments (db : DB) (iid : Nat) :
    (markPurchaseReturnPosted db iid).stockAdjustments = db.stockAdjustments :=
  rfl

@[simp] theorem markPurchaseReturnPosted_nextAccountId (db : DB) (iid : Nat) :
    (markPurchaseReturnPosted db iid).nextAccountId = db.nextAccountId :=
  rfl

@[simp] theorem markPurchaseReturnPosted_nextPaymentId (db : DB) (iid : Nat) :
    (markPurchaseReturnPosted db iid).nextPaymentId = db.nextPaymentId :=
  rfl

@[simp] theorem markDailyExpensePosted_accounts (db : DB) (iid : Nat) :
    (markDailyExpensePosted db iid).accounts = db.accounts :=
  rfl

@[simp] theorem markDailyExpensePosted_products (db : DB) (iid : Nat) :
    (markDailyExpensePosted db iid).products = db.products :=
  rfl

@[simp] theorem markDailyExpensePosted_entries (db : DB) (iid : Nat) :
    (markDailyExpensePosted db iid).entries = db.entries :=
  rfl

@[simp] theorem markDailyExpensePosted_payments (db : DB) (iid : Nat) :
    (markDailyExpensePosted db iid).payments = db.payments :=
  rfl

@[simp] theorem markDailyExpensePosted_salesInvoices (db : DB) (iid : Nat) :
    (markDailyExpensePosted db iid).salesInvoices = db.salesInvoices :=
  rfl

@[simp] theorem markDailyExpensePosted_purchaseInvoices (db : DB) (iid : Nat) :
    (markDailyExpensePosted db iid).purchaseInvoices = db.purchaseInvoices :=
  rfl

@[simp] theorem markDailyExpensePosted_salesReturns (db : DB) (iid : Nat) :
    (markDailyExpensePosted db iid).salesReturns = db.salesReturns :=
  rfl

@[simp] theorem markDailyExpensePosted_purchaseReturns (db : DB) (iid : Nat) :
    (markDailyExpensePosted db iid).purchaseReturns = db.purchaseReturns :=
  rfl

@[simp] theorem markDailyExpensePosted_cashBankTransfers (db : DB) (iid : Nat) :
    (markDailyExpensePosted db iid).cashBankTransfers = db.cashBankTransfers :=
  rfl

@[simp] theorem markDailyExpensePosted_stockAdjustments (db : DB) (iid : Nat) :
    (markDailyExpensePosted db iid).stockAdjustments = db.stockAdjustments :=
  rfl

@[simp] theorem markDailyExpensePosted_nextAccountId (db : DB) (iid : Nat) :
    (markDailyExpensePosted db iid).nextAccountId = db.nextAccountId :=
  rfl

@[simp] theorem markDailyExpensePosted_nextPaymentId (db : DB) (iid : Nat) :
    (markDailyExpensePosted db iid).nextPaymentId = db.nextPaymentId :=
  rfl

@[simp] theorem markCashBankTransferPosted_accounts (db : DB) (iid : Nat) :
    (markCashBankTransferPosted db iid).accounts = db.accounts :=
  rfl

@[simp] theorem markCashBankTransferPosted_products (db : DB) (iid : Nat) :
    (markCashBankTransferPosted db iid).products = db.products :=
  rfl

@[simp] theorem markCashBankTransferPosted_entries (db : DB) (iid : Nat) :
    (markCashBankTransferPosted db iid).entries = db.entries :=
  rfl

@[simp] theorem markCashBankTransferPosted_payments (db : DB) (iid : Nat) :
    (markCashBankTransferPosted db iid).payments = db.payments :=
  rfl

@[simp] theorem markCashBankTransferPosted_salesInvoices (db : DB) (iid : Nat) :
    (markCashBankTransferPosted db iid).salesInvoices = db.salesInvoices :=
  rfl

@[simp] theorem markCashBankTransferPosted_purchaseInvoices (db : DB) (iid : Nat) :
    (markCashBankTransferPosted db iid).purchaseInvoices = db.purchaseInvoices :=
  rfl

@[simp] theorem markCashBankTransferPosted_salesReturns (db : DB) (iid : Nat) :
    (markCashBankTransferPosted db iid).salesReturns = db.salesReturns :=
  rfl

@[simp] theorem markCashBankTransferPosted_purchaseReturns (db : DB) (iid : Nat) :
    (markCashBankTransferPosted db iid).purchaseReturns = db.purchaseReturns :=
  rfl

@[simp] theorem markCashBankTransferPosted_dailyExpenses (db : DB) (iid : Nat) :
    (markCashBankTransferPosted db iid).dailyExpenses = db.dailyExpenses :=
  rfl

@[simp] theorem markCashBankTransferPosted_stockAdjustments (db : DB) (iid : Nat) :
    (markCashBankTransferPosted db iid).stockAdjustments = db.stockAdjustments :=
  rfl

@[simp] theorem markCashBankTransferPosted_nextAccountId (db : DB) (iid : Nat) :
    (markCashBankTransferPosted db iid).nextAccountId = db.nextAccountId :=
  rfl

@[simp] theorem markCashBankTransferPosted_nextPaymentId (db : DB) (iid : Nat) :
    (markCashBankTransferPosted db iid).nextPaymentId = db.nextPaymentId :=
  rfl

@[simp] theorem markStockAdjustmentPosted_accounts (db : DB) (iid : Nat) :
    (markStockAdjustmentPosted db iid).accounts = db.accounts :=
  rfl

@[simp] theorem markStockAdjustmentPosted_products (db : DB) (iid : Nat) :
    (markStockAdjustmentPosted db iid).products = db.products :=
  rfl

@[simp] theorem markStockAdjustmentPosted_entries (db : DB) (iid : Nat) :
    (markStockAdjustmentPosted db iid).entries = db.entries :=
  rfl

@[simp] theorem markStockAdjustmentPosted_payments (db : DB) (iid : Nat) :
    (markStockAdjustmentPosted db iid).payments = db.payments :=
  rfl

@[simp] theorem markStockAdjustmentPosted_salesInvoices (db : DB) (iid : Nat) :
    (markStockAdjustmentPosted db iid).salesInvoices = db.salesInvoices :=
  rfl

@[simp] theorem markStockAdjustmentPosted_purchaseInvoices (db : DB) (iid : Nat) :
    (markStockAdjustmentPosted db iid).purchaseInvoices = db.purchaseInvoices :=
  rfl

@[simp] theorem markStockAdjustmentPosted_salesReturns (db : DB) (iid : Nat) :
    (markStockAdjustmentPosted db iid).salesReturns = db.salesReturns :=
  rfl

@[simp] theorem markStockAdjustmentPosted_purchaseReturns (db : DB) (iid : Nat) :
    (markStockAdjustmentPosted db iid).purchaseReturns = db.purchaseReturns :=
  rfl

@[simp] theorem markStockAdjustmentPosted_dailyExpenses (db : DB) (iid : Nat) :
    (markStockAdjustmentPosted db iid).dailyExpenses = db.dailyExpenses :=
  rfl

@[simp] theorem markStockAdjustmentPosted_cashBankTransfers (db : DB) (iid : Nat) :
    (markStockAdjustmentPosted db iid).cashBankTransfers = db.cashBankTransfers :=
  rfl

@[simp] theorem markStockAdjustmentPosted_nextAccountId (db : DB) (iid : Nat) :
    (markStockAdjustmentPosted db iid).nextAccountId = db.nextAccountId :=
  rfl

@[simp] theorem markStockAdjustmentPosted_nextPaymentId (db : DB) (iid : Nat) :
    (markStockAdjustmentPosted db iid).nextPaymentId = db.nextPaymentId :=
  rfl

/-! Behaviour lemmas for the storage primitives. -/

@[simp] theorem observedDB_ok {α : Type} (db db' : DB) (x : α) :
    observedDB db (.ok (x, db')) = db' := rfl

@[simp] theorem observedDB_error {α : Type} (db : DB) (e : PostError) :
    observedDB (α := α) db (.error e) = db := rfl

theorem companyAcct_owner (db : DB) (ow : Nat) (code : String) (t : AccountType)
    (cb ap : Bool) : (companyAcct db ow code t cb ap).owner = ow := by
  unfold companyAcct companyAcctFind
  cases h : db.accounts.find? (fun a => a.owner == ow && a.code == code) with
  | none => rfl
  | some a =>
    have hp := List.find?_some h
    simp only [Bool.and_eq_true, beq_iff_eq] at hp
    exact hp.1

theorem companyAcct_mem (db : DB) (ow : Nat) (code : String) (t : AccountType)
    (cb ap : Bool) :
    companyAcct db ow code t cb ap ∈ (companyAcctDB db ow code t cb ap).accounts := by
  unfold companyAcct companyAcctDB
  cases h : companyAcctFind db ow code with
  | none => simp
  | some a =>
    simpa using List.mem_of_find?_eq_some h

theorem companyAcctDB_mono (db : DB) (ow : Nat) (code : String) (t : AccountType)
    (cb ap : Bool) (a : Account) (ha : a ∈ db.accounts) :
    a ∈ (companyAcctDB db ow code t cb ap).accounts := by
  unfold companyAcctDB
  cases companyAcctFind db ow code with
  | none => simp [ha]
  | some _ => exact ha

theorem companyAcctDB_acctOK (db : DB) (ow : Nat) (code : String) (t : AccountType)
    (cb ap : Bool) (h : AcctOK db) : AcctOK (companyAcctDB db ow code t cb ap) := by
  obtain ⟨hbound, hnd⟩ := h
  unfold companyAcctDB
  cases companyAcctFind db ow code with
  | some _ => exact ⟨hbound, hnd⟩
  | none =>
    constructor
    · intro a ha
      rcases List.mem_append.mp ha with h1 | h1
      · exact Nat.lt_succ_of_lt (hbound a h1)
      · simp only [List.mem_singleton] at h1
        subst h1
        exact Nat.lt_succ_self _
    · refine List.pairwise_append.mpr ⟨hnd, List.pairwise_singleton _ _, ?_⟩
      intro a ha b hb
      simp only [List.mem_singleton] at hb
      subst hb
      exact Nat.ne_of_lt (hbound a ha)

theorem GoodEntry_mono (l l' : List Account) (h : ∀ a ∈ l, a ∈ l')
    (e : JournalEntry) (hg : GoodEntry l e) : GoodEntry l' e := by
  obtain ⟨h1, ⟨a, ha, ha2⟩, ⟨b, hb, hb2⟩⟩ := hg
  exact ⟨h1, ⟨a, h a ha, ha2⟩, ⟨b, h b hb, hb2⟩⟩

theorem countJE_eq_zero_iff (db : DB) (ow : Nat) (rm : SourceKind) (rid : Nat) :
    countJE db ow rm rid = 0 ↔ jeKeyExists db ow rm rid = false := by
  unfold countJE jeKeyExists
  simp [List.length_eq_zero, List.filter_eq_nil_iff, List.any_eq_false]

theorem createJE_good (db : DB) (ow date dA cA : Nat) (amt : ℚ) (rm : SourceKind)
    (rid : Nat) (hg : ∀ e ∈ db.entries, GoodEntry db.accounts e) (hamt : 0 < amt)
    (hdA : ∃ a ∈ db.accounts, a.id = dA ∧ a.owner = ow)
    (hcA : ∃ a ∈ db.accounts, a.id = cA ∧ a.owner = ow) :
    ∀ e ∈ (createJE db ow date dA cA amt rm rid).entries,
      GoodEntry (createJE db ow date dA cA amt rm rid).accounts e := by
  rw [createJE_accounts]
  unfold createJE
  split
  · exact hg
  · intro e he
    simp only [List.mem_append, List.mem_singleton] at he
    rcases he with h1 | h1
    · exact hg e h1
    · subst h1
      exact ⟨hamt, hdA, hcA⟩

theorem countJE_createJE_self (db : DB) (ow date dA cA : Nat) (amt : ℚ)
    (rm : SourceKind) (rid : Nat) (h : countJE db ow rm rid = 0) :
    countJE (createJE db ow date dA cA amt rm rid) ow rm rid = 1 := by
  have hk := (countJE_eq_zero_iff db ow rm rid).mp h
  unfold countJE at h ⊢
  unfold createJE
  rw [hk]
  simp only [Bool.false_eq_true, if_false, List.filter_append, List.length_append, h]
  simp

theorem countJE_createJE_otherModel (db : DB) (ow date dA cA : Nat) (amt : ℚ)
    (rm : SourceKind) (rid : Nat) (ow' : Nat) (rm' : SourceKind) (rid' : Nat)
    (hne : rm' ≠ rm) :
    countJE (createJE db ow date dA cA amt rm rid) ow' rm' rid' =
      countJE db ow' rm' rid' := by
  unfold countJE createJE
  split
  · rfl
  · simp only [List.filter_append, List.length_append]
    have h0 : (List.filter (fun e =>
        e.owner == ow' && e.relatedModel == rm' && e.relatedId == rid')
        [(⟨ow, date, dA, cA, amt, rm, rid⟩ : JournalEntry)]).length = 0 := by
      simp [hne]
      exact fun _ h2 _ => hne h2.symm
    rw [h0]
    exact Nat.add_zero _

theorem stockOf_adjustStock (db : DB) (pid : Nat) (delta : ℚ) (q : Nat) :
    stockOf (adjustStock db pid delta) q =
      if q = pid ∧ hasProduct db q then stockOf db q + delta
      else stockOf db q := by
  unfold stockOf adjustStock hasProduct
  simp only []
  rw [List.find?_map]
  have hcomp : ((fun p => p.id == q) ∘ (fun p =>
      if p.id == pid then { p with currentStock := p.currentStock + delta } else p))
      = fun (p : Product) => p.id == q := by
    funext p
    by_cases h : p.id = pid <;> simp [h]
  rw [hcomp]
  cases hf : db.products.find? (fun p => p.id == q) with
  | none =>
    have hno : ¬(q = pid ∧ ∃ p ∈ db.products, p.id = q) := by
      rintro ⟨-, p, hp, hpq⟩
      have := List.find?_eq_none.mp hf p hp
      simp [hpq] at this
    rw [if_neg hno]
    simp
  | some p0 =>
    have hq : p0.id = q := by
      have := List.find?_some hf
      simpa using this
    have hmem : p0 ∈ db.products := List.mem_of_find?_eq_some hf
    by_cases hqp : q = pid
    · rw [if_pos (show q = pid ∧ ∃ p ∈ db.products, p.id = q from ⟨hqp, p0, hmem, hq⟩)]
      simp [hq, hqp]
    · rw [if_neg (show ¬(q = pid ∧ ∃ p ∈ db.products, p.id = q) from
        fun h => hqp h.1)]
      simp [hq, hqp]

theorem hasProduct_adjustStock (db : DB) (pid : Nat) (delta : ℚ) (q : Nat) :
    hasProduct (adjustStock db pid delta) q ↔ hasProduct db q := by
  unfold hasProduct adjustStock
  simp only [List.mem_map]
  constructor
  · rintro ⟨p', ⟨p, hp, rfl⟩, hid⟩
    refine ⟨p, hp, ?_⟩
    by_cases h : p.id == pid <;> simpa [h] using hid
  · rintro ⟨p, hp, hid⟩
    by_cases h : p.id == pid
    · exact ⟨_, ⟨p, hp, rfl⟩, by simpa [h] using hid⟩
    · exact ⟨_, ⟨p, hp, rfl⟩, by simpa [h] using hid⟩

theorem salesStockLoop_eq (items : List LineItem) (db : DB) :
    salesStockLoop items db = { db with products := (salesStockLoop items db).products } := by
  induction items generalizing db with
  | nil => rfl
  | cons it rest ih =>
    unfold salesStockLoop at ih ⊢
    simp only [List.foldl_cons]
    by_cases h : 0 < it.quantityUnits
    · rw [if_pos h]
      exact ih (adjustStock db it.productId (-it.quantityUnits))
    · rw [if_neg h]
      exact ih db

@[simp] theorem salesStockLoop_entries (items : List LineItem) (db : DB) :
    (salesStockLoop items db).entries = db.entries := by
  rw [salesStockLoop_eq items db]

@[simp] theorem salesStockLoop_accounts (items : List LineItem) (db : DB) :
    (salesStockLoop items db).accounts = db.accounts := by
  rw [salesStockLoop_eq items db]

@[simp] theorem salesStockLoop_payments (items : List LineItem) (db : DB) :
    (salesStockLoop items db).payments = db.payments := by
  rw [salesStockLoop_eq items db]

@[simp] theorem salesStockLoop_nextAccountId (items : List LineItem) (db : DB) :
    (salesStockLoop items db).nextAccountId = db.nextAccountId := by
  rw [salesStockLoop_eq items db]

@[simp] theorem salesStockLoop_nextPaymentId (items : List LineItem) (db : DB) :
    (salesStockLoop items db).nextPaymentId = db.nextPaymentId := by
  rw [salesStockLoop_eq items db]

theorem hasProduct_salesStockLoop (items : List LineItem) (db : DB) (q : Nat) :
    hasProduct (salesStockLoop items db) q ↔ hasProduct db q := by
  induction items generalizing db with
  | nil => exact Iff.rfl
  | cons it rest ih =>
    unfold salesStockLoop at ih ⊢
    simp only [List.foldl_cons]
    by_cases h : 0 < it.quantityUnits
    · rw [if_pos h, ih, hasProduct_adjustStock]
    · rw [if_neg h, ih]

theorem stockOf_salesStockLoop (items : List LineItem) (db : DB) (pid : Nat)
    (hq : hasProduct db pid) :
    stockOf (salesStockLoop items db) pid =
      stockOf db pid -
        ((items.filter (fun it => it.productId == pid
            && decide (0 < it.quantityUnits))).map (fun it => it.quantityUnits)).sum := by
  induction items generalizing db with
  | nil => simp [salesStockLoop]
  | cons it rest ih =>
    unfold salesStockLoop at ih ⊢
    simp only [List.foldl_cons]
    by_cases hpos : 0 < it.quantityUnits
    · rw [if_pos hpos]
      rw [ih (adjustStock db it.productId (-it.quantityUnits))
        ((hasProduct_adjustStock db it.productId (-it.quantityUnits) pid).mpr hq)]
      rw [stockOf_adjustStock]
      by_cases hid : it.productId = pid
      · have hfil : (it.productId == pid && decide (0 < it.quantityUnits)) = true := by
          simp [hid, hpos]
        rw [if_pos (show pid = it.productId ∧ hasProduct db pid from ⟨hid.symm, hq⟩)]
        simp only [List.filter_cons, hfil, if_true, List.map_cons, List.sum_cons]
        ring
      · have hfil : (it.productId == pid && decide (0 < it.quantityUnits)) = false := by
          simp [hid]
        have hne : ¬(pid = it.productId ∧ hasProduct db pid) := by
          rintro ⟨h1, -⟩
          exact hid h1.symm
        rw [if_neg hne]
        simp only [List.filter_cons, hfil, Bool.false_eq_true, if_false]
    · rw [if_neg hpos]
      rw [ih db hq]
      have hfil : (it.productId == pid && decide (0 < it.quantityUnits)) = false := by
        simp [hpos]
      simp only [List.filter_cons, hfil, Bool.false_eq_true, if_false]

theorem purchaseStockLoop_ok_eq (ow : Nat) (items : List LineItem) (db db' : DB)
    (h : purchaseStockLoop ow items db = .ok db') :
    db' = { db with products := db'.products } := by
  induction items generalizing db with
  | nil =>
    simp only [purchaseStockLoop] at h
    cases h
    rfl
  | cons it rest ih =>
    unfold purchaseStockLoop at h
    by_cases hpos : 0 < it.quantityUnits
    · rw [if_pos hpos] at h
      cases hf : db.products.find? (fun p => p.id == it.productId) with
      | some prod =>
        rw [hf] at h
        dsimp only at h
        by_cases hcross : prod.owner ≠ ow
        · rw [if_pos hcross] at h
          cases h
        · rw [if_neg hcross] at h
          exact ih (adjustStock db it.productId it.quantityUnits) h
      | none =>
        rw [hf] at h
        dsimp only at h
        exact ih db h
    · rw [if_neg hpos] at h
      exact ih db h

theorem salesReturnStockLoop_ok_eq (ow : Nat) (items : List LineItem) (db db' : DB)
    (h : salesReturnStockLoop ow items db = .ok db') :
    db' = { db with products := db'.products } := by
  induction items generalizing db with
  | nil =>
    simp only [salesReturnStockLoop] at h
    cases h
    rfl
  | cons it rest ih =>
    unfold salesReturnStockLoop at h
    by_cases hpos : 0 < it.quantityUnits
    · rw [if_pos hpos] at h
      cases hf : db.products.find? (fun p => p.id == it.productId) with
      | some prod =>
        rw [hf] at h
        dsimp only at h
        by_cases hcross : prod.owner ≠ ow
        · rw [if_pos hcross] at h
          cases h
        · rw [if_neg hcross] at h
          exact ih (adjustStock db it.productId it.quantityUnits) h
      | none =>
        rw [hf] at h
        dsimp only at h
        exact ih db h
    · rw [if_neg hpos] at h
      exact ih db h

theorem purchaseReturnStockLoop_ok_eq (ow : Nat) (items : List LineItem) (db db' : DB)
    (h : purchaseReturnStockLoop ow items db = .ok db') :
    db' = { db with products := db'.products } := by
  induction items generalizing db with
  | nil =>
    simp only [purchaseReturnStockLoop] at h
    cases h
    rfl
  | cons it rest ih =>
    unfold purchaseReturnStockLoop at h
    by_cases hpos : 0 < it.quantityUnits
    · rw [if_pos hpos] at h
      cases hf : db.products.find? (fun p => p.id == it.productId) with
      | some prod =>
        rw [hf] at h
        dsimp only at h
        by_cases hcross : prod.owner ≠ ow
        · rw [if_pos hcross] at h
          cases h
        · rw [if_neg hcross] at h
          exact ih (adjustStock db it.productId (-it.quantityUnits)) h
      | none =>
        rw [hf] at h
        dsimp only at h
        exact ih db h
    · rw [if_neg hpos] at h
      exact ih db h

theorem countPayments_eq_zero_iff (db : DB) (ow : Nat) (rm : SourceKind)
    (rid : Nat) (dir : Direction) :
    countPayments db ow rm rid dir = 0 ↔ paymentKeyExists db ow rm rid dir = false := by
  unfold countPayments paymentKeyExists
  simp [List.length_eq_zero, List.filter_eq_nil_iff, List.any_eq_false]

theorem filter_length_map_of_pred_eq {α : Type} (l : List α) (f : α → α)
    (p : α → Bool) (hp : ∀ x, p (f x) = p x) :
    (List.filter p (l.map f)).length = (l.filter p).length := by
  induction l with
  | nil => rfl
  | cons x xs ih =>
    simp only [List.map_cons, List.filter_cons, hp x]
    by_cases h : p x = true
    · simp [h, ih]
    · simp [h, ih]

theorem countPayments_markPaymentPosted (db : DB) (pid : Nat) (ow : Nat)
    (rm : SourceKind) (rid : Nat) (dir : Direction) :
    countPayments (markPaymentPosted db pid) ow rm rid dir =
      countPayments db ow rm rid dir := by
  unfold countPayments markPaymentPosted
  exact filter_length_map_of_pred_eq db.payments _ _
    (fun q => by by_cases h : q.id = pid <;> simp [h])

/-- C6: calling post on an already-posted document is a silent no-op for
every document kind, and posting a document whose computed total (or
amount) is zero or negative returns successfully without changing any state
and without setting the posted flag; for invoice-like documents the
non-positive-total no-op is reached once the tenant is resolved and the
document's references pass the cross-owner checks, which the source
performs first. -/
theorem post_silent_noop
    (inv : SalesInvoice) (pinv : PurchaseInvoice) (sr : SalesReturn)
    (pr : PurchaseReturn) (p : Payment) (e : DailyExpense)
    (t : CashBankTransfer) (sa : StockAdjustment) (db : DB) :
    (inv.posted = true → inv.post db = .ok (inv, db)) ∧
    (∀ ow, inv.owner = some ow → inv.customer.owner = some ow →
      acctCross inv.paymentAccount ow = false → inv.calculateTotal ≤ 0 →
      inv.post db = .ok (inv, db)) ∧
    (pinv.posted = true → pinv.post db = .ok (pinv, db)) ∧
    (∀ ow, pinv.owner = some ow → pinv.supplier.owner = some ow →
      acctCross pinv.paymentAccount ow = false → pinv.calculateTotal ≤ 0 →
      pinv.post db = .ok (pinv, db)) ∧
    (sr.posted = true → sr.post db = .ok (sr, db)) ∧
    (∀ ow, sr.owner = some ow → sr.customer.owner = some ow →
      salesRefCross sr.referenceInvoice ow = false → sr.calculateTotal ≤ 0 →
      sr.post db = .ok (sr, db)) ∧
    (pr.posted = true → pr.post db = .ok (pr, db)) ∧
    (∀ ow, pr.owner = some ow → pr.supplier.owner = some ow →
      purchaseRefCross pr.referenceInvoice ow = false → pr.calculateTotal ≤ 0 →
      pr.post db = .ok (pr, db)) ∧
    (p.posted = true ∨ p.amount ≤ 0 → p.post db = .ok (p, db)) ∧
    (e.posted = true ∨ e.amount ≤ 0 → e.post db = .ok (e, db)) ∧
    (t.posted = true ∨ t.amount ≤ 0 → t.post db = .ok (t, db)) ∧
    (sa.posted = true ∨ sa.amount ≤ 0 → sa.post db = .ok (sa, db)) := by
  refine ⟨?_, ?_, ?_, ?_, ?_, ?_, ?_, ?_, ?_, ?_, ?_, ?_⟩
  · intro hp
    unfold SalesInvoice.post
    rw [if_pos hp]
  · intro ow h1 h2 h3 h4
    unfold SalesInvoice.post
    by_cases hp : inv.posted = true
    · rw [if_pos hp]
    · rw [if_neg hp, h1]
      dsimp only
      rw [if_neg (by simp [h2]), if_neg (by simp [h3]), if_pos h4]
  · intro hp
    unfold PurchaseInvoice.post
    rw [if_pos hp]
  · intro ow h1 h2 h3 h4
    unfold PurchaseInvoice.post
    by_cases hp : pinv.posted = true
    · rw [if_pos hp]
    · rw [if_neg hp, h1]
      dsimp only
      rw [if_neg (by simp [h2]), if_neg (by simp [h3]), if_pos h4]
  · intro hp
    unfold SalesReturn.post
    rw [if_pos hp]
  · intro ow h1 h2 h3 h4
    unfold SalesReturn.post
    by_cases hp : sr.posted = true
    · rw [if_pos hp]
    · rw [if_neg hp, h1]
      dsimp only
      rw [if_neg (by simp [h2]), if_neg (by simp [h3]), if_pos h4]
  · intro hp
    unfold PurchaseReturn.post
    rw [if_pos hp]
  · intro ow h1 h2 h3 h4
    unfold PurchaseReturn.post
    by_cases hp : pr.posted = true
    · rw [if_pos hp]
    · rw [if_neg hp, h1]
      dsimp only
      rw [if_neg (by simp [h2]), if_neg (by simp [h3]), if_pos h4]
  · intro hp
    unfold Payment.post
    rw [if_pos hp]
  · intro hp
    unfold DailyExpense.post
    rw [if_pos hp]
  · intro hp
    unfold CashBankTransfer.post
    rw [if_pos hp]
  · intro hp
    unfold StockAdjustment.post
    rw [if_pos hp]

/-- C6 witness: the no-op conclusions evaluated at concrete documents. -/
theorem post_silent_noop_witness :
    noopInv.post emptyDB = .ok (noopInv, emptyDB) ∧
    noopPinv.post emptyDB = .ok (noopPinv, emptyDB) ∧
    noopSret.post emptyDB = .ok (noopSret, emptyDB) ∧
    noopPret.post emptyDB = .ok (noopPret, emptyDB) ∧
    noopPay.post emptyDB = .ok (noopPay, emptyDB) ∧
    noopExp.post emptyDB = .ok (noopExp, emptyDB) ∧
    noopTrf.post emptyDB = .ok (noopTrf, emptyDB) ∧
    noopAdj.post emptyDB = .ok (noopAdj, emptyDB) := by
  obtain ⟨h1, h2, h3, h4, h5, h6, h7, h8, h9, h10, h11, h12⟩ :=
    post_silent_noop noopInv noopPinv noopSret noopPret noopPay noopExp
      noopTrf noopAdj emptyDB
  exact ⟨h2 1 (by decide) (by decide) (by decide) (by with_unfolding_all decide),
    h4 1 (by decide) (by decide) (by decide) (by with_unfolding_all decide),
    h6 1 (by decide) (by decide) (by decide) (by with_unfolding_all decide),
    h8 1 (by decide) (by decide) (by decide) (by with_unfolding_all decide),
    h9 (Or.inl (by decide)),
    h10 (Or.inr (by with_unfolding_all decide)),
    h11 (Or.inl (by decide)),
    h12 (Or.inr (by with_unfolding_all decide))⟩

/-- C7: for a customer with stored opening balance 1000 flagged debit, one
posted sales invoice of 500 and one posted direction-IN receipt of 300, the
party ledger (no date bounds) consists of the invoice row at running
balance 1500 followed by the receipt row at closing balance 1200 on the
debit-positive customer side, and party_balance as of day 10 (today)
returns the same 1200. -/
theorem party_ledger_replay :
    getPartyLedger dbC7 1 custC7 none none =
      [⟨2, 500, 0, 1500, some .salesInvoice, some 11⟩,
       ⟨3, 0, 300, 1200, some .payment, some 21⟩] ∧
    getPartyBalance dbC7 1 custC7 (some 10) = 1200 := by
  set_option maxRecDepth 4000 in with_unfolding_all decide

/-- C10: when a party has no posted invoice, return or payment row in range
(start=None, end=as_of), party_balance returns 0 even though the stored
opening balance is nonzero — the opening balance never surfaces because no
ledger row exists; supplying a start date to party_ledger, by contrast,
always emits an opening row carrying the opening balance. -/
theorem party_balance_zero_without_documents (db : DB) (ow : Nat) (party : Party)
    (asOf : Option Nat) (hopen : party.openingBalance ≠ 0)
    (hitems : partyItems db ow party none asOf = []) :
    getPartyBalance db ow party asOf = 0 ∧
    ∀ s endd, (getPartyLedger db ow party (some s) endd).head? =
      some ⟨s, 0, 0, partyOpeningRunning party, none, none⟩ := by
  constructor
  · unfold getPartyBalance getPartyLedger
    rw [hitems]
    simp [plRows]
  · intro s endd
    unfold getPartyLedger
    simp

/-- C10 witness: a customer with opening balance 77 and an empty document
store has party balance 0 as of day 5, while a start-dated ledger emits the
opening row. -/
theorem party_balance_zero_without_documents_witness :
    getPartyBalance emptyDB 1 (⟨100, some 1, .CUSTOMER, 77, true⟩ : Party) (some 5) = 0 ∧
    (getPartyLedger emptyDB 1 (⟨100, some 1, .CUSTOMER, 77, true⟩ : Party)
      (some 3) none).head? = some ⟨3, 0, 0, 77, none, none⟩ := by
  obtain ⟨h1, h2⟩ := party_balance_zero_without_documents emptyDB 1
    (⟨100, some 1, .CUSTOMER, 77, true⟩ : Party) (some 5)
    (by with_unfolding_all decide) (by with_unfolding_all decide)
  refine ⟨h1, ?_⟩
  have := h2 3 none
  rwa [show partyOpeningRunning (⟨100, some 1, .CUSTOMER, 77, true⟩ : Party) = 77 from rfl]
    at this

theorem foldl_add_eq_sum {α : Type} (f : α → ℚ) (l : List α) (c : ℚ) :
    l.foldl (fun b e => b + f e) c = c + (l.map f).sum := by
  induction l generalizing c with
  | nil => simp
  | cons x xs ih =>
    simp only [List.foldl_cons, List.map_cons, List.sum_cons, ih]
    ring

theorem sum_map_sub {α : Type} (l : List α) (f g : α → ℚ) :
    (l.map (fun x => f x - g x)).sum = (l.map f).sum - (l.map g).sum := by
  induction l with
  | nil => simp
  | cons x xs ih =>
    simp only [List.map_cons, List.sum_cons, ih]
    ring

theorem balanceOfEntries_eq_sum (entries : List JournalEntry) (ow : Nat)
    (a : Account) (asOf : Option Nat) :
    balanceOfEntries entries ow a asOf =
      ((relevantEntries entries ow a asOf).map (signedAmount a)).sum := by
  have hfun : (fun (bal : ℚ) (e : JournalEntry) =>
      let debit := if e.debitAccount == a.id then e.amount else 0
      let credit := if e.creditAccount == a.id then e.amount else 0
      if isDebitNormal a.accountType then bal + (debit - credit)
      else bal + (credit - debit))
      = fun (bal : ℚ) (e : JournalEntry) => bal + signedAmount a e := by
    funext bal e
    simp only [signedAmount]
    split <;> rfl
  unfold balanceOfEntries relevantEntries
  cases asOf with
  | none =>
    simp only []
    rw [hfun, foldl_add_eq_sum, zero_add]
  | some d =>
    simp only []
    rw [hfun, foldl_add_eq_sum, zero_add]

/-- C3: get_account_balance equals, for every account and as_of date, the
spec-side sum Σdebit − Σcredit (debit-normal) or Σcredit − Σdebit
(credit-normal) over the owner's entries touching the account up to and
including as_of; and the result is independent of the order in which the
journal rows are read: permuting the journal table leaves it unchanged. -/
theorem account_balance_correct (db db' : DB) (ow : Nat) (a : Account)
    (asOf : Option Nat) (hperm : db.entries.Perm db'.entries) :
    getAccountBalance db ow a asOf = accountBalanceSpec db.entries ow a asOf ∧
    getAccountBalance db ow a asOf = getAccountBalance db' ow a asOf := by
  constructor
  · unfold getAccountBalance
    rw [balanceOfEntries_eq_sum]
    unfold accountBalanceSpec relevantEntries
    cases asOf with
    | none =>
      simp only [dateLE, Bool.and_true]
      by_cases hdn : isDebitNormal a.accountType = true
      · simp only [hdn, if_true]
        rw [← sum_map_sub]
        congr 1
        apply List.map_congr_left
        intro e he
        simp [signedAmount, hdn]
      · simp only [hdn, Bool.false_eq_true, if_false]
        rw [← sum_map_sub]
        congr 1
        apply List.map_congr_left
        intro e he
        simp [signedAmount, hdn]
    | some d =>
      simp only [dateLE, List.filter_filter]
      have harr : (fun (e : JournalEntry) => decide (e.date ≤ d)
          && (e.owner == ow && (e.debitAccount == a.id || e.creditAccount == a.id)))
          = fun e => e.owner == ow
            && (e.debitAccount == a.id || e.creditAccount == a.id)
            && decide (e.date ≤ d) := by
        funext e
        cases h1 : (e.owner == ow && (e.debitAccount == a.id || e.creditAccount == a.id)) <;>
          cases h2 : decide (e.date ≤ d) <;> simp [h1, h2]
      rw [harr]
      by_cases hdn : isDebitNormal a.accountType = true
      · simp only [hdn, if_true]
        rw [← sum_map_sub]
        congr 1
        apply List.map_congr_left
        intro e he
        simp [signedAmount, hdn]
      · simp only [hdn, Bool.false_eq_true, if_false]
        rw [← sum_map_sub]
        congr 1
        apply List.map_congr_left
        intro e he
        simp [signedAmount, hdn]
  · unfold getAccountBalance
    rw [balanceOfEntries_eq_sum, balanceOfEntries_eq_sum]
    apply List.Perm.sum_eq
    apply List.Perm.map
    unfold relevantEntries
    cases asOf with
    | none => exact hperm.filter _
    | some d => exact (hperm.filter _).filter _

/-- C3 witness: the balance of the cash account over two concrete entries
matches the spec sum and is unchanged when the entries are read in the
opposite order. -/
theorem account_balance_correct_witness :
    getAccountBalance dbC3a 1 cashW none = accountBalanceSpec dbC3a.entries 1 cashW none ∧
    getAccountBalance dbC3a 1 cashW none = getAccountBalance dbC3b 1 cashW none :=
  account_balance_correct dbC3a dbC3b 1 cashW none (by decide)

/-- C4: whenever PurchaseInvoice.post or Payment.post raises
(OwnerNotResolved, CrossTenantReference, or an invalid-state error such as
a cross-tenant product discovered while applying stock deltas), the state
the caller observes after the aborted transaction is the pre-call state:
no journal entry added, no product stock changed, the document row (and its
posted flag) untouched. -/
theorem post_fatal_atomic (inv : PurchaseInvoice) (p : Payment) (db : DB) :
    (∀ e, inv.post db = .error e →
      observedDB db (inv.post db) = db ∧
      (observedDB db (inv.post db)).entries = db.entries ∧
      (∀ pid, stockOf (observedDB db (inv.post db)) pid = stockOf db pid) ∧
      (observedDB db (inv.post db)).purchaseInvoices = db.purchaseInvoices) ∧
    (∀ e, p.post db = .error e →
      observedDB db (p.post db) = db ∧
      (observedDB db (p.post db)).entries = db.entries ∧
      (observedDB db (p.post db)).payments = db.payments) := by
  constructor
  · intro e h
    rw [h]
    exact ⟨rfl, rfl, fun _ => rfl, rfl⟩
  · intro e h
    rw [h]
    exact ⟨rfl, rfl, rfl⟩

/-- C4 witness: the cross-tenant product of the second purchase line aborts
the posting after the first line's stock delta would already have been
applied, and the observed state is untouched; an owner-less payment aborts
with OwnerNotResolved likewise. -/
theorem post_fatal_atomic_witness :
    invC4.post dbC4 = .error .crossOwner ∧
    observedDB dbC4 (invC4.post dbC4) = dbC4 ∧
    stockOf (observedDB dbC4 (invC4.post dbC4)) 7 = 10 ∧
    payC4.post dbC4 = .error .ownerNotResolved ∧
    observedDB dbC4 (payC4.post dbC4) = dbC4 := by
  have herr1 : invC4.post dbC4 = .error .crossOwner := by with_unfolding_all decide
  have herr2 : payC4.post dbC4 = .error .ownerNotResolved := by with_unfolding_all decide
  obtain ⟨h1, h2⟩ := post_fatal_atomic invC4 payC4 dbC4
  obtain ⟨ha, hb, hc, hd⟩ := h1 .crossOwner herr1
  obtain ⟨he, hf, hg⟩ := h2 .ownerNotResolved herr2
  refine ⟨herr1, ha, ?_, herr2, he⟩
  rw [hc 7]
  with_unfolding_all decide

/-- C8 counterexample: posting a concrete unposted adjustment payment whose
adjustment_side is empty does NOT fail — it succeeds, creates the journal
entry and marks the payment posted, refuting the claim that post raises an
InvalidDocumentState error before any mutation. -/
theorem payment_adjustment_empty_side_counterexample :
    postOkPosted (payC8.post dbC8) = true ∧
    countJE (observedDB dbC8 (payC8.post dbC8)) 1 .payment 23 = 1 := by
  with_unfolding_all decide

theorem payment_post_adjustment_run (p : Payment) (db : DB) (ow : Nat)
    (party : Party) (hposted : p.posted = false) (hamt : 0 < p.amount)
    (howner : p.owner = some ow) (hparty : p.party = some party)
    (hpowner : party.owner = some ow) (hadj : p.isAdjustment = true)
    (hDR : effSide p.adjustmentSide = "DR") :
    p.post db = .ok ({ p with posted := true },
      markPaymentPosted
        (createJE
          (companyAcctDB (companyAcctDB db ow (controlCode party.partyType)
            (controlType party.partyType) false false) ow "3000"
            AccountType.EQUITY false false)
          ow p.date
          (companyAcct db ow (controlCode party.partyType)
            (controlType party.partyType) false false).id
          (companyAcct (companyAcctDB db ow (controlCode party.partyType)
            (controlType party.partyType) false false) ow "3000"
            AccountType.EQUITY false false).id
          p.amount .payment p.id) p.id) := by
  have h1 : ¬(p.posted = true ∨ p.amount ≤ 0) := by
    rw [hposted]
    simp only [Bool.false_eq_true, false_or, not_le]
    exact hamt
  unfold Payment.post
  rw [if_neg h1, howner, hparty]
  simp [hpowner, hadj, hDR]

/-- C8 amended: for every unposted adjustment payment with positive amount,
resolved owner and owned party whose adjustment_side is empty, post does
not raise; it silently defaults the side to DR, producing exactly the state
that posting the same payment with adjustment_side DR produces, and returns
the payment marked posted.  (The missing-side rejection lives only in
Payment.clean, which post does not invoke.) -/
theorem payment_adjustment_empty_side_defaults_dr (p : Payment) (db : DB)
    (ow : Nat) (party : Party) (hposted : p.posted = false) (hamt : 0 < p.amount)
    (howner : p.owner = some ow) (hparty : p.party = some party)
    (hpowner : party.owner = some ow) (hadj : p.isAdjustment = true)
    (hside : p.adjustmentSide = "") :
    ∃ db', p.post db = .ok ({ p with posted := true }, db') ∧
      ({ p with adjustmentSide := "DR" } : Payment).post db =
        .ok ({ p with adjustmentSide := "DR", posted := true }, db') := by
  have heff1 : effSide p.adjustmentSide = "DR" := by
    rw [hside]
    with_unfolding_all decide
  have heff2 : effSide "DR" = "DR" := by
    with_unfolding_all decide
  have run1 := payment_post_adjustment_run p db ow party hposted hamt howner
    hparty hpowner hadj heff1
  have run2 := payment_post_adjustment_run ({ p with adjustmentSide := "DR" })
    db ow party hposted hamt howner hparty hpowner hadj heff2
  exact ⟨_, run1, run2⟩

/-- C8 amended-claim witness: the concrete empty-side adjustment payment of
the counterexample scenario posts to exactly the state that a DR-side copy
posts to. -/
theorem payment_adjustment_empty_side_defaults_dr_witness :
    ∃ db', payC8.post dbC8 = .ok ({ payC8 with posted := true }, db') ∧
      ({ payC8 with adjustmentSide := "DR" } : Payment).post dbC8 =
        .ok ({ payC8 with adjustmentSide := "DR", posted := true }, db') :=
  payment_adjustment_empty_side_defaults_dr payC8 dbC8 1 custW (by decide)
    (by with_unfolding_all decide) (by decide) (by decide) (by decide)
    (by decide) (by decide)

theorem countJE_congr (db db' : DB) (h : db.entries = db'.entries) (ow : Nat)
    (rm : SourceKind) (rid : Nat) : countJE db ow rm rid = countJE db' ow rm rid := by
  unfold countJE
  rw [h]

theorem stockOf_congr (db db' : DB) (h : db.products = db'.products) (pid : Nat) :
    stockOf db pid = stockOf db' pid := by
  unfold stockOf
  rw [h]

theorem countPayments_congr (db db' : DB) (h : db.payments = db'.payments)
    (ow : Nat) (rm : SourceKind) (rid : Nat) (dir : Direction) :
    countPayments db ow rm rid dir = countPayments db' ow rm rid dir := by
  unfold countPayments
  rw [h]

theorem payment_post_normal_run (p : Payment) (db : DB) (ow : Nat)
    (party : Party) (acct : Account) (hposted : p.posted = false)
    (hamt : 0 < p.amount) (howner : p.owner = some ow)
    (hparty : p.party = some party) (hpowner : party.owner = some ow)
    (hadj : p.isAdjustment = false) (hacct : p.account = some acct)
    (hao : acct.owner = ow) :
    p.post db = .ok ({ p with posted := true }, paymentRunDB p db ow party acct) := by
  have h1 : ¬(p.posted = true ∨ p.amount ≤ 0) := by
    rw [hposted]
    simp only [Bool.false_eq_true, false_or, not_le]
    exact hamt
  unfold Payment.post paymentRunDB
  rw [if_neg h1, howner, hparty]
  simp [hpowner, hadj, hacct, hao]

@[simp] theorem salesDB5_nextPaymentId (inv : SalesInvoice) (db : DB) (ow : Nat) :
    (salesDB5 inv db ow).nextPaymentId = db.nextPaymentId := by
  simp [salesDB5, salesDB2]

@[simp] theorem salesDB5_payments (inv : SalesInvoice) (db : DB) (ow : Nat) :
    (salesDB5 inv db ow).payments = db.payments := by
  simp [salesDB5, salesDB2]

theorem salesInvoice_post_run (inv : SalesInvoice) (db : DB) (ow : Nat)
    (h1 : inv.owner = some ow) (h2 : inv.customer.owner = some ow)
    (h3 : acctCross inv.paymentAccount ow = false)
    (h4 : inv.posted = false) (h5 : 0 < inv.calculateTotal) :
    inv.post db =
      (if (inv.paymentType = .FULL ∨ inv.paymentType = .PARTIAL)
          ∧ 0 < inv.paymentAmount ∧ inv.paymentAccount ≠ none then
        (if paymentKeyExists (salesDB5 inv db ow) ow .salesInvoice inv.id .IN then
          .ok ({ inv with posted := true }, salesDB5 inv db ow)
        else
          match (salesAutoPay inv db ow).post
              (addPayment (salesDB5 inv db ow) (salesAutoPay inv db ow)) with
          | .error e => .error e
          | .ok (_, db7) => .ok ({ inv with posted := true }, db7))
      else .ok ({ inv with posted := true }, salesDB5 inv db ow)) := by
  unfold SalesInvoice.post salesDB5 salesDB2 salesCC salesInvAcct salesAutoPay
  rw [if_neg (by simp [h4]), h1]
  simp [h2, h3, not_le.mpr h5]

theorem hasProduct_congr (db db' : DB) (h : db.products = db'.products) (pid : Nat) :
    hasProduct db pid ↔ hasProduct db' pid := by
  unfold hasProduct
  rw [h]

theorem countPayments_addPayment_match (db : DB) (q : Payment) (ow : Nat)
    (rm : SourceKind) (rid : Nat) (dir : Direction)
    (h : (q.owner == some ow && q.relatedModel == some rm && q.relatedId == some rid
      && q.direction == dir) = true) :
    countPayments (addPayment db q) ow rm rid dir =
      countPayments db ow rm rid dir + 1 := by
  unfold countPayments addPayment
  simp [List.filter_append, h]

@[simp] theorem paymentRunDB_products (p : Payment) (db : DB) (ow : Nat)
    (party : Party) (acct : Account) :
    (paymentRunDB p db ow party acct).products = db.products := by
  simp [paymentRunDB]

/-! Lifted frame lemmas: the derived counters and lookups are unchanged by
primitives that do not touch the table they read. -/

@[simp] theorem countJE_companyAcctDB (db : DB) (ow0 : Nat) (code : String) (t : AccountType) (cb ap : Bool) (ow : Nat) (rm : SourceKind) (rid : Nat) :
    countJE (companyAcctDB db ow0 code t cb ap) ow rm rid = countJE db ow rm rid :=
  countJE_congr _ _ (companyAcctDB_entries db ow0 code t cb ap) ow rm rid

@[simp] theorem stockOf_companyAcctDB_frame (db : DB) (ow0 : Nat) (code : String) (t : AccountType) (cb ap : Bool) (pid : Nat) :
    stockOf (companyAcctDB db ow0 code t cb ap) pid = stockOf db pid :=
  stockOf_congr _ _ (companyAcctDB_products db ow0 code t cb ap) pid

@[simp] theorem hasProduct_companyAcctDB_frame (db : DB) (ow0 : Nat) (code : String) (t : AccountType) (cb ap : Bool) (pid : Nat) :
    hasProduct (companyAcctDB db ow0 code t cb ap) pid ↔ hasProduct db pid :=
  hasProduct_congr _ _ (companyAcctDB_products db ow0 code t cb ap) pid

@[simp] theorem countPayments_companyAcctDB (db : DB) (ow0 : Nat) (code : String) (t : AccountType) (cb ap : Bool) (ow : Nat) (rm : SourceKind) (rid : Nat) (dir : Direction) :
    countPayments (companyAcctDB db ow0 code t cb ap) ow rm rid dir = countPayments db ow rm rid dir :=
  countPayments_congr _ _ (companyAcctDB_payments db ow0 code t cb ap) ow rm rid dir

@[simp] theorem stockOf_createJE_frame (db : DB) (ow0 date0 dA cA : Nat) (amt : ℚ) (rm0 : SourceKind) (rid0 : Nat) (pid : Nat) :
    stockOf (createJE db ow0 date0 dA cA amt rm0 rid0) pid = stockOf db pid :=
  stockOf_congr _ _ (createJE_products db ow0 date0 dA cA amt rm0 rid0) pid

@[simp] theorem hasProduct_createJE_frame (db : DB) (ow0 date0 dA cA : Nat) (amt : ℚ) (rm0 : SourceKind) (rid0 : Nat) (pid : Nat) :
    hasProduct (createJE db ow0 date0 dA cA amt rm0 rid0) pid ↔ hasProduct db pid :=
  hasProduct_congr _ _ (createJE_products db ow0 date0 dA cA amt rm0 rid0) pid

@[simp] theorem countPayments_createJE (db : DB) (ow0 date0 dA cA : Nat) (amt : ℚ) (rm0 : SourceKind) (rid0 : Nat) (ow : Nat) (rm : SourceKind) (rid : Nat) (dir : Direction) :
    countPayments (createJE db ow0 date0 dA cA amt rm0 rid0) ow rm rid dir = countPayments db ow rm rid dir :=
  countPayments_congr _ _ (createJE_payments db ow0 date0 dA cA amt rm0 rid0) ow rm rid dir

@[simp] theorem countJE_adjustStock (db : DB) (pid0 : Nat) (delta : ℚ) (ow : Nat) (rm : SourceKind) (rid : Nat) :
    countJE (adjustStock db pid0 delta) ow rm rid = countJE db ow rm rid :=
  countJE_congr _ _ (adjustStock_entries db pid0 delta) ow rm rid

@[simp] theorem countPayments_adjustStock (db : DB) (pid0 : Nat) (delta : ℚ) (ow : Nat) (rm : SourceKind) (rid : Nat) (dir : Direction) :
    countPayments (adjustStock db pid0 delta) ow rm rid dir = countPayments db ow rm rid dir :=
  countPayments_congr _ _ (adjustStock_payments db pid0 delta) ow rm rid dir

@[simp] theorem countJE_addPayment (db : DB) (q : Payment) (ow : Nat) (rm : SourceKind) (rid : Nat) :
    countJE (addPayment db q) ow rm rid = countJE db ow rm rid :=
  countJE_congr _ _ (addPayment_entries db q) ow rm rid

@[simp] theorem stockOf_addPayment_frame (db : DB) (q : Payment) (pid : Nat) :
    stockOf (addPayment db q) pid = stockOf db pid :=
  stockOf_congr _ _ (addPayment_products db q) pid

@[simp] theorem hasProduct_addPayment_frame (db : DB) (q : Payment) (pid : Nat) :
    hasProduct (addPayment db q) pid ↔ hasProduct db pid :=
  hasProduct_congr _ _ (addPayment_products db q) pid

@[simp] theorem countJE_markPaymentPosted (db : DB) (pid0 : Nat) (ow : Nat) (rm : SourceKind) (rid : Nat) :
    countJE (markPaymentPosted db pid0) ow rm rid = countJE db ow rm rid :=
  countJE_congr _ _ (markPaymentPosted_entries db pid0) ow rm rid

@[simp] theorem stockOf_markPaymentPosted_frame (db : DB) (pid0 : Nat) (pid : Nat) :
    stockOf (markPaymentPosted db pid0) pid = stockOf db pid :=
  stockOf_congr _ _ (markPaymentPosted_products db pid0) pid

@[simp] theorem hasProduct_markPaymentPosted_frame (db : DB) (pid0 : Nat) (pid : Nat) :
    hasProduct (markPaymentPosted db pid0) pid ↔ hasProduct db pid :=
  hasProduct_congr _ _ (markPaymentPosted_products db pid0) pid

@[simp] theorem countJE_markSalesInvoicePosted (db : DB) (iid : Nat) (ow : Nat) (rm : SourceKind) (rid : Nat) :
    countJE (markSalesInvoicePosted db iid) ow rm rid = countJE db ow rm rid :=
  countJE_congr _ _ (markSalesInvoicePosted_entries db iid) ow rm rid

@[simp] theorem stockOf_markSalesInvoicePosted_frame (db : DB) (iid : Nat) (pid : Nat) :
    stockOf (markSalesInvoicePosted db iid) pid = stockOf db pid :=
  stockOf_congr _ _ (markSalesInvoicePosted_products db iid) pid

@[simp] theorem hasProduct_markSalesInvoicePosted_frame (db : DB) (iid : Nat) (pid : Nat) :
    hasProduct (markSalesInvoicePosted db iid) pid ↔ hasProduct db pid :=
  hasProduct_congr _ _ (markSalesInvoicePosted_products db iid) pid

@[simp] theorem countPayments_markSalesInvoicePosted (db : DB) (iid : Nat) (ow : Nat) (rm : SourceKind) (rid : Nat) (dir : Direction) :
    countPayments (markSalesInvoicePosted db iid) ow rm rid dir = countPayments db ow rm rid dir :=
  countPayments_congr _ _ (markSalesInvoicePosted_payments db iid) ow rm rid dir

@[simp] theorem countJE_markPurchaseInvoicePosted (db : DB) (iid : Nat) (ow : Nat) (rm : SourceKind) (rid : Nat) :
    countJE (markPurchaseInvoicePosted db iid) ow rm rid = countJE db ow rm rid :=
  countJE_congr _ _ (markPurchaseInvoicePosted_entries db iid) ow rm rid

@[simp] theorem stockOf_markPurchaseInvoicePosted_frame (db : DB) (iid : Nat) (pid : Nat) :
    stockOf (markPurchaseInvoicePosted db iid) pid = stockOf db pid :=
  stockOf_congr _ _ (markPurchaseInvoicePosted_products db iid) pid

@[simp] theorem hasProduct_markPurchaseInvoicePosted_frame (db : DB) (iid : Nat) (pid : Nat) :
    hasProduct (markPurchaseInvoicePosted db iid) pid ↔ hasProduct db pid :=
  hasProduct_congr _ _ (markPurchaseInvoicePosted_products db iid) pid

@[simp] theorem countPayments_markPurchaseInvoicePosted (db : DB) (iid : Nat) (ow : Nat) (rm : SourceKind) (rid : Nat) (dir : Direction) :
    countPayments (markPurchaseInvoicePosted db iid) ow rm rid dir = countPayments db ow rm rid dir :=
  countPayments_congr _ _ (markPurchaseInvoicePosted_payments db iid) ow rm rid dir

@[simp] theorem countJE_markSalesReturnPosted (db : DB) (iid : Nat) (ow : Nat) (rm : SourceKind) (rid : Nat) :
    countJE (markSalesReturnPosted db iid) ow rm rid = countJE db ow rm rid :=
  countJE_congr _ _ (markSalesReturnPosted_entries db iid) ow rm rid

@[simp] theorem stockOf_markSalesReturnPosted_frame (db : DB) (iid : Nat) (pid : Nat) :
    stockOf (markSalesReturnPosted db iid) pid = stockOf db pid :=
  stockOf_congr _ _ (markSalesReturnPosted_products db iid) pid

@[simp] theorem hasProduct_markSalesReturnPosted_frame (db : DB) (iid : Nat) (pid : Nat) :
    hasProduct (markSalesReturnPosted db iid) pid ↔ hasProduct db pid :=
  hasProduct_congr _ _ (markSalesReturnPosted_products db iid) pid

@[simp] theorem countPayments_markSalesReturnPosted (db : DB) (iid : Nat) (ow : Nat) (rm : SourceKind) (rid : Nat) (dir : Direction) :
    countPayments (markSalesReturnPosted db iid) ow rm rid dir = countPayments db ow rm rid dir :=
  countPayments_congr _ _ (markSalesReturnPosted_payments db iid) ow rm rid dir

@[simp] theorem countJE_markPurchaseReturnPosted (db : DB) (iid : Nat) (ow : Nat) (rm : SourceKind) (rid : Nat) :
    countJE (markPurchaseReturnPosted db iid) ow rm rid = countJE db ow rm rid :=
  countJE_congr _ _ (markPurchaseReturnPosted_entries db iid) ow rm rid

@[simp] theorem stockOf_markPurchaseReturnPosted_frame (db : DB) (iid : Nat) (pid : Nat) :
    stockOf (markPurchaseReturnPosted db iid) pid = stockOf db pid :=
  stockOf_congr _ _ (markPurchaseReturnPosted_products db iid) pid

@[simp] theorem hasProduct_markPurchaseReturnPosted_frame (db : DB) (iid : Nat) (pid : Nat) :
    hasProduct (markPurchaseReturnPosted db iid) pid ↔ hasProduct db pid :=
  hasProduct_congr _ _ (markPurchaseReturnPosted_products db iid) pid

@[simp] theorem countPayments_markPurchaseReturnPosted (db : DB) (iid : Nat) (ow : Nat) (rm : SourceKind) (rid : Nat) (dir : Direction) :
    countPayments (markPurchaseReturnPosted db iid) ow rm rid dir = countPayments db ow rm rid dir :=
  countPayments_congr _ _ (markPurchaseReturnPosted_payments db iid) ow rm rid dir

@[simp] theorem countJE_markDailyExpensePosted (db : DB) (iid : Nat) (ow : Nat) (rm : SourceKind) (rid : Nat) :
    countJE (markDailyExpensePosted db iid) ow rm rid = countJE db ow rm rid :=
  countJE_congr _ _ (markDailyExpensePosted_entries db iid) ow rm rid

@[simp] theorem stockOf_markDailyExpensePosted_frame (db : DB) (iid : Nat) (pid : Nat) :
    stockOf (markDailyExpensePosted db iid) pid = stockOf db pid :=
  stockOf_congr _ _ (markDailyExpensePosted_products db iid) pid

@[simp] theorem hasProduct_markDailyExpensePosted_frame (db : DB) (iid : Nat) (pid : Nat) :
    hasProduct (markDailyExpensePosted db iid) pid ↔ hasProduct db pid :=
  hasProduct_congr _ _ (markDailyExpensePosted_products db iid) pid

@[simp] theorem countPayments_markDailyExpensePosted (db : DB) (iid : Nat) (ow : Nat) (rm : SourceKind) (rid : Nat) (dir : Direction) :
    countPayments (markDailyExpensePosted db iid) ow rm rid dir = countPayments db ow rm rid dir :=
  countPayments_congr _ _ (markDailyExpensePosted_payments db iid) ow rm rid dir

@[simp] theorem countJE_markCashBankTransferPosted (db : DB) (iid : Nat) (ow : Nat) (rm : SourceKind) (rid : Nat) :
    countJE (markCashBankTransferPosted db iid) ow rm rid = countJE db ow rm rid :=
  countJE_congr _ _ (markCashBankTransferPosted_entries db iid) ow rm rid

@[simp] theorem stockOf_markCashBankTransferPosted_frame (db : DB) (iid : Nat) (pid : Nat) :
    stockOf (markCashBankTransferPosted db iid) pid = stockOf db pid :=
  stockOf_congr _ _ (markCashBankTransferPosted_products db iid) pid

@[simp] theorem hasProduct_markCashBankTransferPosted_frame (db : DB) (iid : Nat) (pid : Nat) :
    hasProduct (markCashBankTransferPosted db iid) pid ↔ hasProduct db pid :=
  hasProduct_congr _ _ (markCashBankTransferPosted_products db iid) pid

@[simp] theorem countPayments_markCashBankTransferPosted (db : DB) (iid : Nat) (ow : Nat) (rm : SourceKind) (rid : Nat) (dir : Direction) :
    countPayments (markCashBankTransferPosted db iid) ow rm rid dir = countPayments db ow rm rid dir :=
  countPayments_congr _ _ (markCashBankTransferPosted_payments db iid) ow rm rid dir

@[simp] theorem countJE_markStockAdjustmentPosted (db : DB) (iid : Nat) (ow : Nat) (rm : SourceKind) (rid : Nat) :
    countJE (markStockAdjustmentPosted db iid) ow rm rid = countJE db ow rm rid :=
  countJE_congr _ _ (markStockAdjustmentPosted_entries db iid) ow rm rid

@[simp] theorem stockOf_markStockAdjustmentPosted_frame (db : DB) (iid : Nat) (pid : Nat) :
    stockOf (markStockAdjustmentPosted db iid) pid = stockOf db pid :=
  stockOf_congr _ _ (markStockAdjustmentPosted_products db iid) pid

@[simp] theorem hasProduct_markStockAdjustmentPosted_frame (db : DB) (iid : Nat) (pid : Nat) :
    hasProduct (markStockAdjustmentPosted db iid) pid ↔ hasProduct db pid :=
  hasProduct_congr _ _ (markStockAdjustmentPosted_products db iid) pid

@[simp] theorem countPayments_markStockAdjustmentPosted (db : DB) (iid : Nat) (ow : Nat) (rm : SourceKind) (rid : Nat) (dir : Direction) :
    countPayments (markStockAdjustmentPosted db iid) ow rm rid dir = countPayments db ow rm rid dir :=
  countPayments_congr _ _ (markStockAdjustmentPosted_payments db iid) ow rm rid dir

@[simp] theorem countJE_salesStockLoop (items : List LineItem) (db : DB) (ow : Nat) (rm : SourceKind) (rid : Nat) :
    countJE (salesStockLoop items db) ow rm rid = countJE db ow rm rid :=
  countJE_congr _ _ (salesStockLoop_entries items db) ow rm rid

@[simp] theorem countPayments_salesStockLoop (items : List LineItem) (db : DB) (ow : Nat) (rm : SourceKind) (rid : Nat) (dir : Direction) :
    countPayments (salesStockLoop items db) ow rm rid dir = countPayments db ow rm rid dir :=
  countPayments_congr _ _ (salesStockLoop_payments items db) ow rm rid dir

theorem countJE_paymentRunDB_other (p : Payment) (db : DB) (ow : Nat)
    (party : Party) (acct : Account) (ow' : Nat) (rm : SourceKind) (rid : Nat)
    (hne : rm ≠ .payment) :
    countJE (paymentRunDB p db ow party acct) ow' rm rid = countJE db ow' rm rid := by
  unfold paymentRunDB
  simp [countJE_createJE_otherModel _ _ _ _ _ _ _ _ _ _ _ hne]

theorem countJE_paymentRunDB_self (p : Payment) (db : DB) (ow : Nat)
    (party : Party) (acct : Account) (h : countJE db ow .payment p.id = 0) :
    countJE (paymentRunDB p db ow party acct) ow .payment p.id = 1 := by
  unfold paymentRunDB
  simp only [countJE_markPaymentPosted]
  apply countJE_createJE_self
  simp [h]

theorem countPayments_paymentRunDB (p : Payment) (db : DB) (ow : Nat)
    (party : Party) (acct : Account) (k1 : Nat) (k2 : SourceKind) (k3 : Nat)
    (k4 : Direction) :
    countPayments (paymentRunDB p db ow party acct) k1 k2 k3 k4 =
      countPayments db k1 k2 k3 k4 := by
  unfold paymentRunDB
  rw [countPayments_markPaymentPosted]
  simp

theorem stockOf_salesDB5 (inv : SalesInvoice) (db : DB) (ow : Nat) (pid : Nat)
    (hq : hasProduct db pid) :
    stockOf (salesDB5 inv db ow) pid = stockOf db pid + salesStockDelta inv pid := by
  unfold salesDB5
  simp only [stockOf_markSalesInvoicePosted_frame]
  rw [stockOf_salesStockLoop _ _ _ (by simp [salesDB2]; exact hq)]
  simp only [stockOf_createJE_frame]
  unfold salesDB2
  simp only [stockOf_companyAcctDB_frame]
  unfold salesStockDelta
  ring

theorem countJE_salesDB5_self (inv : SalesInvoice) (db : DB) (ow : Nat)
    (h : countJE db ow .salesInvoice inv.id = 0) :
    countJE (salesDB5 inv db ow) ow .salesInvoice inv.id = 1 := by
  unfold salesDB5
  simp only [countJE_markSalesInvoicePosted, countJE_salesStockLoop]
  apply countJE_createJE_self
  simp [salesDB2, h]

theorem countJE_salesDB5_payment (inv : SalesInvoice) (db : DB) (ow ow' : Nat)
    (k : Nat) :
    countJE (salesDB5 inv db ow) ow' .payment k = countJE db ow' .payment k := by
  unfold salesDB5
  simp only [countJE_markSalesInvoicePosted, countJE_salesStockLoop]
  rw [countJE_createJE_otherModel _ _ _ _ _ _ _ _ _ _ _ (by decide)]
  simp [salesDB2]

theorem salesInvoice_post_spec (inv : SalesInvoice) (db : DB) (ow : Nat)
    (h1 : inv.owner = some ow) (h2 : inv.customer.owner = some ow)
    (h3 : acctCross inv.paymentAccount ow = false)
    (h4 : inv.posted = false) (h5 : 0 < inv.calculateTotal)
    (h6 : countJE db ow .salesInvoice inv.id = 0) :
    ∃ db₁, inv.post db = .ok ({ inv with posted := true }, db₁) ∧
      ({ inv with posted := true } : SalesInvoice).post db₁ =
        .ok ({ inv with posted := true }, db₁) ∧
      countJE db₁ ow .salesInvoice inv.id = 1 ∧
      (∀ it ∈ inv.items, hasProduct db it.productId →
        stockOf db₁ it.productId
          = stockOf db it.productId + salesStockDelta inv it.productId) ∧
      ((inv.paymentType = .FULL ∨ inv.paymentType = .PARTIAL) →
        0 < inv.paymentAmount → inv.paymentAccount ≠ none →
        countPayments db ow .salesInvoice inv.id .IN = 0 →
        countJE db ow .payment db.nextPaymentId = 0 →
        countPayments db₁ ow .salesInvoice inv.id .IN = 1 ∧
        countJE db₁ ow .payment db.nextPaymentId = 1) := by
  have hrun := salesInvoice_post_run inv db ow h1 h2 h3 h4 h5
  have hsecond : ∀ dbx, ({ inv with posted := true } : SalesInvoice).post dbx =
      .ok ({ inv with posted := true }, dbx) := by
    intro dbx
    unfold SalesInvoice.post
    rw [if_pos rfl]
  by_cases hcond : (inv.paymentType = .FULL ∨ inv.paymentType = .PARTIAL)
      ∧ 0 < inv.paymentAmount ∧ inv.paymentAccount ≠ none
  · obtain ⟨hpt, hpamt, hpane⟩ := hcond
    obtain ⟨pa, hpa⟩ : ∃ pa, inv.paymentAccount = some pa := by
      cases hh : inv.paymentAccount with
      | none => exact absurd hh hpane
      | some a => exact ⟨a, rfl⟩
    have hpaow : pa.owner = ow := by
      unfold acctCross at h3
      rw [hpa] at h3
      simpa using h3
    rw [if_pos ⟨hpt, hpamt, hpane⟩] at hrun
    by_cases hkey : paymentKeyExists (salesDB5 inv db ow) ow .salesInvoice inv.id .IN = true
    · rw [if_pos hkey] at hrun
      refine ⟨salesDB5 inv db ow, hrun, hsecond _,
        countJE_salesDB5_self inv db ow h6, ?_, ?_⟩
      · intro it hit hq
        exact stockOf_salesDB5 inv db ow it.productId hq
      · intro _ _ _ hzero _
        have hz : countPayments (salesDB5 inv db ow) ow .salesInvoice inv.id .IN = 0 := by
          rw [countPayments_congr _ _ (salesDB5_payments inv db ow)]
          exact hzero
        rw [countPayments_eq_zero_iff] at hz
        rw [hz] at hkey
        exact absurd hkey (by simp)
    · rw [if_neg hkey] at hrun
      have hpayrun := payment_post_normal_run (salesAutoPay inv db ow)
        (addPayment (salesDB5 inv db ow) (salesAutoPay inv db ow)) ow inv.customer pa
        rfl hpamt rfl rfl h2 rfl hpa hpaow
      rw [hpayrun] at hrun
      refine ⟨paymentRunDB (salesAutoPay inv db ow)
        (addPayment (salesDB5 inv db ow) (salesAutoPay inv db ow)) ow inv.customer pa,
        hrun, hsecond _, ?_, ?_, ?_⟩
      · rw [countJE_paymentRunDB_other _ _ _ _ _ _ _ _ (by decide)]
        simp only [countJE_addPayment]
        exact countJE_salesDB5_self inv db ow h6
      · intro it hit hq
        rw [stockOf_congr _ _ (paymentRunDB_products _ _ _ _ _) it.productId]
        simp only [stockOf_addPayment_frame]
        exact stockOf_salesDB5 inv db ow it.productId hq
      · intro _ _ _ hzero hjzero
        constructor
        · rw [countPayments_paymentRunDB]
          rw [countPayments_addPayment_match _ _ _ _ _ _ (by simp [salesAutoPay])]
          rw [countPayments_congr _ _ (salesDB5_payments inv db ow)]
          rw [hzero]
        · have hid : (salesAutoPay inv db ow).id = db.nextPaymentId := by
            simp [salesAutoPay]
          rw [← hid]
          apply countJE_paymentRunDB_self
          simp only [countJE_addPayment]
          rw [countJE_salesDB5_payment]
          rw [hid]
          exact hjzero
  · rw [if_neg hcond] at hrun
    refine ⟨salesDB5 inv db ow, hrun, hsecond _,
      countJE_salesDB5_self inv db ow h6, ?_, ?_⟩
    · intro it hit hq
      exact stockOf_salesDB5 inv db ow it.productId hq
    · intro hpt hpamt hpane _ _
      exact absurd ⟨hpt, hpamt, hpane⟩ hcond

/-- C1: posting is idempotent.  For every unposted sales invoice of a
resolved tenant with owned references, positive total and no existing
journal row under its key, the first post succeeds; the second post (on
the now-posted document) returns the same state unchanged; exactly one
journal entry with the (tenant, "SalesInvoice", id) key exists afterwards;
and each referenced product's current_stock has received exactly one net
mutation of the invoice's stock delta. -/
theorem salesInvoice_post_idempotent (inv : SalesInvoice) (db : DB) (ow : Nat)
    (h1 : inv.owner = some ow) (h2 : inv.customer.owner = some ow)
    (h3 : acctCross inv.paymentAccount ow = false)
    (h4 : inv.posted = false) (h5 : 0 < inv.calculateTotal)
    (h6 : countJE db ow .salesInvoice inv.id = 0)
    (h8 : ∀ it ∈ inv.items, hasProduct db it.productId) :
    ∃ inv₁ db₁, inv.post db = .ok (inv₁, db₁) ∧
      inv₁.post db₁ = .ok (inv₁, db₁) ∧
      countJE db₁ ow .salesInvoice inv.id = 1 ∧
      ∀ it ∈ inv.items, stockOf db₁ it.productId
        = stockOf db it.productId + salesStockDelta inv it.productId := by
  obtain ⟨db₁, ha, hb, hc, hd, -⟩ :=
    salesInvoice_post_spec inv db ow h1 h2 h3 h4 h5 h6
  exact ⟨_, db₁, ha, hb, hc, fun it hit => hd it hit (h8 it hit)⟩

/-- C1 witness: the concrete FULL-payment invoice posts once; the second
post is a no-op, the journal key is unique and stock moved once. -/
theorem salesInvoice_post_idempotent_witness :
    0 < invC1.calculateTotal ∧
    (∃ inv₁ db₁, invC1.post dbC1 = .ok (inv₁, db₁) ∧
      inv₁.post db₁ = .ok (inv₁, db₁) ∧
      countJE db₁ 1 .salesInvoice 11 = 1 ∧
      ∀ it ∈ invC1.items, stockOf db₁ it.productId
        = stockOf dbC1 it.productId + salesStockDelta invC1 it.productId) :=
  ⟨by with_unfolding_all decide,
    salesInvoice_post_idempotent invC1 dbC1 1 (by decide) (by decide) (by decide)
      (by decide) (by with_unfolding_all decide) (by decide) (by decide)⟩

/-- C5: no double payment.  For every unposted FULL-payment sales invoice
with a positive payment amount and a payment account, in a state with no
payment document and no payment journal row under the generated keys,
posting once (and then again on the posted invoice) leaves exactly one
auxiliary Payment document keyed (tenant, "SalesInvoice", id, IN) and
exactly one Payment-sourced JournalEntry for it. -/
theorem salesInvoice_no_double_payment (inv : SalesInvoice) (db : DB) (ow : Nat)
    (h1 : inv.owner = some ow) (h2 : inv.customer.owner = some ow)
    (h3 : acctCross inv.paymentAccount ow = false)
    (h4 : inv.posted = false) (h5 : 0 < inv.calculateTotal)
    (h6 : countJE db ow .salesInvoice inv.id = 0)
    (hpt : inv.paymentType = .FULL) (hpamt : 0 < inv.paymentAmount)
    (hpane : inv.paymentAccount ≠ none)
    (hp0 : countPayments db ow .salesInvoice inv.id .IN = 0)
    (hj0 : countJE db ow .payment db.nextPaymentId = 0) :
    ∃ inv₁ db₁, inv.post db = .ok (inv₁, db₁) ∧
      inv₁.post db₁ = .ok (inv₁, db₁) ∧
      countPayments db₁ ow .salesInvoice inv.id .IN = 1 ∧
      countJE db₁ ow .payment db.nextPaymentId = 1 := by
  obtain ⟨db₁, ha, hb, -, -, hpay⟩ :=
    salesInvoice_post_spec inv db ow h1 h2 h3 h4 h5 h6
  obtain ⟨hc, hd⟩ := hpay (Or.inl hpt) hpamt hpane hp0 hj0
  exact ⟨_, db₁, ha, hb, hc, hd⟩

/-- C5 witness: the concrete FULL-payment invoice yields exactly one
auxiliary payment and one payment journal row, posting once or twice. -/
theorem salesInvoice_no_double_payment_witness :
    invC1.paymentType = .FULL ∧
    (∃ inv₁ db₁, invC1.post dbC1 = .ok (inv₁, db₁) ∧
      inv₁.post db₁ = .ok (inv₁, db₁) ∧
      countPayments db₁ 1 .salesInvoice 11 .IN = 1 ∧
      countJE db₁ 1 .payment 200 = 1) :=
  ⟨rfl, salesInvoice_no_double_payment invC1 dbC1 1 (by decide) (by decide)
    (by decide) (by decide) (by with_unfolding_all decide) (by decide) rfl
    (by with_unfolding_all decide) (by decide) (by decide) (by decide)⟩

theorem EngineInv_of_fields (db db' : DB) (ha : db'.accounts = db.accounts)
    (hn : db'.nextAccountId = db.nextAccountId) (he : db'.entries = db.entries)
    (h : EngineInv db) : EngineInv db' := by
  unfold EngineInv AcctOK at *
  rw [ha, hn, he]
  exact h

theorem EngineInv_companyAcctDB (db : DB) (ow : Nat) (code : String)
    (t : AccountType) (cb ap : Bool) (h : EngineInv db) :
    EngineInv (companyAcctDB db ow code t cb ap) := by
  obtain ⟨hA, hE⟩ := h
  refine ⟨companyAcctDB_acctOK db ow code t cb ap hA, ?_⟩
  rw [companyAcctDB_entries]
  intro e he
  exact GoodEntry_mono _ _ (fun a ha => companyAcctDB_mono db ow code t cb ap a ha)
    e (hE e he)

theorem EngineInv_createJE (db : DB) (ow date dA cA : Nat) (amt : ℚ)
    (rm : SourceKind) (rid : Nat) (h : EngineInv db) (hamt : 0 < amt)
    (hdA : ∃ a ∈ db.accounts, a.id = dA ∧ a.owner = ow)
    (hcA : ∃ a ∈ db.accounts, a.id = cA ∧ a.owner = ow) :
    EngineInv (createJE db ow date dA cA amt rm rid) := by
  obtain ⟨hA, hE⟩ := h
  refine ⟨?_, createJE_good db ow date dA cA amt rm rid hE hamt hdA hcA⟩
  unfold AcctOK at *
  simp only [createJE_accounts, createJE_nextAccountId]
  exact hA

theorem EngineInv_adjustStock (db : DB) (pid : Nat) (delta : ℚ)
    (h : EngineInv db) : EngineInv (adjustStock db pid delta) :=
  EngineInv_of_fields db _ (by simp) (by simp) (by simp) h

theorem EngineInv_addPayment (db : DB) (q : Payment) (h : EngineInv db) :
    EngineInv (addPayment db q) :=
  EngineInv_of_fields db _ (by simp) (by simp) (by simp) h

theorem EngineInv_markPaymentPosted (db : DB) (pid : Nat) (h : EngineInv db) :
    EngineInv (markPaymentPosted db pid) :=
  EngineInv_of_fields db _ (by simp) (by simp) (by simp) h

theorem EngineInv_markSalesInvoicePosted (db : DB) (iid : Nat) (h : EngineInv db) :
    EngineInv (markSalesInvoicePosted db iid) :=
  EngineInv_of_fields db _ (by simp) (by simp) (by simp) h

theorem EngineInv_markPurchaseInvoicePosted (db : DB) (iid : Nat) (h : EngineInv db) :
    EngineInv (markPurchaseInvoicePosted db iid) :=
  EngineInv_of_fields db _ (by simp) (by simp) (by simp) h

theorem EngineInv_markSalesReturnPosted (db : DB) (iid : Nat) (h : EngineInv db) :
    EngineInv (markSalesReturnPosted db iid) :=
  EngineInv_of_fields db _ (by simp) (by simp) (by simp) h

theorem EngineInv_markPurchaseReturnPosted (db : DB) (iid : Nat) (h : EngineInv db) :
    EngineInv (markPurchaseReturnPosted db iid) :=
  EngineInv_of_fields db _ (by simp) (by simp) (by simp) h

theorem EngineInv_markDailyExpensePosted (db : DB) (iid : Nat) (h : EngineInv db) :
    EngineInv (markDailyExpensePosted db iid) :=
  EngineInv_of_fields db _ (by simp) (by simp) (by simp) h

theorem EngineInv_markCashBankTransferPosted (db : DB) (iid : Nat) (h : EngineInv db) :
    EngineInv (markCashBankTransferPosted db iid) :=
  EngineInv_of_fields db _ (by simp) (by simp) (by simp) h

theorem EngineInv_markStockAdjustmentPosted (db : DB) (iid : Nat) (h : EngineInv db) :
    EngineInv (markStockAdjustmentPosted db iid) :=
  EngineInv_of_fields db _ (by simp) (by simp) (by simp) h

theorem EngineInv_salesStockLoop (items : List LineItem) (db : DB)
    (h : EngineInv db) : EngineInv (salesStockLoop items db) :=
  EngineInv_of_fields db _ (by simp) (by simp) (by simp) h

theorem companyAcct_mem2 (db : DB) (ow : Nat) (c1 c2 : String)
    (t1 t2 : AccountType) (cb1 ap1 cb2 ap2 : Bool) :
    companyAcct db ow c1 t1 cb1 ap1 ∈
      (companyAcctDB (companyAcctDB db ow c1 t1 cb1 ap1) ow c2 t2 cb2 ap2).accounts :=
  companyAcctDB_mono _ ow c2 t2 cb2 ap2 _ (companyAcct_mem db ow c1 t1 cb1 ap1)

theorem payment_post_adjustment_run_any (p : Payment) (db : DB) (ow : Nat)
    (party : Party) (hposted : p.posted = false) (hamt : 0 < p.amount)
    (howner : p.owner = some ow) (hparty : p.party = some party)
    (hpowner : party.owner = some ow) (hadj : p.isAdjustment = true) :
    p.post db = .ok ({ p with posted := true },
      markPaymentPosted
        (createJE
          (companyAcctDB (companyAcctDB db ow (controlCode party.partyType)
            (controlType party.partyType) false false) ow "3000"
            AccountType.EQUITY false false)
          ow p.date
          (if effSide p.adjustmentSide = "DR"
            then companyAcct db ow (controlCode party.partyType)
              (controlType party.partyType) false false
            else companyAcct (companyAcctDB db ow (controlCode party.partyType)
              (controlType party.partyType) false false) ow "3000"
              AccountType.EQUITY false false).id
          (if effSide p.adjustmentSide = "DR"
            then companyAcct (companyAcctDB db ow (controlCode party.partyType)
              (controlType party.partyType) false false) ow "3000"
              AccountType.EQUITY false false
            else companyAcct db ow (controlCode party.partyType)
              (controlType party.partyType) false false).id
          p.amount .payment p.id) p.id) := by
  have h1 : ¬(p.posted = true ∨ p.amount ≤ 0) := by
    rw [hposted]
    simp only [Bool.false_eq_true, false_or, not_le]
    exact hamt
  unfold Payment.post
  rw [if_neg h1, howner, hparty]
  simp [hpowner, hadj]

theorem payment_post_preserves_inv (p : Payment) (db : DB)
    (hWF : ∀ a, p.account = some a → a ∈ db.accounts) (h : EngineInv db) :
    EngineInv (observedDB db (p.post db)) := by
  by_cases hnoop : p.posted = true ∨ p.amount ≤ 0
  · rw [show p.post db = .ok (p, db) from by unfold Payment.post; rw [if_pos hnoop]]
    simpa using h
  · have hamt : 0 < p.amount := lt_of_not_le (not_or.mp hnoop).2
    have hposted : p.posted = false := by
      have := (not_or.mp hnoop).1
      simpa using this
    cases howner : p.owner with
    | none =>
      rw [show p.post db = .error .ownerNotResolved from by
        unfold Payment.post
        rw [if_neg hnoop, howner]]
      simpa using h
    | some ow =>
      cases hparty : p.party with
      | none =>
        rw [show p.post db = .error .invalidDoc from by
          unfold Payment.post
          rw [if_neg hnoop, howner, hparty]]
        simpa using h
      | some party =>
        by_cases hpo : party.owner = some ow
        · by_cases hadj : p.isAdjustment = true
          · rw [payment_post_adjustment_run_any p db ow party hposted hamt howner
              hparty hpo hadj]
            simp only [observedDB_ok]
            apply EngineInv_markPaymentPosted
            apply EngineInv_createJE _ _ _ _ _ _ _ _
              (EngineInv_companyAcctDB _ _ _ _ _ _
                (EngineInv_companyAcctDB _ _ _ _ _ _ h)) hamt
            · by_cases hside : effSide p.adjustmentSide = "DR"
              · rw [if_pos hside]
                exact ⟨_, companyAcct_mem2 db ow _ "3000" _ .EQUITY false false false false,
                  rfl, companyAcct_owner _ _ _ _ _ _⟩
              · rw [if_neg hside]
                exact ⟨_, companyAcct_mem _ ow "3000" .EQUITY false false,
                  rfl, companyAcct_owner _ _ _ _ _ _⟩
            · by_cases hside : effSide p.adjustmentSide = "DR"
              · rw [if_pos hside]
                exact ⟨_, companyAcct_mem _ ow "3000" .EQUITY false false,
                  rfl, companyAcct_owner _ _ _ _ _ _⟩
              · rw [if_neg hside]
                exact ⟨_, companyAcct_mem2 db ow _ "3000" _ .EQUITY false false false false,
                  rfl, companyAcct_owner _ _ _ _ _ _⟩
          · have hadjF : p.isAdjustment = false := by simpa using hadj
            cases hacct : p.account with
            | none =>
              rw [show p.post db = .error .invalidDoc from by
                unfold Payment.post
                rw [if_neg hnoop, howner, hparty]
                simp [hpo, hadj, hacct]]
              simpa using h
            | some acct =>
              by_cases hao : acct.owner = ow
              · rw [payment_post_normal_run p db ow party acct hposted hamt howner
                  hparty hpo hadjF hacct hao]
                simp only [observedDB_ok]
                unfold paymentRunDB
                apply EngineInv_markPaymentPosted
                apply EngineInv_createJE _ _ _ _ _ _ _ _
                  (EngineInv_companyAcctDB _ _ _ _ _ _
                    (EngineInv_companyAcctDB _ _ _ _ _ _ h)) hamt
                · by_cases hdir : p.direction = .IN
                  · rw [if_pos hdir]
                    refine ⟨acct, ?_, rfl, hao⟩
                    apply companyAcctDB_mono
                    apply companyAcctDB_mono
                    exact hWF acct hacct
                  · rw [if_neg hdir]
                    exact ⟨_, companyAcct_mem2 db ow _ "3000" _ .EQUITY false false false false,
                      rfl, companyAcct_owner _ _ _ _ _ _⟩
                · by_cases hdir : p.direction = .IN
                  · rw [if_pos hdir]
                    exact ⟨_, companyAcct_mem2 db ow _ "3000" _ .EQUITY false false false false,
                      rfl, companyAcct_owner _ _ _ _ _ _⟩
                  · rw [if_neg hdir]
                    refine ⟨acct, ?_, rfl, hao⟩
                    apply companyAcctDB_mono
                    apply companyAcctDB_mono
                    exact hWF acct hacct
              · rw [show p.post db = .error .crossOwner from by
                  unfold Payment.post
                  rw [if_neg hnoop, howner, hparty]
                  simp [hpo, hadj, hacct, hao]]
                simpa using h
        · rw [show p.post db = .error .crossOwner from by
            unfold Payment.post
            rw [if_neg hnoop, howner, hparty]
            simp [hpo]]
          simpa using h

theorem salesDB5_accounts_mono (inv : SalesInvoice) (db : DB) (ow : Nat)
    (a : Account) (ha : a ∈ db.accounts) : a ∈ (salesDB5 inv db ow).accounts := by
  unfold salesDB5 salesDB2
  simp only [markSalesInvoicePosted_accounts, salesStockLoop_accounts, createJE_accounts]
  exact companyAcctDB_mono _ _ _ _ _ _ _ (companyAcctDB_mono _ _ _ _ _ _ _ ha)

theorem EngineInv_salesDB5 (inv : SalesInvoice) (db : DB) (ow : Nat)
    (htot : 0 < inv.calculateTotal) (h : EngineInv db) :
    EngineInv (salesDB5 inv db ow) := by
  unfold salesDB5 salesDB2 salesCC salesInvAcct
  apply EngineInv_markSalesInvoicePosted
  apply EngineInv_salesStockLoop
  apply EngineInv_createJE _ _ _ _ _ _ _ _
    (EngineInv_companyAcctDB _ _ _ _ _ _
      (EngineInv_companyAcctDB _ _ _ _ _ _ h)) htot
  · exact ⟨_, companyAcct_mem2 db ow "1300" "1200" .ASSET .ASSET false false false false,
      rfl, companyAcct_owner _ _ _ _ _ _⟩
  · exact ⟨_, companyAcct_mem _ ow "1200" .ASSET false false,
      rfl, companyAcct_owner _ _ _ _ _ _⟩

theorem salesInvoice_post_preserves_inv (inv : SalesInvoice) (db : DB)
    (hWF : ∀ a, inv.paymentAccount = some a → a ∈ db.accounts) (h : EngineInv db) :
    EngineInv (observedDB db (inv.post db)) := by
  by_cases hposted : inv.posted = true
  · rw [show inv.post db = .ok (inv, db) from by
      unfold SalesInvoice.post
      rw [if_pos hposted]]
    simpa using h
  · have hposted' : inv.posted = false := by simpa using hposted
    cases howner : inv.owner with
    | none =>
      rw [show inv.post db = .error .ownerNotResolved from by
        unfold SalesInvoice.post
        rw [if_neg hposted, howner]]
      simpa using h
    | some ow =>
      by_cases hcust : inv.customer.owner = some ow
      · by_cases hacc : acctCross inv.paymentAccount ow = true
        · rw [show inv.post db = .error .crossOwner from by
            unfold SalesInvoice.post
            rw [if_neg hposted, howner]
            simp [hcust, hacc]]
          simpa using h
        · have hacc' : acctCross inv.paymentAccount ow = false := by simpa using hacc
          by_cases htot : inv.calculateTotal ≤ 0
          · rw [show inv.post db = .ok (inv, db) from by
              unfold SalesInvoice.post
              rw [if_neg hposted, howner]
              simp [hcust, hacc', htot]]
            simpa using h
          · have htot' : 0 < inv.calculateTotal := lt_of_not_le htot
            have hrun := salesInvoice_post_run inv db ow howner hcust hacc' hposted' htot'
            by_cases hcond : (inv.paymentType = .FULL ∨ inv.paymentType = .PARTIAL)
                ∧ 0 < inv.paymentAmount ∧ inv.paymentAccount ≠ none
            · obtain ⟨hpt, hpamt, hpane⟩ := hcond
              obtain ⟨pa, hpa⟩ : ∃ pa, inv.paymentAccount = some pa := by
                cases hh : inv.paymentAccount with
                | none => exact absurd hh hpane
                | some a => exact ⟨a, rfl⟩
              have hpaow : pa.owner = ow := by
                unfold acctCross at hacc'
                rw [hpa] at hacc'
                simpa using hacc'
              rw [if_pos ⟨hpt, hpamt, hpane⟩] at hrun
              by_cases hkey : paymentKeyExists (salesDB5 inv db ow) ow
                  .salesInvoice inv.id .IN = true
              · rw [if_pos hkey] at hrun
                rw [hrun]
                simp only [observedDB_ok]
                exact EngineInv_salesDB5 inv db ow htot' h
              · rw [if_neg hkey] at hrun
                rw [payment_post_normal_run (salesAutoPay inv db ow)
                  (addPayment (salesDB5 inv db ow) (salesAutoPay inv db ow)) ow
                  inv.customer pa rfl hpamt rfl rfl hcust rfl hpa hpaow] at hrun
                have hobs : observedDB db (inv.post db) =
                    paymentRunDB (salesAutoPay inv db ow)
                      (addPayment (salesDB5 inv db ow) (salesAutoPay inv db ow)) ow
                      inv.customer pa := by
                  rw [hrun]
                  rfl
                rw [hobs]
                unfold paymentRunDB
                apply EngineInv_markPaymentPosted
                apply EngineInv_createJE _ _ _ _ _ _ _ _
                  (EngineInv_companyAcctDB _ _ _ _ _ _
                    (EngineInv_companyAcctDB _ _ _ _ _ _
                      (EngineInv_addPayment _ _
                        (EngineInv_salesDB5 inv db ow htot' h)))) hpamt
                · rw [if_pos (show (salesAutoPay inv db ow).direction = .IN from rfl)]
                  refine ⟨pa, ?_, rfl, hpaow⟩
                  apply companyAcctDB_mono
                  apply companyAcctDB_mono
                  rw [addPayment_accounts]
                  exact salesDB5_accounts_mono inv db ow pa (hWF pa hpa)
                · rw [if_pos (show (salesAutoPay inv db ow).direction = .IN from rfl)]
                  exact ⟨_, companyAcct_mem2 _ ow _ "3000" _ .EQUITY false false false false,
                    rfl, companyAcct_owner _ _ _ _ _ _⟩
            · rw [if_neg hcond] at hrun
              rw [hrun]
              simp only [observedDB_ok]
              exact EngineInv_salesDB5 inv db ow htot' h
      · rw [show inv.post db = .error .crossOwner from by
          unfold SalesInvoice.post
          rw [if_neg hposted, howner]
          simp [hcust]]
        simpa using h

theorem purchaseInvoice_post_run (inv : PurchaseInvoice) (db : DB) (ow : Nat)
    (h1 : inv.owner = some ow) (h2 : inv.supplier.owner = some ow)
    (h3 : acctCross inv.paymentAccount ow = false)
    (h4 : inv.posted = false) (h5 : 0 < inv.calculateTotal) :
    inv.post db =
      (match purchaseStockLoop ow inv.items (purchaseDB3 inv db ow) with
       | .error e => .error e
       | .ok db4 =>
         if (inv.paymentType = .FULL ∨ inv.paymentType = .PARTIAL)
             ∧ 0 < inv.paymentAmount ∧ inv.paymentAccount ≠ none then
           if paymentKeyExists db4 ow .purchaseInvoice inv.id .OUT then
             .ok ({ inv with posted := true }, markPurchaseInvoicePosted db4 inv.id)
           else
             match (purchaseAutoPay inv db4 ow).post
                 (addPayment db4 (purchaseAutoPay inv db4 ow)) with
             | .error e => .error e
             | .ok (_, db6) =>
               .ok ({ inv with posted := true }, markPurchaseInvoicePosted db6 inv.id)
         else .ok ({ inv with posted := true }, markPurchaseInvoicePosted db4 inv.id)) := by
  unfold PurchaseInvoice.post purchaseDB3 purchaseAutoPay
  rw [if_neg (by simp [h4]), h1]
  simp [h2, h3, not_le.mpr h5]

theorem salesReturn_post_run (r : SalesReturn) (db : DB) (ow : Nat)
    (h1 : r.owner = some ow) (h2 : r.customer.owner = some ow)
    (h3 : salesRefCross r.referenceInvoice ow = false)
    (h4 : r.posted = false) (h5 : 0 < r.calculateTotal) :
    r.post db =
      (match salesReturnStockLoop ow r.items (sretDB3 r db ow) with
       | .error e => .error e
       | .ok db4 => .ok ({ r with posted := true }, markSalesReturnPosted db4 r.id)) := by
  unfold SalesReturn.post sretDB3
  rw [if_neg (by simp [h4]), h1]
  simp [h2, h3, not_le.mpr h5]

theorem purchaseReturn_post_run (r : PurchaseReturn) (db : DB) (ow : Nat)
    (h1 : r.owner = some ow) (h2 : r.supplier.owner = some ow)
    (h3 : purchaseRefCross r.referenceInvoice ow = false)
    (h4 : r.posted = false) (h5 : 0 < r.calculateTotal) :
    r.post db =
      (match purchaseReturnStockLoop ow r.items (pretDB3 r db ow) with
       | .error e => .error e
       | .ok db4 => .ok ({ r with posted := true }, markPurchaseReturnPosted db4 r.id)) := by
  unfold PurchaseReturn.post pretDB3
  rw [if_neg (by simp [h4]), h1]
  simp [h2, h3, not_le.mpr h5]

theorem EngineInv_of_loop_ok (db db4 : DB)
    (heq : db4 = { db with products := db4.products }) (h : EngineInv db) :
    EngineInv db4 :=
  EngineInv_of_fields db db4 (by rw [heq]) (by rw [heq]) (by rw [heq]) h

theorem EngineInv_purchaseDB3 (inv : PurchaseInvoice) (db : DB) (ow : Nat)
    (htot : 0 < inv.calculateTotal) (h : EngineInv db) :
    EngineInv (purchaseDB3 inv db ow) := by
  unfold purchaseDB3
  apply EngineInv_createJE _ _ _ _ _ _ _ _
    (EngineInv_companyAcctDB _ _ _ _ _ _
      (EngineInv_companyAcctDB _ _ _ _ _ _ h)) htot
  · exact ⟨_, companyAcct_mem2 db ow "1200" "2100" .ASSET .LIABILITY false false false false,
      rfl, companyAcct_owner _ _ _ _ _ _⟩
  · exact ⟨_, companyAcct_mem _ ow "2100" .LIABILITY false false,
      rfl, companyAcct_owner _ _ _ _ _ _⟩

theorem EngineInv_sretDB3 (r : SalesReturn) (db : DB) (ow : Nat)
    (htot : 0 < r.calculateTotal) (h : EngineInv db) :
    EngineInv (sretDB3 r db ow) := by
  unfold sretDB3
  apply EngineInv_createJE _ _ _ _ _ _ _ _
    (EngineInv_companyAcctDB _ _ _ _ _ _
      (EngineInv_companyAcctDB _ _ _ _ _ _ h)) htot
  · exact ⟨_, companyAcct_mem2 db ow "1200" "1300" .ASSET .ASSET false false false false,
      rfl, companyAcct_owner _ _ _ _ _ _⟩
  · exact ⟨_, companyAcct_mem _ ow "1300" .ASSET false false,
      rfl, companyAcct_owner _ _ _ _ _ _⟩

theorem EngineInv_pretDB3 (r : PurchaseReturn) (db : DB) (ow : Nat)
    (htot : 0 < r.calculateTotal) (h : EngineInv db) :
    EngineInv (pretDB3 r db ow) := by
  unfold pretDB3
  apply EngineInv_createJE _ _ _ _ _ _ _ _
    (EngineInv_companyAcctDB _ _ _ _ _ _
      (EngineInv_companyAcctDB _ _ _ _ _ _ h)) htot
  · exact ⟨_, companyAcct_mem _ ow "2100" .LIABILITY false false,
      rfl, companyAcct_owner _ _ _ _ _ _⟩
  · exact ⟨_, companyAcct_mem2 db ow "1200" "2100" .ASSET .LIABILITY false false false false,
      rfl, companyAcct_owner _ _ _ _ _ _⟩

theorem purchaseInvoice_post_preserves_inv (inv : PurchaseInvoice) (db : DB)
    (hWF : ∀ a, inv.paymentAccount = some a → a ∈ db.accounts) (h : EngineInv db) :
    EngineInv (observedDB db (inv.post db)) := by
  by_cases hposted : inv.posted = true
  · rw [show inv.post db = .ok (inv, db) from by
      unfold PurchaseInvoice.post
      rw [if_pos hposted]]
    simpa using h
  · have hposted' : inv.posted = false := by simpa using hposted
    cases howner : inv.owner with
    | none =>
      rw [show inv.post db = .error .ownerNotResolved from by
        unfold PurchaseInvoice.post
        rw [if_neg hposted, howner]]
      simpa using h
    | some ow =>
      by_cases hsupp : inv.supplier.owner = some ow
      · by_cases hacc : acctCross inv.paymentAccount ow = true
        · rw [show inv.post db = .error .crossOwner from by
            unfold PurchaseInvoice.post
            rw [if_neg hposted, howner]
            simp [hsupp, hacc]]
          simpa using h
        · have hacc' : acctCross inv.paymentAccount ow = false := by simpa using hacc
          by_cases htot : inv.calculateTotal ≤ 0
          · rw [show inv.post db = .ok (inv, db) from by
              unfold PurchaseInvoice.post
              rw [if_neg hposted, howner]
              simp [hsupp, hacc', htot]]
            simpa using h
          · have htot' : 0 < inv.calculateTotal := lt_of_not_le htot
            have hrun := purchaseInvoice_post_run inv db ow howner hsupp hacc' hposted' htot'
            cases hloop : purchaseStockLoop ow inv.items (purchaseDB3 inv db ow) with
            | error e =>
              rw [hloop] at hrun
              have hobs : observedDB db (inv.post db) = db := by
                rw [hrun]
                rfl
              rw [hobs]
              exact h
            | ok db4 =>
              rw [hloop] at hrun
              have hInv4 : EngineInv db4 :=
                EngineInv_of_loop_ok _ _ (purchaseStockLoop_ok_eq ow inv.items _ db4 hloop)
                  (EngineInv_purchaseDB3 inv db ow htot' h)
              have hacc4 : db4.accounts = (purchaseDB3 inv db ow).accounts := by
                rw [purchaseStockLoop_ok_eq ow inv.items _ db4 hloop]
              by_cases hcond : (inv.paymentType = .FULL ∨ inv.paymentType = .PARTIAL)
                  ∧ 0 < inv.paymentAmount ∧ inv.paymentAccount ≠ none
              · obtain ⟨hpt, hpamt, hpane⟩ := hcond
                obtain ⟨pa, hpa⟩ : ∃ pa, inv.paymentAccount = some pa := by
                  cases hh : inv.paymentAccount with
                  | none => exact absurd hh hpane
                  | some a => exact ⟨a, rfl⟩
                have hpaow : pa.owner = ow := by
                  unfold acctCross at hacc'
                  rw [hpa] at hacc'
                  simpa using hacc'
                have hrun2 : inv.post db =
                    (if (inv.paymentType = .FULL ∨ inv.paymentType = .PARTIAL)
                        ∧ 0 < inv.paymentAmount ∧ inv.paymentAccount ≠ none then
                      if paymentKeyExists db4 ow .purchaseInvoice inv.id .OUT then
                        .ok ({ inv with posted := true }, markPurchaseInvoicePosted db4 inv.id)
                      else
                        match (purchaseAutoPay inv db4 ow).post
                            (addPayment db4 (purchaseAutoPay inv db4 ow)) with
                        | .error e => .error e
                        | .ok (_, db6) =>
                          .ok ({ inv with posted := true }, markPurchaseInvoicePosted db6 inv.id)
                    else .ok ({ inv with posted := true },
                      markPurchaseInvoicePosted db4 inv.id)) := hrun
                rw [if_pos ⟨hpt, hpamt, hpane⟩] at hrun2
                by_cases hkey : paymentKeyExists db4 ow .purchaseInvoice inv.id .OUT = true
                · rw [if_pos hkey] at hrun2
                  rw [hrun2]
                  simp only [observedDB_ok]
                  exact EngineInv_markPurchaseInvoicePosted _ _ hInv4
                · rw [if_neg hkey] at hrun2
                  rw [payment_post_normal_run (purchaseAutoPay inv db4 ow)
                    (addPayment db4 (purchaseAutoPay inv db4 ow)) ow inv.supplier pa
                    rfl hpamt rfl rfl hsupp rfl hpa hpaow] at hrun2
                  have hobs : observedDB db (inv.post db) =
                      markPurchaseInvoicePosted
                        (paymentRunDB (purchaseAutoPay inv db4 ow)
                          (addPayment db4 (purchaseAutoPay inv db4 ow)) ow
                          inv.supplier pa) inv.id := by
                    rw [hrun2]
                    rfl
                  rw [hobs]
                  apply EngineInv_markPurchaseInvoicePosted
                  unfold paymentRunDB
                  apply EngineInv_markPaymentPosted
                  apply EngineInv_createJE _ _ _ _ _ _ _ _
                    (EngineInv_companyAcctDB _ _ _ _ _ _
                      (EngineInv_companyAcctDB _ _ _ _ _ _
                        (EngineInv_addPayment _ _ hInv4))) hpamt
                  · rw [if_neg (show ¬(purchaseAutoPay inv db4 ow).direction = .IN from
                      by simp [purchaseAutoPay])]
                    exact ⟨_, companyAcct_mem2 _ ow _ "3000" _ .EQUITY false false false false,
                      rfl, companyAcct_owner _ _ _ _ _ _⟩
                  · rw [if_neg (show ¬(purchaseAutoPay inv db4 ow).direction = .IN from
                      by simp [purchaseAutoPay])]
                    refine ⟨pa, ?_, rfl, hpaow⟩
                    apply companyAcctDB_mono
                    apply companyAcctDB_mono
                    rw [addPayment_accounts, hacc4]
                    unfold purchaseDB3
                    rw [createJE_accounts]
                    exact companyAcctDB_mono _ _ _ _ _ _ _
                      (companyAcctDB_mono _ _ _ _ _ _ _ (hWF pa hpa))
              · have hrun2 : inv.post db =
                    (if (inv.paymentType = .FULL ∨ inv.paymentType = .PARTIAL)
                        ∧ 0 < inv.paymentAmount ∧ inv.paymentAccount ≠ none then
                      if paymentKeyExists db4 ow .purchaseInvoice inv.id .OUT then
                        .ok ({ inv with posted := true }, markPurchaseInvoicePosted db4 inv.id)
                      else
                        match (purchaseAutoPay inv db4 ow).post
                            (addPayment db4 (purchaseAutoPay inv db4 ow)) with
                        | .error e => .error e
                        | .ok (_, db6) =>
                          .ok ({ inv with posted := true }, markPurchaseInvoicePosted db6 inv.id)
                    else .ok ({ inv with posted := true },
                      markPurchaseInvoicePosted db4 inv.id)) := hrun
                rw [if_neg hcond] at hrun2
                rw [hrun2]
                simp only [observedDB_ok]
                exact EngineInv_markPurchaseInvoicePosted _ _ hInv4
      · rw [show inv.post db = .error .crossOwner from by
          unfold PurchaseInvoice.post
          rw [if_neg hposted, howner]
          simp [hsupp]]
        simpa using h

theorem salesReturn_post_preserves_inv (r : SalesReturn) (db : DB)
    (h : EngineInv db) : EngineInv (observedDB db (r.post db)) := by
  by_cases hposted : r.posted = true
  · rw [show r.post db = .ok (r, db) from by
      unfold SalesReturn.post
      rw [if_pos hposted]]
    simpa using h
  · have hposted' : r.posted = false := by simpa using hposted
    cases howner : r.owner with
    | none =>
      rw [show r.post db = .error .ownerNotResolved from by
        unfold SalesReturn.post
        rw [if_neg hposted, howner]]
      simpa using h
    | some ow =>
      by_cases hcust : r.customer.owner = some ow
      · by_cases href : salesRefCross r.referenceInvoice ow = true
        · rw [show r.post db = .error .crossOwner from by
            unfold SalesReturn.post
            rw [if_neg hposted, howner]
            simp [hcust, href]]
          simpa using h
        · have href' : salesRefCross r.referenceInvoice ow = false := by simpa using href
          by_cases htot : r.calculateTotal ≤ 0
          · rw [show r.post db = .ok (r, db) from by
              unfold SalesReturn.post
              rw [if_neg hposted, howner]
              simp [hcust, href', htot]]
            simpa using h
          · have htot' : 0 < r.calculateTotal := lt_of_not_le htot
            have hrun := salesReturn_post_run r db ow howner hcust href' hposted' htot'
            cases hloop : salesReturnStockLoop ow r.items (sretDB3 r db ow) with
            | error e =>
              rw [hloop] at hrun
              have hobs : observedDB db (r.post db) = db := by
                rw [hrun]
                rfl
              rw [hobs]
              exact h
            | ok db4 =>
              rw [hloop] at hrun
              rw [hrun]
              simp only [observedDB_ok]
              exact EngineInv_markSalesReturnPosted _ _
                (EngineInv_of_loop_ok _ _ (salesReturnStockLoop_ok_eq ow r.items _ db4 hloop)
                  (EngineInv_sretDB3 r db ow htot' h))
      · rw [show r.post db = .error .crossOwner from by
          unfold SalesReturn.post
          rw [if_neg hposted, howner]
          simp [hcust]]
        simpa using h

theorem purchaseReturn_post_preserves_inv (r : PurchaseReturn) (db : DB)
    (h : EngineInv db) : EngineInv (observedDB db (r.post db)) := by
  by_cases hposted : r.posted = true
  · rw [show r.post db = .ok (r, db) from by
      unfold PurchaseReturn.post
      rw [if_pos hposted]]
    simpa using h
  · have hposted' : r.posted = false := by simpa using hposted
    cases howner : r.owner with
    | none =>
      rw [show r.post db = .error .ownerNotResolved from by
        unfold PurchaseReturn.post
        rw [if_neg hposted, howner]]
      simpa using h
    | some ow =>
      by_cases hsupp : r.supplier.owner = some ow
      · by_cases href : purchaseRefCross r.referenceInvoice ow = true
        · rw [show r.post db = .error .crossOwner from by
            unfold PurchaseReturn.post
            rw [if_neg hposted, howner]
            simp [hsupp, href]]
          simpa using h
        · have href' : purchaseRefCross r.referenceInvoice ow = false := by simpa using href
          by_cases htot : r.calculateTotal ≤ 0
          · rw [show r.post db = .ok (r, db) from by
              unfold PurchaseReturn.post
              rw [if_neg hposted, howner]
              simp [hsupp, href', htot]]
            simpa using h
          · have htot' : 0 < r.calculateTotal := lt_of_not_le htot
            have hrun := purchaseReturn_post_run r db ow howner hsupp href' hposted' htot'
            cases hloop : purchaseReturnStockLoop ow r.items (pretDB3 r db ow) with
            | error e =>
              rw [hloop] at hrun
              have hobs : observedDB db (r.post db) = db := by
                rw [hrun]
                rfl
              rw [hobs]
              exact h
            | ok db4 =>
              rw [hloop] at hrun
              rw [hrun]
              simp only [observedDB_ok]
              exact EngineInv_markPurchaseReturnPosted _ _
                (EngineInv_of_loop_ok _ _ (purchaseReturnStockLoop_ok_eq ow r.items _ db4 hloop)
                  (EngineInv_pretDB3 r db ow htot' h))
      · rw [show r.post db = .error .crossOwner from by
          unfold PurchaseReturn.post
          rw [if_neg hposted, howner]
          simp [hsupp]]
        simpa using h

theorem dailyExpense_post_preserves_inv (e : DailyExpense) (db : DB)
    (hWF : e.paidFrom ∈ db.accounts ∧ e.expenseHead ∈ db.accounts)
    (h : EngineInv db) : EngineInv (observedDB db (e.post db)) := by
  by_cases hnoop : e.posted = true ∨ e.amount ≤ 0
  · rw [show e.post db = .ok (e, db) from by
      unfold DailyExpense.post
      rw [if_pos hnoop]]
    simpa using h
  · have hamt : 0 < e.amount := lt_of_not_le (not_or.mp hnoop).2
    cases howner : e.owner with
    | none =>
      rw [show e.post db = .error .ownerNotResolved from by
        unfold DailyExpense.post
        rw [if_neg hnoop, howner]]
      simpa using h
    | some ow =>
      by_cases hpf : e.paidFrom.owner = ow
      · by_cases heh : e.expenseHead.owner = ow
        · cases hfind : db.dailyExpenses.find? (fun x => x.id == e.id) with
          | none =>
            rw [show e.post db = .error .notFound from by
              unfold DailyExpense.post
              rw [if_neg hnoop, howner]
              simp [hpf, heh, hfind]]
            simpa using h
          | some locked =>
            by_cases hlk : locked.posted = true
            · rw [show e.post db = .ok (e, db) from by
                unfold DailyExpense.post
                rw [if_neg hnoop, howner]
                simp [hpf, heh, hfind, hlk]]
              simpa using h
            · rw [show e.post db = .ok ({ e with posted := true },
                  markDailyExpensePosted
                    (createJE db ow e.date e.expenseHead.id e.paidFrom.id e.amount
                      .dailyExpense e.id) e.id) from by
                unfold DailyExpense.post
                rw [if_neg hnoop, howner]
                simp [hpf, heh, hfind, hlk]]
              simp only [observedDB_ok]
              exact EngineInv_markDailyExpensePosted _ _
                (EngineInv_createJE _ _ _ _ _ _ _ _ h hamt
                  ⟨e.expenseHead, hWF.2, rfl, heh⟩ ⟨e.paidFrom, hWF.1, rfl, hpf⟩)
        · rw [show e.post db = .error .crossOwner from by
            unfold DailyExpense.post
            rw [if_neg hnoop, howner]
            simp [hpf, heh]]
          simpa using h
      · rw [show e.post db = .error .crossOwner from by
          unfold DailyExpense.post
          rw [if_neg hnoop, howner]
          simp [hpf]]
        simpa using h

theorem cashBankTransfer_post_preserves_inv (t : CashBankTransfer) (db : DB)
    (hWF : t.fromAccount ∈ db.accounts ∧ t.toAccount ∈ db.accounts)
    (h : EngineInv db) : EngineInv (observedDB db (t.post db)) := by
  by_cases hnoop : t.posted = true ∨ t.amount ≤ 0
  · rw [show t.post db = .ok (t, db) from by
      unfold CashBankTransfer.post
      rw [if_pos hnoop]]
    simpa using h
  · have hamt : 0 < t.amount := lt_of_not_le (not_or.mp hnoop).2
    cases howner : t.owner with
    | none =>
      rw [show t.post db = .error .ownerNotResolved from by
        unfold CashBankTransfer.post
        rw [if_neg hnoop, howner]]
      simpa using h
    | some ow =>
      by_cases hfrom : t.fromAccount.owner = ow
      · by_cases hto : t.toAccount.owner = ow
        · by_cases hsame : t.fromAccount.id = t.toAccount.id
          · rw [show t.post db = .error .invalidDoc from by
              unfold CashBankTransfer.post
              rw [if_neg hnoop, howner]
              simp [hfrom, hto, hsame]]
            simpa using h
          · cases hfind : db.cashBankTransfers.find? (fun x => x.id == t.id) with
            | none =>
              rw [show t.post db = .error .notFound from by
                unfold CashBankTransfer.post
                rw [if_neg hnoop, howner]
                simp [hfrom, hto, hsame, hfind]]
              simpa using h
            | some locked =>
              by_cases hlk : locked.posted = true
              · rw [show t.post db = .ok (t, db) from by
                  unfold CashBankTransfer.post
                  rw [if_neg hnoop, howner]
                  simp [hfrom, hto, hsame, hfind, hlk]]
                simpa using h
              · rw [show t.post db = .ok ({ t with posted := true },
                    markCashBankTransferPosted
                      (createJE db ow t.date t.toAccount.id t.fromAccount.id t.amount
                        .cashBankTransfer t.id) t.id) from by
                  unfold CashBankTransfer.post
                  rw [if_neg hnoop, howner]
                  simp [hfrom, hto, hsame, hfind, hlk]]
                simp only [observedDB_ok]
                exact EngineInv_markCashBankTransferPosted _ _
                  (EngineInv_createJE _ _ _ _ _ _ _ _ h hamt
                    ⟨t.toAccount, hWF.2, rfl, hto⟩ ⟨t.fromAccount, hWF.1, rfl, hfrom⟩)
        · rw [show t.post db = .error .crossOwner from by
            unfold CashBankTransfer.post
            rw [if_neg hnoop, howner]
            simp [hfrom, hto]]
          simpa using h
      · rw [show t.post db = .error .crossOwner from by
          unfold CashBankTransfer.post
          rw [if_neg hnoop, howner]
          simp [hfrom]]
        simpa using h

theorem companyAcct_mem3 (db : DB) (ow : Nat) (c1 c2 c3 : String)
    (t1 t2 t3 : AccountType) :
    companyAcct db ow c1 t1 false false ∈
      (companyAcctDB (companyAcctDB (companyAcctDB db ow c1 t1 false false)
        ow c2 t2 false false) ow c3 t3 false false).accounts :=
  companyAcctDB_mono _ _ _ _ _ _ _
    (companyAcctDB_mono _ _ _ _ _ _ _ (companyAcct_mem db ow c1 t1 false false))

theorem stockAdjustment_post_preserves_inv (sa : StockAdjustment) (db : DB)
    (h : EngineInv db) : EngineInv (observedDB db (sa.post db)) := by
  by_cases hnoop : sa.posted = true ∨ sa.amount ≤ 0
  · rw [show sa.post db = .ok (sa, db) from by
      unfold StockAdjustment.post
      rw [if_pos hnoop]]
    simpa using h
  · have hamt : 0 < sa.amount := lt_of_not_le (not_or.mp hnoop).2
    cases howner : sa.owner with
    | none =>
      rw [show sa.post db = .error .ownerNotResolved from by
        unfold StockAdjustment.post
        rw [if_neg hnoop, howner]]
      simpa using h
    | some ow =>
      by_cases hpc : prodCross (db.products.find? (fun p => p.id == sa.productId)) ow = true
      · rw [show sa.post db = .error .crossOwner from by
          unfold StockAdjustment.post
          rw [if_neg hnoop, howner]
          simp [hpc]]
        simpa using h
      · cases hfind : db.stockAdjustments.find? (fun x => x.id == sa.id) with
        | none =>
          rw [show sa.post db = .error .notFound from by
            unfold StockAdjustment.post
            rw [if_neg hnoop, howner]
            simp [hpc, hfind]]
          simpa using h
        | some locked =>
          by_cases hlk : locked.posted = true
          · rw [show sa.post db = .ok (sa, db) from by
              unfold StockAdjustment.post
              rw [if_neg hnoop, howner]
              simp [hpc, hfind, hlk]]
            simpa using h
          · rw [show sa.post db = .ok ({ sa with posted := true },
                markStockAdjustmentPosted
                  (if (if sa.direction = .DOWN then -sa.qty else sa.qty) ≠ 0 then
                    adjustStock
                      (createJE
                        (companyAcctDB (companyAcctDB (companyAcctDB db ow "1200"
                          AccountType.ASSET false false) ow "3000" AccountType.EQUITY
                          false false) ow "5100" AccountType.EXPENSE false false)
                        ow sa.date
                        (if sa.direction = .DOWN then
                          (companyAcct (companyAcctDB (companyAcctDB db ow "1200"
                            AccountType.ASSET false false) ow "3000" AccountType.EQUITY
                            false false) ow "5100" AccountType.EXPENSE false false).id
                         else (companyAcct db ow "1200" AccountType.ASSET false false).id)
                        (if sa.direction = .DOWN then
                          (companyAcct db ow "1200" AccountType.ASSET false false).id
                         else (companyAcct (companyAcctDB db ow "1200" AccountType.ASSET
                           false false) ow "3000" AccountType.EQUITY false false).id)
                        sa.amount .stockAdjustment sa.id)
                      sa.productId (if sa.direction = .DOWN then -sa.qty else sa.qty)
                  else
                    createJE
                      (companyAcctDB (companyAcctDB (companyAcctDB db ow "1200"
                        AccountType.ASSET false false) ow "3000" AccountType.EQUITY
                        false false) ow "5100" AccountType.EXPENSE false false)
                      ow sa.date
                      (if sa.direction = .DOWN then
                        (companyAcct (companyAcctDB (companyAcctDB db ow "1200"
                          AccountType.ASSET false false) ow "3000" AccountType.EQUITY
                          false false) ow "5100" AccountType.EXPENSE false false).id
                       else (companyAcct db ow "1200" AccountType.ASSET false false).id)
                      (if sa.direction = .DOWN then
                        (companyAcct db ow "1200" AccountType.ASSET false false).id
                       else (companyAcct (companyAcctDB db ow "1200" AccountType.ASSET
                         false false) ow "3000" AccountType.EQUITY false false).id)
                      sa.amount .stockAdjustment sa.id)
                  sa.id) from by
              unfold StockAdjustment.post
              rw [if_neg hnoop, howner]
              by_cases hdir : sa.direction = .DOWN <;>
                simp [hpc, hfind, hlk, hdir]]
            simp only [observedDB_ok]
            have hJE : EngineInv (createJE
                (companyAcctDB (companyAcctDB (companyAcctDB db ow "1200"
                  AccountType.ASSET false false) ow "3000" AccountType.EQUITY
                  false false) ow "5100" AccountType.EXPENSE false false)
                ow sa.date
                (if sa.direction = .DOWN then
                  (companyAcct (companyAcctDB (companyAcctDB db ow "1200"
                    AccountType.ASSET false false) ow "3000" AccountType.EQUITY
                    false false) ow "5100" AccountType.EXPENSE false false).id
                 else (companyAcct db ow "1200" AccountType.ASSET false false).id)
                (if sa.direction = .DOWN then
                  (companyAcct db ow "1200" AccountType.ASSET false false).id
                 else (companyAcct (companyAcctDB db ow "1200" AccountType.ASSET
                   false false) ow "3000" AccountType.EQUITY false false).id)
                sa.amount .stockAdjustment sa.id) := by
              apply EngineInv_createJE _ _ _ _ _ _ _ _
                (EngineInv_companyAcctDB _ _ _ _ _ _
                  (EngineInv_companyAcctDB _ _ _ _ _ _
                    (EngineInv_companyAcctDB _ _ _ _ _ _ h))) hamt
              · by_cases hdir : sa.direction = .DOWN
                · rw [if_pos hdir]
                  exact ⟨_, companyAcct_mem _ ow "5100" .EXPENSE false false,
                    rfl, companyAcct_owner _ _ _ _ _ _⟩
                · rw [if_neg hdir]
                  exact ⟨_, companyAcct_mem3 db ow "1200" "3000" "5100" .ASSET .EQUITY .EXPENSE,
                    rfl, companyAcct_owner _ _ _ _ _ _⟩
              · by_cases hdir : sa.direction = .DOWN
                · rw [if_pos hdir]
                  exact ⟨_, companyAcct_mem3 db ow "1200" "3000" "5100" .ASSET .EQUITY .EXPENSE,
                    rfl, companyAcct_owner _ _ _ _ _ _⟩
                · rw [if_neg hdir]
                  exact ⟨_, companyAcctDB_mono _ _ _ _ _ _ _
                      (companyAcct_mem _ ow "3000" .EQUITY false false),
                    rfl, companyAcct_owner _ _ _ _ _ _⟩
            apply EngineInv_markStockAdjustmentPosted
            by_cases hdelta : (if sa.direction = .DOWN then -sa.qty else sa.qty) ≠ 0
            · rw [if_pos hdelta]
              exact EngineInv_adjustStock _ _ _ hJE
            · rw [if_neg hdelta]
              exact hJE

theorem partyOpening_preserves_inv (party : Party) (today : Nat) (db : DB)
    (h : EngineInv db) :
    EngineInv (match party.postOpeningBalance today db with
               | .ok db' => db'
               | .error _ => db) := by
  by_cases hop : party.openingBalance ≤ 0
  · rw [show party.postOpeningBalance today db = .ok db from by
      unfold Party.postOpeningBalance
      rw [if_pos hop]]
    exact h
  · have hamt : 0 < party.openingBalance := lt_of_not_le hop
    cases howner : party.owner with
    | none =>
      rw [show party.postOpeningBalance today db = .error .ownerNotResolved from by
        unfold Party.postOpeningBalance
        rw [if_neg hop, howner]]
      exact h
    | some ow =>
      rw [show party.postOpeningBalance today db = .ok (createJE
          (companyAcctDB (companyAcctDB db ow (controlCode party.partyType)
            (controlType party.partyType) false false) ow "3000"
            AccountType.EQUITY false false)
          ow today
          (if party.partyType = .CUSTOMER then
            (if party.openingBalanceIsDebit then
              (companyAcct db ow (controlCode party.partyType)
                (controlType party.partyType) false false).id
             else (companyAcct (companyAcctDB db ow (controlCode party.partyType)
               (controlType party.partyType) false false) ow "3000"
               AccountType.EQUITY false false).id)
           else
            (if party.openingBalanceIsDebit then
              (companyAcct (companyAcctDB db ow (controlCode party.partyType)
                (controlType party.partyType) false false) ow "3000"
                AccountType.EQUITY false false).id
             else (companyAcct db ow (controlCode party.partyType)
               (controlType party.partyType) false false).id))
          (if party.partyType = .CUSTOMER then
            (if party.openingBalanceIsDebit then
              (companyAcct (companyAcctDB db ow (controlCode party.partyType)
                (controlType party.partyType) false false) ow "3000"
                AccountType.EQUITY false false).id
             else (companyAcct db ow (controlCode party.partyType)
               (controlType party.partyType) false false).id)
           else
            (if party.openingBalanceIsDebit then
              (companyAcct db ow (controlCode party.partyType)
                (controlType party.partyType) false false).id
             else (companyAcct (companyAcctDB db ow (controlCode party.partyType)
               (controlType party.partyType) false false) ow "3000"
               AccountType.EQUITY false false).id))
          party.openingBalance .partyOpening party.id) from by
        unfold Party.postOpeningBalance
        rw [if_neg hop, howner]
        by_cases hpt : party.partyType = .CUSTOMER <;>
          by_cases hdb : party.openingBalanceIsDebit <;>
          simp [hpt, hdb]]
      apply EngineInv_createJE _ _ _ _ _ _ _ _
        (EngineInv_companyAcctDB _ _ _ _ _ _
          (EngineInv_companyAcctDB _ _ _ _ _ _ h)) hamt
      · by_cases hpt : party.partyType = .CUSTOMER <;>
          by_cases hdb : party.openingBalanceIsDebit <;>
          simp only [hpt, hdb, if_true, if_false] <;>
          first
          | exact ⟨_, companyAcct_mem2 db ow _ "3000" _ .EQUITY false false false false,
              rfl, companyAcct_owner _ _ _ _ _ _⟩
          | exact ⟨_, companyAcct_mem _ ow "3000" .EQUITY false false,
              rfl, companyAcct_owner _ _ _ _ _ _⟩
      · by_cases hpt : party.partyType = .CUSTOMER <;>
          by_cases hdb : party.openingBalanceIsDebit <;>
          simp only [hpt, hdb, if_true, if_false] <;>
          first
          | exact ⟨_, companyAcct_mem2 db ow _ "3000" _ .EQUITY false false false false,
              rfl, companyAcct_owner _ _ _ _ _ _⟩
          | exact ⟨_, companyAcct_mem _ ow "3000" .EQUITY false false,
              rfl, companyAcct_owner _ _ _ _ _ _⟩

theorem applyDoc_preserves_inv (db : DB) (d : Doc) (hWF : d.WF db)
    (h : EngineInv db) : EngineInv (applyDoc db d) := by
  cases d with
  | sales inv =>
    refine salesInvoice_post_preserves_inv inv db (fun a ha => ?_) h
    have hw : optAcctWF inv.paymentAccount db := hWF
    rw [ha] at hw
    exact hw
  | purchase inv =>
    refine purchaseInvoice_post_preserves_inv inv db (fun a ha => ?_) h
    have hw : optAcctWF inv.paymentAccount db := hWF
    rw [ha] at hw
    exact hw
  | sret r => exact salesReturn_post_preserves_inv r db h
  | pret r => exact purchaseReturn_post_preserves_inv r db h
  | pay p =>
    refine payment_post_preserves_inv p db (fun a ha => ?_) h
    have hw : optAcctWF p.account db := hWF
    rw [ha] at hw
    exact hw
  | expense e => exact dailyExpense_post_preserves_inv e db hWF h
  | transfer t => exact cashBankTransfer_post_preserves_inv t db hWF h
  | stockAdj sa => exact stockAdjustment_post_preserves_inv sa db h
  | partyOpening party today => exact partyOpening_preserves_inv party today db h

theorem reachable_engineInv (db : DB) (h : Reachable db) : EngineInv db := by
  induction h with
  | init db0 hinit =>
    obtain ⟨he, hb, hnd⟩ := hinit
    refine ⟨⟨hb, hnd⟩, ?_⟩
    rw [he]
    intro e he'
    cases he'
  | step db0 d hr hwf ih => exact applyDoc_preserves_inv db0 d hwf ih

/-- C9: in every state reachable by posting documents through the engine
(including party opening-balance conversion), every journal entry has a
strictly positive amount and its debit and credit accounts are rows of the
account table owned by the entry's own tenant — even though journal rows
are created without model validation. -/
theorem journal_entries_well_formed (db : DB) (h : Reachable db) :
    ∀ e ∈ db.entries, 0 < e.amount ∧
      (∃ a ∈ db.accounts, a.id = e.debitAccount ∧ a.owner = e.owner) ∧
      (∃ a ∈ db.accounts, a.id = e.creditAccount ∧ a.owner = e.owner) :=
  (reachable_engineInv db h).2

/-- C9 witness: posting the concrete FULL-payment invoice from a base state
yields a non-empty journal whose every entry satisfies the tenant-ownership
and positivity invariant. -/
theorem journal_entries_well_formed_witness :
    (applyDoc dbC1 (Doc.sales invC1)).entries ≠ [] ∧
    (∀ e ∈ (applyDoc dbC1 (Doc.sales invC1)).entries, 0 < e.amount ∧
      (∃ a ∈ (applyDoc dbC1 (Doc.sales invC1)).accounts,
        a.id = e.debitAccount ∧ a.owner = e.owner) ∧
      (∃ a ∈ (applyDoc dbC1 (Doc.sales invC1)).accounts,
        a.id = e.creditAccount ∧ a.owner = e.owner)) :=
  ⟨by with_unfolding_all decide,
    journal_entries_well_formed _
      (Reachable.step dbC1 (Doc.sales invC1)
        (Reachable.init dbC1 (by decide)) (by decide))⟩

theorem signedAmount_eq_rawPart (a : Account) (e : JournalEntry) :
    signedAmount a e =
      if isDebitNormal a.accountType then rawPart a e else -rawPart a e := by
  unfold signedAmount rawPart
  by_cases h1 : isDebitNormal a.accountType = true <;> simp [h1]

theorem sum_map_add {α : Type} (l : List α) (f g : α → ℚ) :
    (l.map (fun x => f x + g x)).sum = (l.map f).sum + (l.map g).sum := by
  induction l with
  | nil => simp
  | cons x xs ih =>
    simp only [List.map_cons, List.sum_cons, ih]
    ring

theorem sum_comm_lists {α β : Type} (A : List α) (B : List β) (f : α → β → ℚ) :
    (A.map (fun a => (B.map (f a)).sum)).sum =
      (B.map (fun b => (A.map (fun a => f a b)).sum)).sum := by
  induction A with
  | nil => simp
  | cons a A ih =>
    simp only [List.map_cons, List.sum_cons, ih, ← sum_map_add]

theorem sum_map_zero_of {α : Type} (l : List α) (f : α → ℚ)
    (h : ∀ x ∈ l, f x = 0) : (l.map f).sum = 0 := by
  induction l with
  | nil => rfl
  | cons x xs ih =>
    simp only [List.map_cons, List.sum_cons]
    rw [h x (List.mem_cons_self x xs), ih (fun y hy => h y (List.mem_cons_of_mem x hy))]
    simp

theorem sum_if_id (A : List Account) (x : Nat) (amt : ℚ)
    (hnd : A.Pairwise (fun a b => a.id ≠ b.id))
    (hmem : ∃ a ∈ A, a.id = x) :
    (A.map (fun a => if x == a.id then amt else 0)).sum = amt := by
  induction A with
  | nil =>
    obtain ⟨a, ha, -⟩ := hmem
    cases ha
  | cons a A ih =>
    obtain ⟨hhead, htail⟩ := List.pairwise_cons.mp hnd
    by_cases hax : a.id = x
    · have hrest : (A.map (fun b => if x == b.id then amt else 0)).sum = 0 := by
        apply sum_map_zero_of
        intro b hb
        have hne : a.id ≠ b.id := hhead b hb
        have : ¬(x == b.id) = true := by
          simp only [beq_iff_eq]
          intro hxb
          exact hne (hax.symm ▸ hxb)
        simp [this]
      simp only [List.map_cons, List.sum_cons, hrest]
      have : (x == a.id) = true := by simp [hax]
      simp [this]
    · have hhd : ¬(x == a.id) = true := by
        simp only [beq_iff_eq]
        intro hxa
        exact hax hxa.symm
      have hmem' : ∃ b ∈ A, b.id = x := by
        obtain ⟨b, hb, hbx⟩ := hmem
        rcases List.mem_cons.mp hb with hb1 | hb1
        · exact absurd (hb1 ▸ hbx) hax
        · exact ⟨b, hb1, hbx⟩
      simp only [List.map_cons, List.sum_cons, hhd]
      simp only [Bool.false_eq_true, if_false]
      rw [ih htail hmem']
      simp

theorem sum_map_neg {α : Type} (l : List α) (f : α → ℚ) :
    (l.map (fun x => -f x)).sum = -(l.map f).sum := by
  induction l with
  | nil => simp
  | cons x xs ih =>
    simp only [List.map_cons, List.sum_cons, ih]
    ring

theorem sum_rawPart_filter (l : List JournalEntry) (a : Account)
    (p q : JournalEntry → Bool)
    (hpq : ∀ e, p e = (q e && (e.debitAccount == a.id || e.creditAccount == a.id))) :
    ((l.filter p).map (rawPart a)).sum = ((l.filter q).map (rawPart a)).sum := by
  induction l with
  | nil => rfl
  | cons e es ih =>
    simp only [List.filter_cons, hpq e]
    cases hq : q e
    · simp only [Bool.false_and, Bool.false_eq_true, if_false]
      exact ih
    · simp only [Bool.true_and]
      cases ht : (e.debitAccount == a.id || e.creditAccount == a.id)
      · have hz : rawPart a e = 0 := by
          unfold rawPart
          have ht' := ht
          simp only [Bool.or_eq_false_iff] at ht'
          simp [ht'.1, ht'.2]
        simp only [Bool.false_eq_true, if_false, if_true, List.map_cons,
          List.sum_cons, hz, ih]
        ring
      · simp only [if_true, List.map_cons, List.sum_cons, ih]

theorem sum_rawPart_relevant (l : List JournalEntry) (ow : Nat) (a : Account)
    (asOf : Option Nat) :
    ((relevantEntries l ow a asOf).map (rawPart a)).sum =
      ((l.filter (fun e => e.owner == ow && dateLE asOf e.date)).map (rawPart a)).sum := by
  unfold relevantEntries
  cases asOf with
  | none =>
    apply sum_rawPart_filter
    intro e
    cases h1 : (e.owner == ow) <;>
      cases h2 : (e.debitAccount == a.id || e.creditAccount == a.id) <;>
      simp [dateLE, h1, h2]
  | some d =>
    simp only []
    rw [List.filter_filter]
    apply sum_rawPart_filter
    intro e
    cases h1 : (e.owner == ow) <;>
      cases h2 : (e.debitAccount == a.id || e.creditAccount == a.id) <;>
      cases h3 : (decide (e.date ≤ d)) <;>
      simp [dateLE, h1, h2, h3]

theorem balance_eq_sign_sum (db : DB) (ow : Nat) (a : Account) (asOf : Option Nat) :
    getAccountBalance db ow a asOf =
      (if isDebitNormal a.accountType then
        ((db.entries.filter (fun e => e.owner == ow && dateLE asOf e.date)).map
          (rawPart a)).sum
       else
        -((db.entries.filter (fun e => e.owner == ow && dateLE asOf e.date)).map
          (rawPart a)).sum) := by
  rw [getAccountBalance, balanceOfEntries_eq_sum]
  by_cases hdn : isDebitNormal a.accountType = true
  · simp only [hdn, if_true]
    rw [← sum_rawPart_relevant]
    congr 1
    apply List.map_congr_left
    intro e he
    rw [signedAmount_eq_rawPart]
    simp [hdn]
  · simp only [hdn, Bool.false_eq_true, if_false]
    rw [← sum_rawPart_relevant]
    rw [show ((relevantEntries db.entries ow a asOf).map (signedAmount a)).sum
        = ((relevantEntries db.entries ow a asOf).map (fun e => -rawPart a e)).sum from by
      congr 1
      apply List.map_congr_left
      intro e he
      rw [signedAmount_eq_rawPart]
      simp [hdn]]
    exact sum_map_neg _ _

theorem trialRow_net (db : DB) (ow : Nat) (asOf : Option Nat) (a : Account) :
    (trialRow db ow asOf a).debit - (trialRow db ow asOf a).credit =
      ((db.entries.filter (fun e => e.owner == ow && dateLE asOf e.date)).map
        (rawPart a)).sum := by
  unfold trialRow
  rw [balance_eq_sign_sum]
  by_cases hdn : isDebitNormal a.accountType = true
  · simp only [hdn, if_true]
    by_cases hge : 0 ≤ ((db.entries.filter (fun e =>
        e.owner == ow && dateLE asOf e.date)).map (rawPart a)).sum
    · rw [if_pos hge]
      simp
    · rw [if_neg hge]
      simp
  · simp only [hdn, Bool.false_eq_true, if_false]
    by_cases hge : 0 ≤ -((db.entries.filter (fun e =>
        e.owner == ow && dateLE asOf e.date)).map (rawPart a)).sum
    · rw [if_pos hge]
      simp
    · rw [if_neg hge]
      simp

theorem rawPart_rowSum_zero (db : DB) (ow : Nat) (e : JournalEntry)
    (hnd : db.accounts.Pairwise (fun a b => a.id ≠ b.id))
    (hg : GoodEntry db.accounts e) (how : e.owner = ow) :
    ((db.accounts.filter (fun a => a.owner == ow)).map (fun a => rawPart a e)).sum = 0 := by
  obtain ⟨-, ⟨ad, hadm, hadid, hadow⟩, ⟨ac, hacm, hacid, hacow⟩⟩ := hg
  have hndf : (db.accounts.filter (fun a => a.owner == ow)).Pairwise
      (fun a b => a.id ≠ b.id) := hnd.filter _
  have hD : ((db.accounts.filter (fun a => a.owner == ow)).map
      (fun a => if e.debitAccount == a.id then e.amount else 0)).sum = e.amount :=
    sum_if_id _ _ _ hndf
      ⟨ad, List.mem_filter.mpr ⟨hadm, by simp [hadow, how]⟩, hadid⟩
  have hC : ((db.accounts.filter (fun a => a.owner == ow)).map
      (fun a => if e.creditAccount == a.id then e.amount else 0)).sum = e.amount :=
    sum_if_id _ _ _ hndf
      ⟨ac, List.mem_filter.mpr ⟨hacm, by simp [hacow, how]⟩, hacid⟩
  unfold rawPart
  rw [sum_map_sub, hD, hC]
  ring

/-- C2: in every engine-reachable state the trial balance closes — for any
tenant and any as-of cutoff, the debit and credit column totals computed by
get_trial_balance are equal, so the balanced flag is true. -/
theorem trial_balance_closed (db : DB) (ow : Nat) (asOf : Option Nat)
    (h : Reachable db) :
    (getTrialBalance db ow asOf).balanced = true := by
  obtain ⟨⟨-, hnd⟩, hE⟩ := reachable_engineInv db h
  have hdiff :
      ((db.accounts.filter (fun a => a.owner == ow)).map
        (fun a => (trialRow db ow asOf a).debit)).sum -
      ((db.accounts.filter (fun a => a.owner == ow)).map
        (fun a => (trialRow db ow asOf a).credit)).sum = 0 := by
    rw [← sum_map_sub]
    rw [show ((db.accounts.filter (fun a => a.owner == ow)).map
          (fun a => (trialRow db ow asOf a).debit - (trialRow db ow asOf a).credit))
        = ((db.accounts.filter (fun a => a.owner == ow)).map
          (fun a => ((db.entries.filter
            (fun e => e.owner == ow && dateLE asOf e.date)).map (rawPart a)).sum)) from by
      apply List.map_congr_left
      intro a _
      exact trialRow_net db ow asOf a]
    rw [sum_comm_lists]
    apply sum_map_zero_of
    intro e he
    have hmem := List.mem_filter.mp he
    have how : e.owner = ow := by
      have h2 := hmem.2
      simp only [Bool.and_eq_true, beq_iff_eq] at h2
      exact h2.1
    exact rawPart_rowSum_zero db ow e hnd (hE e hmem.1) how
  have h1 : (getTrialBalance db ow asOf).totalDebit =
      ((db.accounts.filter (fun a => a.owner == ow)).map
        (fun a => (trialRow db ow asOf a).debit)).sum := by
    simp [getTrialBalance, List.map_map, Function.comp_def]
  have h2 : (getTrialBalance db ow asOf).totalCredit =
      ((db.accounts.filter (fun a => a.owner == ow)).map
        (fun a => (trialRow db ow asOf a).credit)).sum := by
    simp [getTrialBalance, List.map_map, Function.comp_def]
  have key : (getTrialBalance db ow asOf).totalDebit =
      (getTrialBalance db ow asOf).totalCredit := by
    rw [h1, h2]
    linarith
  have hb : (getTrialBalance db ow asOf).balanced =
      ((getTrialBalance db ow asOf).totalDebit ==
        (getTrialBalance db ow asOf).totalCredit) := rfl
  rw [hb, key, beq_self_eq_true]

/-- C2 witness: after posting the concrete FULL-payment sales invoice from
the base state, the trial balance for tenant 1 with an as-of cutoff is
balanced. -/
theorem trial_balance_closed_witness :
    (getTrialBalance (applyDoc dbC1 (Doc.sales invC1)) 1 (some 100)).balanced = true :=
  trial_balance_closed _ 1 (some 100)
    (Reachable.step dbC1 (Doc.sales invC1)
      (Reachable.init dbC1 (by decide)) (by decide))
